import Mathlib

/-!
Verification development for the checkpoint conversion engine of
`neuronx_distributed` (`scripts/checkpoint_converter.py`).

Tensors are modelled as nested lists (`Mat α` is a list of rows), tensor
slicing / concatenation / transposition as the corresponding list
operations, parameter names as `String`s (tested with Python-`in`
substring semantics), model states as ordered association lists
(mirroring Python `dict` insertion-order semantics), and fallible code
paths (`assert` / `raise` / `KeyError` / `IndexError` / attribute
errors) through the `Except String` monad.
-/

deriving instance DecidableEq for Except

namespace CkptConv

/-! ### Generic list toolkit -/

/-- `chunksExact n cnt l` is the list of `cnt` consecutive slices of length
`n` of `l`; with `l.length = cnt * n` this is the list-of-rows view of a
torch `reshape` that splits the leading axis into `(cnt, n, ...)`. -/
def chunksExact (n cnt : ℕ) (l : List α) : List (List α) :=
  (List.range cnt).map fun i => (l.drop (i * n)).take n

theorem length_chunksExact (n cnt : ℕ) (l : List α) :
    (chunksExact n cnt l).length = cnt := by
  simp [chunksExact]

theorem getD_append_left' {l₁ l₂ : List α} {n : ℕ} (d : α) (h : n < l₁.length) :
    (l₁ ++ l₂).getD n d = l₁.getD n d := by
  simp [List.getD_eq_getElem?_getD, List.getElem?_append_left h]

theorem getD_append_right' {l₁ l₂ : List α} {n : ℕ} (d : α) (h : l₁.length ≤ n) :
    (l₁ ++ l₂).getD n d = l₂.getD (n - l₁.length) d := by
  simp [List.getD_eq_getElem?_getD, List.getElem?_append_right h]

theorem getD_chunksExact {n cnt i : ℕ} (l : List α) (h : i < cnt) :
    (chunksExact n cnt l).getD i [] = (l.drop (i * n)).take n := by
  simp [chunksExact, List.getD_eq_getElem?_getD, List.getElem?_range h]

theorem chunksExact_succ (n cnt : ℕ) (l : List α) :
    chunksExact n (cnt + 1) l = l.take n :: chunksExact n cnt (l.drop n) := by
  simp only [chunksExact, List.range_succ_eq_map, List.map_cons, List.map_map]
  refine congrArg₂ _ (by simp) (List.map_congr_left fun i _ => ?_)
  simp only [Function.comp_apply, List.drop_drop]
  rw [Nat.succ_mul, Nat.add_comm (i * n) n]

theorem flatten_chunksExact {n cnt : ℕ} {l : List α} (h : l.length = cnt * n) :
    (chunksExact n cnt l).flatten = l := by
  induction cnt generalizing l with
  | zero =>
    have : l = [] := List.eq_nil_of_length_eq_zero (by simpa using h)
    simp [this, chunksExact]
  | succ c ih =>
    rw [chunksExact_succ]
    have hd : (l.drop n).length = c * n := by
      simp only [List.length_drop, h, Nat.succ_mul]; omega
    simp [ih hd]

theorem chunksExact_flatten {n : ℕ} {L : List (List α)} {cnt : ℕ}
    (hL : L.length = cnt) (hall : ∀ c ∈ L, c.length = n) :
    chunksExact n cnt L.flatten = L := by
  induction L generalizing cnt with
  | nil =>
    subst hL; simp [chunksExact]
  | cons c L' ih =>
    subst hL
    have hc : c.length = n := hall c (by simp)
    rw [List.length_cons, chunksExact_succ, List.flatten_cons]
    rw [List.take_left' hc]
    have : List.drop n (c ++ L'.flatten) = L'.flatten := by
      rw [← hc]; exact List.drop_left _ _
    rw [this, ih rfl (fun d hd => hall d (by simp [hd]))]

theorem length_of_mem_chunksExact {n cnt : ℕ} {l : List α}
    (h : l.length = cnt * n) {c : List α} (hc : c ∈ chunksExact n cnt l) :
    c.length = n := by
  simp only [chunksExact, List.mem_map, List.mem_range] at hc
  obtain ⟨i, hi, rfl⟩ := hc
  have : i * n + n ≤ l.length := by
    rw [h, ← Nat.succ_mul]
    exact Nat.mul_le_mul_right _ hi
  simp only [List.length_take, List.length_drop]
  omega

theorem mem_of_mem_chunksExact {n cnt : ℕ} {l : List α} {c : List α}
    (hc : c ∈ chunksExact n cnt l) {x : α} (hx : x ∈ c) : x ∈ l := by
  simp only [chunksExact, List.mem_map, List.mem_range] at hc
  obtain ⟨i, _, rfl⟩ := hc
  exact List.mem_of_mem_drop (List.mem_of_mem_take hx)

theorem map_getD_range {l : List α} {n : ℕ} (d : α) (h : n = l.length) :
    (List.range n).map (fun i => l.getD i d) = l := by
  subst h
  apply List.ext_getElem (by simp)
  intro i h1 h2
  simp [List.getD_eq_getElem?_getD, List.getElem?_eq_getElem (by simpa using h2)]

theorem getD_flatMap_grid (f : ℕ → ℕ → α) {a b i j : ℕ} (d : α)
    (hi : i < a) (hj : j < b) :
    ((List.range a).flatMap fun x => (List.range b).map fun y => f x y).getD
      (i * b + j) d = f i j := by
  induction a generalizing f i with
  | zero => omega
  | succ a' ih =>
    rw [List.range_succ_eq_map, List.flatMap_cons, List.flatMap_map]
    cases i with
    | zero =>
      rw [Nat.zero_mul, Nat.zero_add,
        getD_append_left' d (by simpa using hj)]
      simp [List.getD_eq_getElem?_getD, List.getElem?_map,
        List.getElem?_range hj]
    | succ i' =>
      have hlen : ((List.range b).map fun y => f 0 y).length = b := by simp
      have hge : ((List.range b).map fun y => f 0 y).length ≤ i' * b + b + j := by
        simp; omega
      rw [show (i' + 1) * b + j = i' * b + b + j by ring,
        getD_append_right' d hge, hlen]
      have : i' * b + b + j - b = i' * b + j := by omega
      rw [this]
      exact ih (fun x y => f (x + 1) y) (by omega)

/-! ### Matrices (2-D tensors as lists of rows) -/

/-- A 2-D tensor: a list of rows. -/
abbrev Mat (α : Type u) := List (List α)

/-- `torch.Tensor.narrow(0, s, n)`. -/
def narrow0 (s n : ℕ) (M : Mat α) : Mat α := (M.drop s).take n

/-- `torch.Tensor.narrow(1, s, n)`. -/
def narrow1 (s n : ℕ) (M : Mat α) : Mat α := M.map fun r => (r.drop s).take n

/-- `narrow(dim, s, n)` for `dim ∈ {0, 1}`. -/
def narrowD (d s n : ℕ) (M : Mat α) : Mat α :=
  if d = 0 then narrow0 s n M else narrow1 s n M

/-- `tensor.size(0)`. -/
def size0 (M : Mat α) : ℕ := M.length

/-- `tensor.size(1)` (for rectangular tensors). -/
def size1 (M : Mat α) : ℕ := (M.headD []).length

/-- `tensor.size(dim)` for `dim ∈ {0, 1}`. -/
def sizeD (d : ℕ) (M : Mat α) : ℕ := if d = 0 then size0 M else size1 M

/-- `torch.cat(Ms, dim=0)`. -/
def catD0 (Ms : List (Mat α)) : Mat α := Ms.flatten

/-- `torch.cat(Ms, dim=1)`: row-wise concatenation. -/
def catD1 : List (Mat α) → Mat α
  | [] => []
  | [M] => M
  | M :: Ms => M.zipWith (· ++ ·) (catD1 Ms)

/-- `torch.cat(Ms, dim)` for `dim ∈ {0, 1}`. -/
def catDim (d : ℕ) (Ms : List (Mat α)) : Mat α :=
  if d = 0 then catD0 Ms else catD1 Ms

/-- `tensor.repeat(m, 1)`: stack `m` copies along axis 0. -/
def repeatRows (m : ℕ) (M : Mat α) : Mat α := (List.replicate m M).flatten

/-- `torch.transpose(M, 0, 1)` on a rectangular tensor. -/
def transposeM [Inhabited α] (M : Mat α) : Mat α :=
  (List.range (size1 M)).map fun j => M.map fun r => r.getD j default

/-- `torch.chunk(M, m)[0]` (chunk sizes are `ceil(len/m)` along axis 0). -/
def torchChunkFirst (m : ℕ) (M : Mat α) : Mat α :=
  M.take ((M.length + m - 1) / m)

/-- `Rect c M`: every row of `M` has length `c`. -/
def Rect (c : ℕ) (M : Mat α) : Prop := ∀ r ∈ M, r.length = c

theorem length_repeatRows (m : ℕ) (M : Mat α) :
    (repeatRows m M).length = m * M.length := by
  induction m with
  | zero => simp [repeatRows]
  | succ k ih =>
    simp only [repeatRows, List.replicate_succ, List.flatten_cons,
      List.length_append] at *
    rw [ih]; ring

theorem take_repeatRows {m : ℕ} (hm : 0 < m) (M : Mat α) :
    (repeatRows m M).take M.length = M := by
  obtain ⟨k, rfl⟩ : ∃ k, m = k + 1 := ⟨m - 1, by omega⟩
  simp only [repeatRows, List.replicate_succ, List.flatten_cons]
  exact List.take_left _ _

theorem size1_eq_of_rect {M : Mat α} {c : ℕ} (h : Rect c M) (hne : M ≠ []) :
    size1 M = c := by
  cases M with
  | nil => exact absurd rfl hne
  | cons r M' => exact h r (by simp)

theorem length_catD1 {Ms : List (Mat α)} {n : ℕ} (hne : Ms ≠ [])
    (hlen : ∀ M ∈ Ms, M.length = n) : (catD1 Ms).length = n := by
  induction Ms with
  | nil => exact absurd rfl hne
  | cons M Ms ih =>
    cases Ms with
    | nil => simpa [catD1] using hlen M (by simp)
    | cons M' Ms' =>
      have h1 := hlen M (by simp)
      have h2 : (catD1 (M' :: Ms')).length = n :=
        ih (by simp) (fun N hN => hlen N (by simp [hN]))
      simp [catD1, h1, h2]

theorem mem_zipWith_append {A B : Mat α} {r : List α}
    (h : r ∈ A.zipWith (· ++ ·) B) : ∃ x ∈ A, ∃ y ∈ B, r = x ++ y := by
  induction A generalizing B with
  | nil => simp at h
  | cons x A ih =>
    cases B with
    | nil => simp at h
    | cons y B =>
      simp only [List.zipWith_cons_cons, List.mem_cons] at h
      rcases h with rfl | h
      · exact ⟨x, by simp, y, by simp, rfl⟩
      · obtain ⟨x', hx', y', hy', rfl⟩ := ih h
        exact ⟨x', by simp [hx'], y', by simp [hy'], rfl⟩

theorem rect_catD1 {Ms : List (Mat α)} {n : ℕ}
    (hlen : ∀ M ∈ Ms, M.length = n)
    (hrect : ∀ M ∈ Ms, Rect (size1 M) M) :
    Rect ((Ms.map size1).sum) (catD1 Ms) := by
  induction Ms with
  | nil => intro r hr; simp [catD1] at hr
  | cons M Ms ih =>
    cases Ms with
    | nil =>
      intro r hr
      simp only [catD1] at hr
      simp only [List.map_cons, List.map_nil, List.sum_cons, List.sum_nil,
        Nat.add_zero]
      exact hrect M (by simp) r hr
    | cons M' Ms' =>
      intro r hr
      simp only [catD1] at hr
      obtain ⟨x, hx, y, hy, rfl⟩ := mem_zipWith_append hr
      simp only [List.map_cons, List.sum_cons, List.length_append]
      have e1 : x.length = size1 M := hrect M (by simp) x hx
      have e2 : y.length = ((M' :: Ms').map size1).sum :=
        ih (fun N hN => hlen N (by simp [hN]))
          (fun N hN => hrect N (by simp [hN])) y hy
      simp only [List.map_cons, List.sum_cons] at e2
      omega

theorem zipWith_append_getD_left {A B : Mat α} {j : ℕ} (d : α)
    (hA : ∀ x ∈ A, j < x.length) :
    List.zipWith (fun x y => (x ++ y).getD j d) A B =
      List.zipWith (fun x _ => x.getD j d) A B := by
  induction A generalizing B with
  | nil => simp
  | cons x A ih =>
    cases B with
    | nil => simp
    | cons y B =>
      simp only [List.zipWith_cons_cons]
      rw [getD_append_left' d (hA x (by simp)),
        ih (fun x hx => hA x (by simp [hx]))]

theorem zipWith_append_getD_right {A B : Mat α} {j a : ℕ} (d : α)
    (hA : ∀ x ∈ A, x.length = a) (hj : a ≤ j) :
    List.zipWith (fun x y => (x ++ y).getD j d) A B =
      List.zipWith (fun _ y => y.getD (j - a) d) A B := by
  induction A generalizing B with
  | nil => simp
  | cons x A ih =>
    cases B with
    | nil => simp
    | cons y B =>
      simp only [List.zipWith_cons_cons]
      rw [getD_append_right' d (by rw [hA x (by simp)]; exact hj),
        hA x (by simp), ih (fun x hx => hA x (by simp [hx]))]

theorem zipWith_fst_getD {A B : Mat α} {j : ℕ} (d : α)
    (hAB : A.length = B.length) :
    List.zipWith (fun x _ => x.getD j d) A B = A.map (fun x => x.getD j d) := by
  induction A generalizing B with
  | nil => simp
  | cons x A ih =>
    cases B with
    | nil => simp at hAB
    | cons y B => simp only [List.zipWith_cons_cons, List.map_cons,
        ih (by simpa using hAB)]

theorem zipWith_snd_getD {A B : Mat α} {j : ℕ} (d : α)
    (hAB : A.length = B.length) :
    List.zipWith (fun _ y => y.getD j d) A B = B.map (fun y => y.getD j d) := by
  induction A generalizing B with
  | nil => cases B with
    | nil => simp
    | cons y B => simp at hAB
  | cons x A ih =>
    cases B with
    | nil => simp at hAB
    | cons y B => simp only [List.zipWith_cons_cons, List.map_cons,
        ih (by simpa using hAB)]

theorem transposeM_zipWith_append [Inhabited α] {A B : Mat α} {a b : ℕ}
    (hAB : A.length = B.length) (hpos : 0 < A.length)
    (hA : Rect a A) (hB : Rect b B) :
    transposeM (A.zipWith (· ++ ·) B) = transposeM A ++ transposeM B := by
  have hsA : size1 A = a := size1_eq_of_rect hA (by intro h; simp [h] at hpos)
  have hsB : size1 B = b := size1_eq_of_rect hB
    (by intro h; rw [h] at hAB; simp only [List.length_nil] at hAB; omega)
  have hsize : size1 (A.zipWith (· ++ ·) B) = a + b := by
    cases A with
    | nil => simp at hpos
    | cons x A' =>
      cases B with
      | nil => simp at hAB
      | cons y B' =>
        simp only [List.zipWith_cons_cons, size1, List.headD_cons,
          List.length_append]
        rw [hA x (by simp), hB y (by simp)]
  unfold transposeM
  rw [hsize, hsA, hsB, List.range_add, List.map_append, List.map_map]
  congr 1
  · apply List.map_congr_left
    intro j hj
    simp only [List.mem_range] at hj
    rw [List.map_zipWith, zipWith_append_getD_left _ (fun x hx => by rw [hA x hx]; exact hj),
      zipWith_fst_getD _ hAB]
  · apply List.map_congr_left
    intro j hj
    simp only [List.mem_range, Function.comp_apply] at hj ⊢
    rw [List.map_zipWith,
      zipWith_append_getD_right (a := a) _ (fun x hx => hA x hx) (by omega),
      zipWith_snd_getD _ hAB]
    have harith : a + j - a = j := by omega
    rw [harith]

theorem transposeM_catD1 [Inhabited α] {Ms : List (Mat α)} {n : ℕ}
    (hn : 0 < n) (hlen : ∀ M ∈ Ms, M.length = n)
    (hrect : ∀ M ∈ Ms, Rect (size1 M) M) :
    transposeM (catD1 Ms) = (Ms.map transposeM).flatten := by
  induction Ms with
  | nil => simp [catD1, transposeM, size1]
  | cons M Ms ih =>
    cases Ms with
    | nil => simp [catD1]
    | cons M' Ms' =>
      have hcatlen : (catD1 (M' :: Ms')).length = n :=
        length_catD1 (by simp) (fun N hN => hlen N (by simp [hN]))
      have hcatrect : Rect (((M' :: Ms').map size1).sum) (catD1 (M' :: Ms')) :=
        rect_catD1 (fun N hN => hlen N (by simp [hN]))
          (fun N hN => hrect N (by simp [hN]))
      show transposeM (M.zipWith (· ++ ·) (catD1 (M' :: Ms'))) = _
      rw [transposeM_zipWith_append (by rw [hlen M (by simp), hcatlen])
        (by rw [hlen M (by simp)]; exact hn) (hrect M (by simp)) hcatrect]
      rw [ih (fun N hN => hlen N (by simp [hN])) (fun N hN => hrect N (by simp [hN]))]
      simp

theorem transposeM_transposeM [Inhabited α] {M : Mat α} {c : ℕ}
    (hc : 0 < c) (hM : 0 < M.length) (hrect : Rect c M) :
    transposeM (transposeM M) = M := by
  have hs : size1 M = c := size1_eq_of_rect hrect (by intro h; simp [h] at hM)
  have hTlen : (transposeM M).length = c := by simp [transposeM, hs]
  have hTrect : Rect M.length (transposeM M) := by
    intro r hr
    simp only [transposeM, List.mem_map] at hr
    obtain ⟨j, _, rfl⟩ := hr
    simp
  have hsT : size1 (transposeM M) = M.length :=
    size1_eq_of_rect hTrect
      (by intro h; rw [h] at hTlen; simp only [List.length_nil] at hTlen; omega)
  have key : transposeM (transposeM M)
      = (List.range M.length).map
          fun i => (transposeM M).map fun r => r.getD i default := by
    rw [show transposeM (transposeM M)
        = (List.range (size1 (transposeM M))).map
            (fun i => (transposeM M).map fun r => r.getD i default) from rfl, hsT]
  rw [key]
  apply List.ext_getElem (by simp)
  intro i h1 h2
  simp only [List.getElem_map, List.getElem_range]
  have hrow : (transposeM M).map (fun r => r.getD i default)
      = (List.range c).map fun j => M[i].getD j default := by
    rw [show transposeM M
        = (List.range (size1 M)).map (fun j => M.map fun r => r.getD j default)
        from rfl, hs, List.map_map]
    apply List.map_congr_left
    intro j _
    simp only [Function.comp_apply]
    rw [List.getD_eq_getElem?_getD, List.getElem?_map,
      List.getElem?_eq_getElem (by simpa using h2)]
    simp
  rw [hrow, map_getD_range default (by rw [hrect M[i] (List.getElem_mem h2)])]

/-! ### Strings: Python `in`, `str.replace`, `str.split('.')`, `int(...)` -/

/-- `startsWithL pat s`: `pat` is a leading segment of `s`. -/
def startsWithL : List Char → List Char → Bool
  | [], _ => true
  | _ :: _, [] => false
  | p :: ps, c :: cs => p = c && startsWithL ps cs

/-- `containsSubL pat s`: Python's `pat in s` substring test. -/
def containsSubL (pat : List Char) : List Char → Bool
  | [] => startsWithL pat []
  | c :: rest => startsWithL pat (c :: rest) || containsSubL pat rest

/-- Python `pat in s` on `String`s. -/
def hasSub (pat s : String) : Bool := containsSubL pat.data s.data

/-- `endsWithL pat s`: `pat` is a trailing segment of `s` (`str.endswith`). -/
def endsWithL (pat s : List Char) : Bool := startsWithL pat.reverse s.reverse

/-- Python `s.endswith(pat)` on `String`s. -/
def strEndsWith (s pat : String) : Bool := endsWithL pat.data s.data

/-- Python `s.replace(pat, rep)`: replace all non-overlapping occurrences,
scanning left to right.  Structural recursion on a fuel argument (always
called with `fuel = s.length`, which suffices since each step consumes at
least one character). -/
def replaceLAux (pat rep : List Char) : ℕ → List Char → List Char
  | _, [] => []
  | 0, s => s
  | fuel + 1, c :: rest =>
    if pat ≠ [] ∧ startsWithL pat (c :: rest) = true then
      rep ++ replaceLAux pat rep fuel ((c :: rest).drop pat.length)
    else
      c :: replaceLAux pat rep fuel rest

/-- Python `s.replace(pat, rep)` on `List Char`. -/
def replaceL (pat rep : List Char) (s : List Char) : List Char :=
  replaceLAux pat rep s.length s

/-- Python `s.replace(pat, rep)` on `String`s. -/
def strReplace (s pat rep : String) : String := ⟨replaceL pat.data rep.data s.data⟩

/-- Python `s.split(sep)` for a single-character separator. -/
def splitOnChar (sep : Char) : List Char → List (List Char)
  | [] => [[]]
  | c :: rest =>
    let r := splitOnChar sep rest
    if c = sep then [] :: r
    else (c :: r.headD []) :: r.tail

/-- Python `name.split(".")`. -/
def splitDots (s : String) : List String :=
  (splitOnChar '.' s.data).map fun l => ⟨l⟩

/-- Python `".".join(parts)`. -/
def joinDots : List String → String
  | [] => ""
  | [p] => p
  | p :: ps => p ++ "." ++ joinDots ps

def digitVal (c : Char) : Option ℕ :=
  if '0' ≤ c ∧ c ≤ '9' then some (c.toNat - '0'.toNat) else none

def parseNatAux : List Char → ℕ → Option ℕ
  | [], acc => some acc
  | c :: cs, acc =>
    match digitVal c with
    | some d => parseNatAux cs (acc * 10 + d)
    | none => none

/-- Python `int(s)` for non-negative decimal strings (`none` = `ValueError`). -/
def parseNat? (s : String) : Option ℕ :=
  if s.data = [] then none else parseNatAux s.data 0

/-! ### Python-`dict` association lists (insertion-ordered) -/

def dlookup : List (String × β) → String → Option β
  | [], _ => none
  | (k, v) :: rest, n => if k = n then some v else dlookup rest n

def dmem (s : List (String × β)) (n : String) : Bool := (dlookup s n).isSome

/-- `d[n] = v`: replace in place if `n` is a key, else append (Python dicts
keep the original position on re-assignment and append new keys). -/
def dinsert : List (String × β) → String → β → List (String × β)
  | [], n, v => [(n, v)]
  | (k, w) :: rest, n, v =>
    if k = n then (k, v) :: rest else (k, w) :: dinsert rest n v

/-- `del d[n]`. -/
def ddel : List (String × β) → String → List (String × β)
  | [], _ => []
  | (k, w) :: rest, n => if k = n then rest else (k, w) :: ddel rest n

/-- Build a dict from a pair list (later pairs overwrite earlier ones, as in a
Python dict comprehension). -/
def dictOfPairs (ps : List (String × β)) : List (String × β) :=
  ps.foldl (fun d p => dinsert d p.1 p.2) []

/-! ### `CheckpointConverterBase` string helpers (from the source) -/

/-- `CheckpointConverterBase` partition-dim class attributes. -/
def embedding_partition_dim : ℕ := 0
def qkv_partition_dim : ℕ := 0
def gate_up_proj_partition_dim : ℕ := 0
def down_proj_partition_dim : ℕ := 1
def o_proj_partition_dim : ℕ := 1

/-- `CheckpointConverterBase.is_qkv_weight`. -/
def is_qkv_weight (name : String) : Bool :=
  hasSub "q_proj" name || hasSub "k_proj" name || hasSub "v_proj" name ||
    hasSub "qkv_proj" name || hasSub "query_key_value" name

/-- `CheckpointConverterBase.get_partition_dim`; the final branch raises
`AssertionError(f"Unknown partition_dim for {name}")`. -/
def get_partition_dim (name : String) : Except String ℕ :=
  if hasSub "embed_tokens" name || hasSub "lm_head" name then
    .ok embedding_partition_dim
  else if is_qkv_weight name then .ok qkv_partition_dim
  else if hasSub "gate_proj" name || hasSub "up_proj" name ||
      hasSub "gate_up_proj" name then .ok gate_up_proj_partition_dim
  else if hasSub "down_proj" name then .ok down_proj_partition_dim
  else if hasSub "o_proj" name then .ok o_proj_partition_dim
  else .error ("Unknown partition_dim for " ++ name)

/-- `CheckpointConverterBase.get_hf_to_nxd_model_keys`: returns the pair
`(keys_hf_to_nxd, keys_nxd_to_hf)`; the reverse map is built like the Python
dict comprehension `{v: k for k, v in keys_hf_to_nxd.items()}`. -/
def get_hf_to_nxd_model_keys (qkv_linear is_gqa : Bool) :
    List (String × String) × List (String × String) :=
  let keys_hf_to_nxd : List (String × String) :=
    if qkv_linear then
      [("q_proj.weight", "qkv_proj.weight_q"),
       ("k_proj.weight", "qkv_proj.weight_k"),
       ("v_proj.weight", "qkv_proj.weight_v")]
    else if is_gqa then
      [("q_proj.weight", "q_proj.weight"),
       ("k_proj.weight", "k_proj.weight"),
       ("v_proj.weight", "v_proj.weight")]
    else
      [("q_proj.weight", "qkv_proj.weight"),
       ("k_proj.weight", "qkv_proj.weight"),
       ("v_proj.weight", "qkv_proj.weight")]
  (keys_hf_to_nxd, dictOfPairs (keys_hf_to_nxd.map fun p => (p.2, p.1)))

/-- `CheckpointConverterBase.get_fused_qkv_key`. -/
def get_fused_qkv_key : String := "qkv_proj.weight_qkv"

/-- `CheckpointConverterBase.get_weight_key`: maps between HF-style and
NxD-style QKV parameter names by rewriting the final two dot-components
through the given key map; a missing entry is a Python `KeyError`. -/
def get_weight_key (keys_hf_to_nxd keys_nxd_to_hf : List (String × String))
    (name : String) (hf_to_nxd : Bool) : Except String String :=
  if !is_qkv_weight name then .ok name
  else
    let keys := if hf_to_nxd then keys_hf_to_nxd else keys_nxd_to_hf
    let parts := splitDots name
    let front := joinDots (parts.take (parts.length - 2))
    let back := joinDots (parts.drop (parts.length - 2))
    match dlookup keys back with
    | some v => .ok (front ++ "." ++ v)
    | none => .error ("KeyError: " ++ back)

/-- The `megatron_name_to_hf_name` table of `rename_keys_for_megatron`, in
source order (Python dicts iterate in insertion order). -/
def megatron_name_to_hf_name : List (String × String) :=
  [("language_model.embedding.word_embeddings.weight", "model.embed_tokens.weight"),
   ("language_model.encoder.final_layernorm.weight", "model.norm.weight"),
   ("language_model.encoder.", "model."),
   ("self_attention.", "self_attn."),
   ("core_attention.rotary_emb.inv_freq", "rotary_emb.inv_freq"),
   ("dense.weight", "o_proj.weight"),
   ("dense_h_to_4h.weight", "gate_up_proj.weight"),
   ("dense_4h_to_h.weight", "down_proj.weight"),
   ("language_model.output_layer.weight", "lm_head.weight"),
   ("query_key_value.weight", "qkv_proj.weight")]

/-- `check_replace_complete` (nested in `rename_keys_for_megatron`). -/
def check_replace_complete (strings : List String) (key meg_str hf_str : String) :
    Bool :=
  strings.any fun s => hasSub s key && hasSub s (meg_str ++ hf_str)

/-- The replacement loop of `rename_keys_for_megatron`, folding over the
table entries and stopping early once an embedding/final-norm canonical form
is reached. -/
def renameMegatronGo (hf_to_nxdt : Bool) : List (String × String) → String → String
  | [], key => key
  | (meg, hf) :: rest, key =>
    let key := if !hf_to_nxdt then strReplace key meg hf else strReplace key hf meg
    if check_replace_complete ["embed", "final_layernorm", "model.norm"] key meg hf
    then key
    else renameMegatronGo hf_to_nxdt rest key

/-- `CheckpointConverterBase.rename_keys_for_megatron`. -/
def rename_keys_for_megatron (key : String) (model_style : String)
    (hf_to_nxdt : Bool) : String :=
  if model_style ≠ "megatron" then key
  else renameMegatronGo hf_to_nxdt megatron_name_to_hf_name key

/-- `CheckpointConverterBase.is_q_or_o_for_megatron`. -/
def is_q_or_o_for_megatron (model_style : String) (name : String) : Bool :=
  if model_style ≠ "megatron" then false
  else hasSub "q" name || hasSub "o_proj" name

/-- `CheckpointConverterBase.find_size`: one third of the fused QKV size. -/
def find_size (size_total : ℕ) : ℕ := size_total / 3

/-! ### GQA head reshuffling (query / `o_proj` index arithmetic) -/

/-- Hardware backend (`--hw_backend trn1|trn2`): `trn1` uses interleaved KV
replication, `trn2` blocked KV replication. -/
inductive Hw where
  | trn1
  | trn2
deriving DecidableEq

/-- The query/`o_proj` head-reshuffling slice of `convert_full_state_to_tp`
(checkpoint_converter.py lines 532–564) for one TP rank `r`.  Row-level
view of the tensor code: `chunksExact` is `reshape`, `getD` is tensor
indexing, `flatten` is `torch.cat` / the final flattening `reshape`;
`q`, `hd`, `k`, `m`, `t` are `q_heads`, `head_dim`, `kv_heads`,
`kv_size_multiplier`, `tp_size`. -/
def gqaQSliceRows (hw : Hw) (q hd k m t r : ℕ) (M : Mat α) : Mat α :=
  let blocks := chunksExact hd q M
  match hw with
  | .trn2 =>
    let group_size := q / k
    let groups := chunksExact group_size k blocks
    let weights := ((List.range k).map fun i => groups.getD i []).flatten
    let start_idx := r * (q / t)
    let end_idx := (r + 1) * (q / t)
    ((weights.drop start_idx).take (end_idx - start_idx)).flatten
  | .trn1 =>
    let g := q / (k * m)
    let groups := chunksExact g (blocks.length / g) blocks
    let weights := ((List.range (t / k)).map fun i =>
      (List.range k).map fun j => groups.getD (j * t / k + i) []).flatten
    (weights.getD r []).flatten

/-- The query/`o_proj` head re-ordering of `merge_tp_checkpoints`
(checkpoint_converter.py lines 338–353), applied to the `dim 0`
concatenation of the per-rank shards. -/
def gqaQMergeRows (hw : Hw) (q hd k m t : ℕ) (M : Mat α) : Mat α :=
  let blocks := chunksExact hd q M
  match hw with
  | .trn2 =>
    let group_size := q / k
    let groups := chunksExact group_size k blocks
    ((List.range k).map fun i => (groups.getD i []).flatten).flatten
  | .trn1 =>
    let g := q / (k * m)
    let groups := chunksExact g (blocks.length / g) blocks
    ((List.range k).map fun j =>
      (((List.range (t / k)).map fun i =>
        groups.getD (i * k + j) []).flatten).flatten).flatten

theorem length_flatten_const {L : List (List α)} {n : ℕ}
    (h : ∀ x ∈ L, x.length = n) : L.flatten.length = L.length * n := by
  induction L with
  | nil => simp
  | cons x L ih =>
    simp only [List.flatten_cons, List.length_append, List.length_cons,
      h x (by simp), ih (fun y hy => h y (by simp [hy]))]
    ring

theorem getD_mem_of_lt {l : List α} {i : ℕ} (d : α) (h : i < l.length) :
    l.getD i d ∈ l := by
  rw [List.getD_eq_getElem?_getD, List.getElem?_eq_getElem h]
  exact List.getElem_mem h

theorem eq_of_getD {l₁ l₂ : List α} (d : α) (hlen : l₁.length = l₂.length)
    (h : ∀ i < l₁.length, l₁.getD i d = l₂.getD i d) : l₁ = l₂ := by
  apply List.ext_getElem hlen
  intro i h1 h2
  have hi := h i h1
  rwa [List.getD_eq_getElem?_getD, List.getD_eq_getElem?_getD,
    List.getElem?_eq_getElem h1, List.getElem?_eq_getElem h2,
    Option.getD_some, Option.getD_some] at hi

theorem getD_flatten_map_grid (f : ℕ → ℕ → α) {a b i j : ℕ} (d : α)
    (hi : i < a) (hj : j < b) :
    (((List.range a).map fun x => (List.range b).map fun y => f x y).flatten).getD
      (i * b + j) d = f i j :=
  getD_flatMap_grid f d hi hj

theorem flatten_map_getD_flatten {β : Type u} {L : List (List (List β))} {n : ℕ}
    (hn : n = L.length) :
    ((List.range n).map fun r => (L.getD r []).flatten).flatten
      = L.flatten.flatten := by
  have h1 : ((List.range n).map fun r => (L.getD r []).flatten)
      = List.map List.flatten ((List.range n).map fun r => L.getD r []) := by
    rw [List.map_map]; rfl
  rw [h1, map_getD_range ([] : List (List β)) hn, ← List.flatten_flatten]

/-- Interleaved (trn1) GQA round trip: concatenating the per-TP-rank query
slices in rank order and applying the merge-side re-ordering restores the
original tensor, provided `tp_size = kv_heads * kv_size_multiplier` and
`q_heads = tp_size * (q_heads / tp_size)`. -/
theorem gqaQ_roundtrip_trn1 (k m g hd : ℕ) (hk : 0 < k) (hm : 0 < m)
    (hg : 0 < g) (M : Mat α) (hlen : M.length = k * m * g * hd) :
    gqaQMergeRows .trn1 (k * m * g) hd k m (k * m)
      (catD0 ((List.range (k * m)).map fun r =>
        gqaQSliceRows .trn1 (k * m * g) hd k m (k * m) r M)) = M := by
  have hkm : 0 < k * m := Nat.mul_pos hk hm
  have e1 : k * m * g / (k * m) = g := Nat.mul_div_cancel_left g hkm
  have e2 : k * m / k = m := Nat.mul_div_cancel_left m hk
  have e3 : ∀ j : ℕ, j * (k * m) / k = j * m := fun j => by
    rw [show j * (k * m) = k * (j * m) by ring, Nat.mul_div_cancel_left _ hk]
  have e5 : k * m * g / g = k * m := Nat.mul_div_cancel _ hg
  simp only [gqaQSliceRows, gqaQMergeRows, catD0, length_chunksExact, e1, e2,
    e3, e5]
  set blocks := chunksExact hd (k * m * g) M with hblocks
  have hblen : blocks.length = k * m * g := length_chunksExact _ _ _
  have hball : ∀ b ∈ blocks, b.length = hd :=
    fun b hb => length_of_mem_chunksExact hlen hb
  set groups := chunksExact g (k * m) blocks with hgroups
  have hglen : groups.length = k * m := length_chunksExact _ _ _
  have hgall : ∀ c ∈ groups, c.length = g :=
    fun c hc => length_of_mem_chunksExact hblen hc
  set S := ((List.range m).map fun i =>
      (List.range k).map fun j => groups.getD (j * m + i) []).flatten with hS
  have hSinner : ∀ x ∈ (List.range m).map fun i =>
      (List.range k).map fun j => groups.getD (j * m + i) [], x.length = k := by
    intro x hx
    simp only [List.mem_map] at hx
    obtain ⟨i, _, rfl⟩ := hx
    simp
  have hSlen : S.length = m * k := by
    rw [hS, length_flatten_const hSinner]
    simp
  have hidxlt : ∀ i < m, ∀ j < k, j * m + i < k * m := by
    intro i hi j hj
    calc j * m + i < j * m + m := by omega
    _ = (j + 1) * m := by ring
    _ ≤ k * m := Nat.mul_le_mul_right m hj
  have hSmem : ∀ x ∈ S, x ∈ groups := by
    intro x hx
    rw [hS, List.mem_flatten] at hx
    obtain ⟨l, hl, hxl⟩ := hx
    simp only [List.mem_map, List.mem_range] at hl
    obtain ⟨i, hi, rfl⟩ := hl
    simp only [List.mem_map, List.mem_range] at hxl
    obtain ⟨j, hj, rfl⟩ := hxl
    exact getD_mem_of_lt [] (by rw [hglen]; exact hidxlt i hi j hj)
  have hSall : ∀ x ∈ S, x.length = g := fun x hx => hgall x (hSmem x hx)
  have hSgrid : ∀ i < m, ∀ j < k, S.getD (i * k + j) [] = groups.getD (j * m + i) [] := by
    intro i hi j hj
    rw [hS]
    exact getD_flatten_map_grid (fun i j => groups.getD (j * m + i) []) [] hi hj
  -- the concatenated rank slices, as rows
  have hcat : ((List.range (k * m)).map fun r => (S.getD r []).flatten).flatten
      = S.flatten.flatten :=
    flatten_map_getD_flatten (by rw [hSlen]; ring)
  rw [hcat]
  -- re-chunking the concatenation recovers the shuffled block list
  have hSfl_len : S.flatten.length = k * m * g := by
    rw [length_flatten_const hSall, hSlen]; ring
  have hSfl_blocks : ∀ b ∈ S.flatten, b.length = hd := by
    intro b hb
    rw [List.mem_flatten] at hb
    obtain ⟨grp, hgrp, hbg⟩ := hb
    exact hball b (mem_of_mem_chunksExact (hgroups ▸ hSmem grp hgrp) hbg)
  have hB : chunksExact hd (k * m * g) (S.flatten.flatten) = S.flatten :=
    chunksExact_flatten hSfl_len hSfl_blocks
  rw [hB]
  have hG : chunksExact g (k * m) S.flatten = S :=
    chunksExact_flatten (by rw [hSlen]; ring) hSall
  rw [hG]
  -- the merge-side selection, flattened over (j, i), is `groups`
  have hsel1 : ∀ j, (((List.range m).map fun i => S.getD (i * k + j) []).flatten).flatten
      = (((List.range m).map fun i => (S.getD (i * k + j) []).flatten)).flatten := by
    intro j
    rw [List.flatten_flatten, List.map_map]; rfl
  simp only [hsel1]
  have hstep : ((List.range k).map fun j =>
      (((List.range m).map fun i => (S.getD (i * k + j) []).flatten)).flatten).flatten
      = (((List.range k).map fun j =>
        (List.range m).map fun i => (S.getD (i * k + j) []).flatten)).flatten.flatten := by
    rw [List.flatten_flatten, List.map_map]; rfl
  rw [hstep]
  have hZ : ((List.range k).map fun j =>
        (List.range m).map fun i => (S.getD (i * k + j) []).flatten).flatten
      = (List.range (k * m)).map fun p => (groups.getD p []).flatten := by
    have hZinner : ∀ x ∈ (List.range k).map fun j =>
        (List.range m).map fun i => (S.getD (i * k + j) []).flatten,
        x.length = m := by
      intro x hx
      simp only [List.mem_map] at hx
      obtain ⟨j, _, rfl⟩ := hx
      simp
    apply eq_of_getD ([] : Mat α)
    · rw [length_flatten_const hZinner]
      simp [Nat.mul_comm]
    · intro p hp
      have hplen : p < k * m := by
        rwa [length_flatten_const hZinner, List.length_map,
          List.length_range] at hp
      have hj : p / m < k := Nat.div_lt_of_lt_mul (by rwa [Nat.mul_comm] at hplen)
      have hi : p % m < m := Nat.mod_lt _ hm
      have hdecomp : p = (p / m) * m + p % m := by
        rw [Nat.mul_comm]; exact (Nat.div_add_mod p m).symm
      have hr : ((List.range (k * m)).map
          fun p' => (groups.getD p' []).flatten).getD p []
          = (groups.getD p []).flatten := by
        rw [List.getD_eq_getElem?_getD, List.getElem?_map,
          List.getElem?_range hplen]
        rfl
      rw [hr]
      conv_lhs => rw [hdecomp]
      rw [getD_flatten_map_grid (fun j i => (S.getD (i * k + j) []).flatten) _ hj hi]
      rw [hSgrid _ hi _ hj, ← hdecomp]
  rw [hZ]
  have hfin : ((List.range (k * m)).map fun p => (groups.getD p []).flatten).flatten
      = groups.flatten.flatten := flatten_map_getD_flatten (by rw [hglen])
  rw [hfin, flatten_chunksExact hblen, flatten_chunksExact hlen]

/-- Blocked (trn2) GQA round trip: concatenating the per-TP-rank query
slices in rank order and applying the merge-side re-ordering restores the
original tensor, provided `kv_heads ∣ q_heads` and `tp_size ∣ q_heads`. -/
theorem gqaQ_roundtrip_trn2 (q k m t hd : ℕ) (hk : 0 < k) (ht : 0 < t)
    (hkq : k ∣ q) (htq : t ∣ q) (M : Mat α) (hlen : M.length = q * hd) :
    gqaQMergeRows .trn2 q hd k m t
      (catD0 ((List.range t).map fun r =>
        gqaQSliceRows .trn2 q hd k m t r M)) = M := by
  have hkc : k * (q / k) = q := Nat.mul_div_cancel' hkq
  have htc : t * (q / t) = q := Nat.mul_div_cancel' htq
  have esub : ∀ r : ℕ, (r + 1) * (q / t) - r * (q / t) = q / t := by
    intro r; rw [Nat.succ_mul, Nat.add_sub_cancel_left]
  simp only [gqaQSliceRows, gqaQMergeRows, catD0, esub]
  set blocks := chunksExact hd q M with hblocks
  have hblen : blocks.length = q := length_chunksExact _ _ _
  have hball : ∀ b ∈ blocks, b.length = hd :=
    fun b hb => length_of_mem_chunksExact hlen hb
  set groups := chunksExact (q / k) k blocks with hgroups
  have hglen : groups.length = k := length_chunksExact _ _ _
  have hw : (List.range k).map (fun i => groups.getD i []) = groups :=
    map_getD_range _ hglen.symm
  have hwfl : ((List.range k).map fun i => groups.getD i []).flatten = blocks := by
    rw [hw, hgroups, flatten_chunksExact (by rw [hblen]; exact hkc.symm)]
  rw [hwfl]
  have hsl : ((List.range t).map fun r =>
      ((blocks.drop (r * (q / t))).take (q / t)).flatten)
      = (chunksExact (q / t) t blocks).map List.flatten := by
    simp only [chunksExact, List.map_map]
    rfl
  rw [hsl]
  have hcat : ((chunksExact (q / t) t blocks).map List.flatten).flatten = M := by
    rw [← List.flatten_flatten, flatten_chunksExact (by rw [hblen]; exact htc.symm),
      hblocks, flatten_chunksExact hlen]
  rw [hcat, ← hblocks, ← hgroups]
  have h2 : ((List.range k).map fun i => (groups.getD i []).flatten)
      = List.map List.flatten ((List.range k).map fun i => groups.getD i []) := by
    rw [List.map_map]; rfl
  rw [h2, hw, ← List.flatten_flatten, hgroups,
    flatten_chunksExact (by rw [hblen]; exact hkc.symm), hblocks,
    flatten_chunksExact hlen]

/-- KV replication round trip: concatenating the per-TP-rank slices of the
`m`-fold repeated KV tensor and keeping the first of the `m` chunks
(`torch.chunk(·, m)[0]`) restores the original tensor. -/
theorem kv_roundtrip (m t : ℕ) (hm : 0 < m) (M : Mat α)
    (hdiv : t ∣ m * M.length) :
    torchChunkFirst m (catD0 ((List.range t).map fun r =>
      narrow0 (r * (m * M.length / t)) (m * M.length / t) (repeatRows m M)))
      = M := by
  have hcat : ((List.range t).map fun r =>
      narrow0 (r * (m * M.length / t)) (m * M.length / t) (repeatRows m M))
      = chunksExact (m * M.length / t) t (repeatRows m M) := rfl
  have hlen : (repeatRows m M).length = t * (m * M.length / t) := by
    rw [length_repeatRows, Nat.mul_div_cancel' hdiv]
  rw [hcat, catD0, flatten_chunksExact hlen]
  unfold torchChunkFirst
  rw [length_repeatRows]
  have harith : (m * M.length + m - 1) / m = M.length := by
    rw [show m * M.length + m - 1 = (m - 1) + m * M.length by omega,
      Nat.add_mul_div_left _ _ hm, Nat.div_eq_of_lt (by omega)]
    omega
  rw [harith, take_repeatRows hm]

/-- Plain dim-0 sharding round trip (`narrow(0, r·ps, ps)` then
`torch.cat(dim=0)`). -/
theorem dim0_roundtrip (t ps : ℕ) (M : Mat α) (hlen : M.length = t * ps) :
    catD0 ((List.range t).map fun r => narrow0 (r * ps) ps M) = M := by
  have hcat : ((List.range t).map fun r => narrow0 (r * ps) ps M)
      = chunksExact ps t M := rfl
  rw [hcat, catD0, flatten_chunksExact hlen]

theorem catD1_maps {fs : List (List α → List α)} (hne : fs ≠ []) (M : Mat α) :
    catD1 (fs.map fun f => M.map f)
      = M.map fun row => (fs.map fun f => f row).flatten := by
  induction fs with
  | nil => exact absurd rfl hne
  | cons f fs ih =>
    cases fs with
    | nil =>
      simp only [List.map_cons, List.map_nil, catD1]
      exact List.map_congr_left fun row _ => by simp
    | cons f' fs' =>
      show List.zipWith _ (M.map f) (catD1 ((f' :: fs').map fun f => M.map f)) = _
      rw [ih (by simp)]
      rw [List.zipWith_map (· ++ ·) f
        (fun row => (((f' :: fs').map fun f => f row)).flatten) M M,
        List.zipWith_same]
      exact List.map_congr_left fun row _ => by simp

/-- Plain dim-1 sharding round trip (`narrow(1, r·ps, ps)` then
`torch.cat(dim=1)`). -/
theorem dim1_roundtrip (t ps : ℕ) (ht : 0 < t) (M : Mat α)
    (hrect : Rect (t * ps) M) :
    catD1 ((List.range t).map fun r => narrow1 (r * ps) ps M) = M := by
  have h1 : ((List.range t).map fun r => narrow1 (r * ps) ps M)
      = ((List.range t).map fun r (row : List α) => (row.drop (r * ps)).take ps).map
          fun f => M.map f := by
    rw [List.map_map]; rfl
  rw [h1, catD1_maps (by simp; omega) M]
  conv_rhs => rw [← List.map_id M]
  apply List.map_congr_left
  intro row hrow
  have h2 : (((List.range t).map fun r (row : List α) =>
      (row.drop (r * ps)).take ps).map fun f => f row).flatten
      = (chunksExact ps t row).flatten := by
    rw [List.map_map]; rfl
  rw [h2, flatten_chunksExact (hrect row hrow), id]

/-! ### Converter arguments, model config, model states -/

/-- The command-line arguments consumed by the conversion core.  I/O-related
flags (`load_xser`, `save_xser`, `input_dir`, …) belong to the external
serialization collaborators and are not part of the core; `model_key`
filtering is a no-op for weight-name dictionaries (`"model"` is never a
parameter name) and `coalesce_qkv` is a driver-level pre-pass, so neither is
modelled. -/
structure CArgs where
  tp_size : ℕ := 1
  pp_size : ℕ := 1
  ep_size : ℕ := 1
  kv_size_multiplier : ℕ := 1
  hw_backend : Hw := .trn1
  qkv_linear : Bool := false
  fuse_qkv : Bool := false
  model_style : String := "hf"
  convert_from_full_state : Bool := false
  n_layers : ℕ := 0
deriving DecidableEq

/-- The fields of `config.json` read by the converter. -/
structure MConfig where
  num_attention_heads : ℕ
  num_key_value_heads : ℕ
  hidden_size : ℕ
  num_hidden_layers : ℕ := 0
deriving DecidableEq

/-- A model state: an insertion-ordered name → tensor dictionary. -/
abbrev StateL (α : Type u) := List (String × α)

/-- Modelled from the spec: `stage_to_pipeline_parallel_rank` is imported
from `neuronx_distributed.pipeline.partition`, which is not among the
provided sources.  Spec §3 (*PipelinePartition*) and §4.6 describe the
pipeline partition as evenly dividing the layers across
`pp_size * virtual_pp_size` stages; in the `virtual_pp_size = 1` scope used
throughout this development a stage is its pipeline-parallel rank, so the
mapping is the identity on stages. -/
def stage_to_pipeline_parallel_rank (stage : ℕ) (pp_size : ℕ) : ℕ :=
  let _ := pp_size
  stage

/-- Python `name.split(".")[2]` followed by `int(...)`: an `IndexError` when
there are fewer than three dot-components, a `ValueError` when the component
is not a decimal numeral. -/
def pyLayerIdx (name : String) : Except String ℕ :=
  let parts := splitDots name
  if 2 < parts.length then
    match parseNat? (parts.getD 2 "") with
    | some n => .ok n
    | none => .error ("ValueError: invalid literal for int(): " ++ name)
  else .error ("IndexError: " ++ name)

/-- The pipeline-cut search of `convert_full_state_to_tp` (lines 474–480):
the stage of the first partition boundary whose cut-layer index is `≥` the
layer index, or `partitions.length` when none matches. -/
def findCutStage : List String → ℕ → ℕ → Except String ℕ
  | [], _, idx => .ok idx
  | cut :: rest, layer_idx, idx => do
    let cut_layer_idx ← pyLayerIdx cut
    if layer_idx ≤ cut_layer_idx then .ok idx
    else findCutStage rest layer_idx (idx + 1)

/-! ### `convert_full_state_to_tp` (full → sharded, lines 445–610) -/

/-- The EP-slice and TP-slice sections of the `for name, full_p` loop body
of `convert_full_state_to_tp` (lines 485–601), reached once the PP filter
has admitted the parameter. -/
def convertParamSlices [Inhabited α] (args : CArgs) (config : MConfig)
    (tp_rank ep_rank : ℕ) (pstate : StateL (Mat α)) (name : String)
    (full_p : Mat α) : Except String (StateL (Mat α)) := do
  let tp_size := args.tp_size
  let ep_size := args.ep_size
  let kv_size_multiplier := args.kv_size_multiplier
  let q_heads := config.num_attention_heads
  let kv_heads := config.num_key_value_heads
  let head_dim := config.hidden_size / q_heads
  let is_gqa : Bool := q_heads != kv_heads
  let keys := get_hf_to_nxd_model_keys args.qkv_linear is_gqa
  -- ############ EP slice ############
  let pstate ←
    if hasSub "expert_mlps" name then do
      let expert_dim_size := size0 full_p
      if expert_dim_size % ep_size != 0 then
        Except.error ("Expert dimension (" ++ toString expert_dim_size ++
          ") is not divisible by expert parallelism degree (" ++
          toString ep_size ++ ").")
      else
        let num_local_experts := expert_dim_size / ep_size
        pure (dinsert pstate name
          (narrow0 (num_local_experts * ep_rank) num_local_experts full_p))
    else pure pstate
  -- ############ TP slice ############
  if (is_qkv_weight name || hasSub "o_proj" name) && args.qkv_linear then
    let name ← get_weight_key keys.1 keys.2 name true
    if hasSub "weight_k" name || hasSub "weight_v" name ||
        is_q_or_o_for_megatron args.model_style name then
      let repeated_kv := repeatRows kv_size_multiplier full_p
      let dim_size := size0 repeated_kv
      if dim_size % tp_size != 0 then
        Except.error "0th dim after KV replication is not divisible by tp_size"
      else
        let partition_size := dim_size / tp_size
        let partition_dim ←
          if hasSub "o_proj" name then get_partition_dim name else pure 0
        let to_load := narrowD partition_dim (tp_rank * partition_size)
          partition_size repeated_kv
        pure (dinsert pstate name to_load)
    else
      let full_p := if hasSub "o_proj" name then transposeM full_p else full_p
      let to_load := gqaQSliceRows args.hw_backend q_heads head_dim kv_heads
        kv_size_multiplier tp_size tp_rank full_p
      let to_load := if hasSub "o_proj" name then transposeM to_load else to_load
      pure (dinsert pstate name to_load)
  else if hasSub "embed_tokens" name || is_qkv_weight name ||
      hasSub "o_proj" name || hasSub "down_proj" name ||
      hasSub "lm_head" name then
    let partition_dim ← get_partition_dim name
    let dim_size := sizeD partition_dim full_p
    if dim_size % tp_size != 0 then
      Except.error "vocab size is not divisiable"
    else
      let partition_size := dim_size / tp_size
      pure (dinsert pstate name (narrowD partition_dim
        (tp_rank * partition_size) partition_size full_p))
  else if hasSub "gate_proj" name || hasSub "up_proj" name then
    let partition_dim ← get_partition_dim name
    let dim_size := sizeD partition_dim full_p
    if dim_size % tp_size != 0 then
      Except.error "vocab size is not divisiable"
    else
      let partition_size := dim_size / tp_size
      let to_load := narrowD partition_dim (tp_rank * partition_size)
        partition_size full_p
      let token := if hasSub "gate_proj" name then "gate_proj" else "up_proj"
      let updated_name := strReplace name token "gate_up_proj"
      match dlookup pstate updated_name with
      | some existing =>
        if token = "gate_proj" then
          pure (dinsert pstate updated_name
            (catDim partition_dim [to_load, existing]))
        else
          pure (dinsert pstate updated_name
            (catDim partition_dim [existing, to_load]))
      | none => pure (dinsert pstate updated_name to_load)
  else
    -- no TP
    pure (dinsert pstate name full_p)

/-- The body of the `for name, full_p in full_state.items()` loop of
`convert_full_state_to_tp` (lines 459–601): the PP filter followed by the
EP/TP slicing of `convertParamSlices`. -/
def convertOneParam [Inhabited α] (args : CArgs) (config : MConfig)
    (partitions : List String) (tp_rank pp_rank ep_rank : ℕ)
    (pstate : StateL (Mat α)) (name : String) (full_p : Mat α) :
    Except String (StateL (Mat α)) := do
  let pp_size := args.pp_size
  -- ############ PP slice ############
  -- Embedding only in first PP
  if pp_rank != 0 && hasSub "embed_tokens" name then return pstate
  -- Non-expert parameters only in EP rank 0
  if ep_rank != 0 && !hasSub "expert_mlps" name then return pstate
  -- LMhead and final layer norm only in last PP rank
  if pp_rank != pp_size - 1 &&
      (hasSub "lm_head" name || hasSub "model.norm.weight" name) then
    return pstate
  if hasSub "layers" name then
    let layer_idx ← pyLayerIdx name
    let current_stage ← findCutStage partitions layer_idx 0
    let current_pp_rank := stage_to_pipeline_parallel_rank current_stage pp_size
    if current_pp_rank != pp_rank then return pstate
  convertParamSlices args config tp_rank ep_rank pstate name full_p

/-- One step of the key-renaming loops of `merge_tp_checkpoints`
(lines 286–290) and `convert_full_state_to_tp` (lines 602–606):
`partial_state[rename_keys_for_megatron(key, style, hf_to_nxdt)] =
partial_state[key]`, and for megatron style `del partial_state[key]`. -/
def renameLoopStep (model_style : String) (hf_to_nxdt : Bool)
    (s : StateL α) (key : String) : Except String (StateL α) :=
  match dlookup s key with
  | some v =>
    let s := dinsert s (rename_keys_for_megatron key model_style hf_to_nxdt) v
    .ok (if model_style = "megatron" then ddel s key else s)
  | none => .error ("KeyError: " ++ key)

/-- `CheckpointConverterBase.modify_qkv_for_megatron` (lines 157–209): a
no-op unless `model_style == 'megatron'`; otherwise rewrites
query/key-value parameter names and fuses/splits the corresponding tensors,
iterating over a snapshot of the keys.  Missing-key accesses are Python
`KeyError`s. -/
def modify_qkv_for_megatron [Inhabited α] (pstate : StateL (Mat α))
    (args : CArgs) : Except String (StateL (Mat α)) :=
  if args.model_style ≠ "megatron" then .ok pstate
  else if !args.qkv_linear then
    if args.convert_from_full_state then
      -- merge k_proj, q_proj and v_proj to query_key_value.weight
      (pstate.map (·.1)).foldlM (fun s key =>
        if hasSub "q_proj" key then
          match dlookup s key, dlookup s (strReplace key "q_proj" "k_proj"),
              dlookup s (strReplace key "q_proj" "v_proj") with
          | some q, some k, some v =>
            let s := dinsert s (strReplace key "q_proj" "query_key_value")
              (catD0 [q, k, v])
            .ok (ddel (ddel (ddel s key) (strReplace key "q_proj" "k_proj"))
              (strReplace key "q_proj" "v_proj"))
          | _, _, _ => .error ("KeyError: " ++ key)
        else .ok s) pstate
    else .ok pstate
  else
    if args.convert_from_full_state then
      (pstate.map (·.1)).foldlM (fun s key =>
        if hasSub "query_key_value.weight_q" key then
          match dlookup s key with
          | some v =>
            .ok (ddel (dinsert s
              (strReplace key "query_key_value.weight_q" "query.weight") v) key)
          | none => .error ("KeyError: " ++ key)
        else if (hasSub "query_key_value.weight_k" key ||
            hasSub "query_key_value.weight_v" key) && dmem s key then
          let wk := if strEndsWith key "query_key_value.weight_k" then key
            else strReplace key "query_key_value.weight_v" "query_key_value.weight_k"
          let wv := if strEndsWith key "query_key_value.weight_k" then
            strReplace key "query_key_value.weight_k" "query_key_value.weight_v"
            else key
          let original_key := if strEndsWith key "query_key_value.weight_k" then
            strReplace key "query_key_value.weight_k" "key_value.weight"
            else strReplace key "query_key_value.weight_v" "key_value.weight"
          match dlookup s wk, dlookup s wv with
          | some tk, some tv =>
            .ok (ddel (ddel (dinsert s original_key (catD0 [tk, tv])) wk) wv)
          | _, _ => .error ("KeyError: " ++ key)
        else .ok s) pstate
    else
      (pstate.map (·.1)).foldlM (fun s key =>
        if hasSub "query.weight" key then
          match dlookup s key with
          | some v =>
            .ok (ddel (dinsert s
              (strReplace key "query.weight" "qkv_proj.weight_q") v) key)
          | none => .error ("KeyError: " ++ key)
        else if hasSub "key_value.weight" key then
          match dlookup s key with
          | some v =>
            let split_size := size0 v / 2
            if size0 v = 2 * split_size ∧ 0 < split_size then
              let t1 := narrow0 0 split_size v
              let t2 := narrow0 split_size split_size v
              .ok (ddel (dinsert (dinsert s
                (strReplace key "key_value.weight" "qkv_proj.weight_k") t1)
                (strReplace key "key_value.weight" "qkv_proj.weight_v") t2) key)
            else .error "ValueError: torch.split unpack mismatch"
          | none => .error ("KeyError: " ++ key)
        else .ok s) pstate

/-- Anchored match of `re.match(r"model\.layers\.(\d+)\.self_attn\.<c4>\.<c5start>…", key)`
on dot-components: components 0–4 must be `model`, `layers`, a numeral,
`self_attn`, `c4`, and component 5 must start with `c5start` (a `re.match`
only anchors the prefix). -/
def matchLayersAttnKey (c4 c5start key : String) : Option ℕ :=
  let parts := splitDots key
  if decide (parts.getD 0 "" = "model") && decide (parts.getD 1 "" = "layers") &&
      decide (parts.getD 3 "" = "self_attn") && decide (parts.getD 4 "" = c4) &&
      startsWithL c5start.data (parts.getD 5 "").data &&
      decide (5 < parts.length) then
    parseNat? (parts.getD 2 "")
  else none

/-- `CheckpointConverterBase.convert_partial_state_to_non_fused_qkv`
(lines 227–248): split each fused `qkv_proj.weight_qkv` into its
`weight_q` / `weight_k` / `weight_v` thirds. -/
def convert_partial_state_to_non_fused_qkv [Inhabited α]
    (pstate : StateL (Mat α)) (keys_nxd_to_hf : List (String × String)) :
    Except String (StateL (Mat α)) :=
  let matching := pstate.filterMap fun kv =>
    (matchLayersAttnKey "qkv_proj" "weight_qkv" kv.1).map fun n => (n, kv.1)
  matching.foldlM (fun s im =>
    match dlookup s im.2 with
    | some qkv =>
      let size := find_size (size0 qkv)
      if size0 qkv = 3 * size then
        let q := narrow0 0 size qkv
        let k := narrow0 size size qkv
        let v := narrow0 (2 * size) size qkv
        let s := ddel s im.2
        match (keys_nxd_to_hf.map (·.1)).find? (fun kk => hasSub "weight_q" kk),
            (keys_nxd_to_hf.map (·.1)).find? (fun kk => hasSub "weight_k" kk),
            (keys_nxd_to_hf.map (·.1)).find? (fun kk => hasSub "weight_v" kk) with
        | some q_key, some k_key, some v_key =>
          .ok (dinsert (dinsert (dinsert s
            ("model.layers." ++ toString im.1 ++ ".self_attn." ++ q_key) q)
            ("model.layers." ++ toString im.1 ++ ".self_attn." ++ k_key) k)
            ("model.layers." ++ toString im.1 ++ ".self_attn." ++ v_key) v)
        | _, _, _ => .error "StopIteration"
      else .error "RuntimeError: torch.split size mismatch"
    | none => .error ("KeyError: " ++ im.2)) pstate

/-- `CheckpointConverterBase.convert_partial_state_to_fused_qkv`
(lines 252–266): concatenate `weight_q` / `weight_k` / `weight_v` into the
fused `qkv_proj.weight_qkv`. -/
def convert_partial_state_to_fused_qkv [Inhabited α]
    (pstate : StateL (Mat α)) (keys_nxd_to_hf : List (String × String)) :
    Except String (StateL (Mat α)) :=
  let layer_numbers := pstate.filterMap fun kv =>
    matchLayersAttnKey "qkv_proj" "weight_q" kv.1
  layer_numbers.foldlM (fun s i =>
    match (keys_nxd_to_hf.map (·.1)).find? (fun kk => hasSub "weight_q" kk),
        (keys_nxd_to_hf.map (·.1)).find? (fun kk => hasSub "weight_k" kk),
        (keys_nxd_to_hf.map (·.1)).find? (fun kk => hasSub "weight_v" kk) with
    | some q_key, some k_key, some v_key =>
      let qn := "model.layers." ++ toString i ++ ".self_attn." ++ q_key
      let kn := "model.layers." ++ toString i ++ ".self_attn." ++ k_key
      let vn := "model.layers." ++ toString i ++ ".self_attn." ++ v_key
      match dlookup s qn, dlookup s kn, dlookup s vn with
      | some q, some k, some v =>
        let s := ddel (ddel (ddel s qn) kn) vn
        .ok (dinsert s ("model.layers." ++ toString i ++ ".self_attn." ++
          get_fused_qkv_key) (catD0 [q, k, v]))
      | _, _, _ => .error "KeyError"
    | _, _, _ => .error "StopIteration") pstate

/-- `CheckpointConverterBase.convert_full_state_to_tp` (lines 445–610): the
per-parameter PP/EP/TP processing over the full state, then the style
rename loop (lines 602–606), `modify_qkv_for_megatron`, and optional QKV
fusion. -/
def convert_full_state_to_tp [Inhabited α] (full_state : StateL (Mat α))
    (args : CArgs) (tp_rank pp_rank ep_rank : ℕ) (partitions : List String)
    (config : MConfig) : Except String (StateL (Mat α)) := do
  let is_gqa : Bool := config.num_attention_heads != config.num_key_value_heads
  let keys := get_hf_to_nxd_model_keys args.qkv_linear is_gqa
  let pstate ← full_state.foldlM (fun ps nv =>
    convertOneParam args config partitions tp_rank pp_rank ep_rank ps nv.1 nv.2) []
  let pkeys := pstate.map (·.1)
  let pstate ← pkeys.foldlM (renameLoopStep args.model_style true) pstate
  let pstate ← modify_qkv_for_megatron pstate args
  if args.fuse_qkv then convert_partial_state_to_fused_qkv pstate keys.2
  else pure pstate

/-! ### `merge_tp_checkpoints` (sharded → full, lines 269–442) -/

/-- One slot of a two-level (EP within TP) accumulator: either a still-open
Python list of shards or the tensor produced once all EP ranks for that TP
slot have been concatenated. -/
inductive MEntry (α : Type u) where
  | acc : List (Mat α) → MEntry α
  | fin : Mat α → MEntry α
deriving DecidableEq

/-- A value of the Python `full_state` dict during merging: either a
finished tensor, a flat accumulator list of shards, or a two-level
accumulator (one slot per TP rank). -/
inductive MVal (α : Type u) where
  | ten : Mat α → MVal α
  | lst : List (Mat α) → MVal α
  | lst2 : List (MEntry α) → MVal α
deriving DecidableEq

/-- `full_state[name].append(param)`: appending to a finished tensor is the
Python `AttributeError` the source runs into when a branch re-appends after
finalization; appending a tensor into a two-level accumulator does not occur
(the two-level branches address slots through `full_state[name][tp_rank]`),
so it is likewise modelled as an error. -/
def mvalAppend (v : MVal α) (p : Mat α) : Except String (MVal α) :=
  match v with
  | .lst l => .ok (.lst (l ++ [p]))
  | .ten _ => .error "AttributeError: 'Tensor' object has no attribute 'append'"
  | .lst2 _ => .error "TypeError: unexpected two-level accumulator"

/-- `full_state[name][tp_rank]` (`IndexError` when out of range). -/
def lst2Get (entries : List (MEntry α)) (i : ℕ) : Except String (MEntry α) :=
  if h : i < entries.length then .ok entries[i]
  else .error "IndexError: list index out of range"

/-- Unwrap a fully finalized two-level accumulator (every slot a tensor);
an unfinished slot is the Python `TypeError` that `torch.cat` raises on a
list element. -/
def extractFins : List (MEntry α) → Except String (List (Mat α))
  | [] => .ok []
  | .fin M :: rest => do
    let fins ← extractFins rest
    pure (M :: fins)
  | .acc _ :: _ => .error "TypeError: expected Tensor, got list"

/-- The two-level accumulation step shared by the `down_proj` and
`gate_up_proj` merge branches (lines 387–401 / 410–428), for a single output
name: append `param` into the `tp_rank` slot; once all EP ranks for this TP
slot are seen, concatenate the slot along the expert axis (dim 0); once all
TP ranks are seen, concatenate the EP-merged slots along `partition_dim`. -/
def lst2Step [Inhabited α] (args : CArgs) (tp_rank ep_rank partition_dim : ℕ)
    (fs : StateL (MVal α)) (name : String) (param : Mat α) :
    Except String (StateL (MVal α)) := do
  let fs := if !dmem fs name then dinsert fs name (.lst2 [.acc []]) else fs
  match dlookup fs name with
  | some (.lst2 entries) => do
    let e ← lst2Get entries tp_rank
    match e with
    | .acc l =>
      let l := l ++ [param]
      let entries := entries.set tp_rank (.acc l)
      if ep_rank == args.ep_size - 1 then
        let full_weight := catDim 0 l
        let entries := entries.set tp_rank (.fin full_weight)
        if tp_rank != args.tp_size - 1 then
          pure (dinsert fs name (.lst2 (entries ++ [.acc []])))
        else do
          let fins ← extractFins entries
          pure (dinsert fs name (.ten (catDim partition_dim fins)))
      else
        pure (dinsert fs name (.lst2 entries))
    | .fin _ =>
      Except.error "AttributeError: 'Tensor' object has no attribute 'append'"
  | some _ => Except.error "TypeError: unexpected accumulator shape"
  | none => Except.error "KeyError"

/-- The accumulate-then-finalize-on-last-rank pattern shared by the
`merge_tp_checkpoints` branches at lines 296–386 (finalizing on the last
`tp_rank`) and line 430–436 (finalizing on the last `ep_rank`): initialize
`full_state[nm]` to an empty list if absent, `append` the shard, and once
`rank = size - 1` replace the accumulated list by the finished tensor
`FIN l`. -/
def accumStep [Inhabited α] (size rank : ℕ) (FIN : List (Mat α) → MVal α)
    (fs : StateL (MVal α)) (nm : String) (param : Mat α) :
    Except String (StateL (MVal α)) := do
  let fs := if !dmem fs nm then dinsert fs nm (.lst []) else fs
  match dlookup fs nm with
  | some v => do
    let v ← mvalAppend v param
    let fs := dinsert fs nm v
    if rank != size - 1 then
      pure fs
    else
      match v with
      | .lst l => pure (dinsert fs nm (FIN l))
      | _ => Except.error "TypeError"
  | none => Except.error "KeyError"

/-- The body of the `for name, param in partial_state.items()` loop of
`merge_tp_checkpoints` (lines 296–439). -/
def mergeOneParam [Inhabited α] (args : CArgs) (config : MConfig)
    (keys_hf_to_nxd keys_nxd_to_hf : List (String × String)) (is_gqa : Bool)
    (tp_rank pp_rank ep_rank : ℕ) (fs : StateL (MVal α)) (name : String)
    (param : Mat α) : Except String (StateL (MVal α)) := do
  let _ := pp_rank
  let q_heads := config.num_attention_heads
  let kv_heads := config.num_key_value_heads
  let head_dim := config.hidden_size / q_heads
  if (is_qkv_weight name || hasSub "o_proj" name) && args.qkv_linear then
    -- qkv_proj would be a key if we are using the QKVLinear layer
    let partition_dim ← get_partition_dim name
    let name ← get_weight_key keys_hf_to_nxd keys_nxd_to_hf name false
    accumStep args.tp_size tp_rank (fun entries =>
      let full_weight := catDim partition_dim entries
      if hasSub "k" name || hasSub "v" name ||
          is_q_or_o_for_megatron args.model_style name then
        -- kv heads are repeated: take only the first chunk
        .ten (torchChunkFirst args.kv_size_multiplier full_weight)
      else
        let full_weight :=
          if hasSub "o_proj" name then transposeM full_weight else full_weight
        let merged := gqaQMergeRows args.hw_backend q_heads head_dim kv_heads
          args.kv_size_multiplier args.tp_size full_weight
        .ten (if hasSub "o_proj" name then transposeM merged else merged))
      fs name param
  else if hasSub "qkv_proj" name && !is_gqa then
    let partition_dim ← get_partition_dim name
    let partition_size := config.hidden_size / args.tp_size
    if 2 * partition_size < sizeD partition_dim param ∧
        sizeD partition_dim param ≤ 3 * partition_size then
      let qw := narrowD partition_dim 0 partition_size param
      let kw := narrowD partition_dim partition_size partition_size param
      let vw := narrowD partition_dim (2 * partition_size)
        (sizeD partition_dim param - 2 * partition_size) param
      let q_name := strReplace name "qkv" "q"
      let k_name := strReplace name "qkv" "k"
      let v_name := strReplace name "qkv" "v"
      [(q_name, qw), (k_name, kw), (v_name, vw)].foldlM (fun fs nw =>
        accumStep args.tp_size tp_rank (fun l => .ten (catDim partition_dim l))
          fs nw.1 nw.2) fs
    else Except.error "ValueError: torch.split unpack mismatch"
  else if hasSub "embed_tokens" name || is_qkv_weight name ||
      hasSub "o_proj" name || hasSub "lm_head" name then
    let partition_dim ← get_partition_dim name
    let name ← get_weight_key keys_hf_to_nxd keys_nxd_to_hf name false
    accumStep args.tp_size tp_rank (fun l => .ten (catDim partition_dim l))
      fs name param
  else if hasSub "down_proj" name then
    let partition_dim ← get_partition_dim name
    let name ← get_weight_key keys_hf_to_nxd keys_nxd_to_hf name false
    lst2Step args tp_rank ep_rank partition_dim fs name param
  else if hasSub "gate_up_proj" name then
    let partition_dim ← get_partition_dim name
    let dim_size := sizeD partition_dim param / 2
    let gate_proj_name := strReplace name "gate_up_proj" "gate_proj"
    let up_proj_name := strReplace name "gate_up_proj" "up_proj"
    let gate_proj_weight := narrowD partition_dim 0 dim_size param
    let up_proj_weight := narrowD partition_dim dim_size dim_size param
    let fs ← lst2Step args tp_rank ep_rank partition_dim fs gate_proj_name
      gate_proj_weight
    lst2Step args tp_rank ep_rank partition_dim fs up_proj_name up_proj_weight
  else if hasSub "expert_mlps" name then
    -- single flat list for all ranks, finalized with `torch.cat(..., dim=0)`
    -- on the last `ep_rank` (lines 430–436); `expert_dim = 0`
    accumStep args.ep_size ep_rank (fun l => .ten (catDim 0 l)) fs name param
  else
    if !dmem fs name then pure (dinsert fs name (.ten param))
    else pure fs

/-- Processing of one loaded partial state inside the rank-triple loop of
`merge_tp_checkpoints` (lines 282–439): style renaming, megatron QKV
adjustment, optional un-fusing, then the per-parameter merge.  (`model_key`
unwrapping is a no-op for weight-name dictionaries and is not modelled;
loading is the external serialization collaborator.) -/
def mergeOneState [Inhabited α] (args : CArgs) (config : MConfig)
    (tp_rank pp_rank ep_rank : ℕ) (fs : StateL (MVal α))
    (pstate : StateL (Mat α)) : Except String (StateL (MVal α)) := do
  let is_gqa : Bool := config.num_attention_heads != config.num_key_value_heads
  let keys := get_hf_to_nxd_model_keys args.qkv_linear is_gqa
  let pkeys := pstate.map (·.1)
  let pstate ← pkeys.foldlM (renameLoopStep args.model_style false) pstate
  let pstate ← modify_qkv_for_megatron pstate args
  let pstate ←
    if args.fuse_qkv then convert_partial_state_to_non_fused_qkv pstate keys.2
    else pure pstate
  pstate.foldlM (fun fs nv =>
    mergeOneParam args config keys.1 keys.2 is_gqa tp_rank pp_rank ep_rank fs
      nv.1 nv.2) fs

/-- `CheckpointConverterBase.merge_tp_checkpoints` (lines 269–442): fold the
per-rank partial states over the `tp_rank` (outer) / `pp_rank` / `ep_rank`
(inner) loop nest; `loadPart` stands for the external per-rank checkpoint
loading.  The overridable `post_process_full_state_after_tp_conversion` hook
is the identity in `CheckpointConverterBase`. -/
def merge_tp_checkpoints [Inhabited α] (args : CArgs) (config : MConfig)
    (loadPart : ℕ → ℕ → ℕ → StateL (Mat α)) :
    Except String (StateL (MVal α)) :=
  (List.range args.tp_size).foldlM (fun fs tp =>
    (List.range args.pp_size).foldlM (fun fs pp =>
      (List.range args.ep_size).foldlM (fun fs ep =>
        mergeOneState args config tp pp ep fs (loadPart tp pp ep)) fs) fs) []

/-! ### Dictionary and pipeline reduction lemmas -/

theorem except_bind_ok (a : α) (f : α → Except ε β) :
    (Except.ok a >>= f) = f a := rfl

theorem except_bind_error (e : ε) (f : α → Except ε β) :
    ((Except.error e : Except ε α) >>= f) = Except.error e := rfl

theorem except_pure (a : α) : (pure a : Except ε α) = Except.ok a := rfl

theorem dlookup_fst_isSome {s : StateL α} {k : String}
    (h : k ∈ s.map (·.1)) : (dlookup s k).isSome := by
  induction s with
  | nil => simp at h
  | cons kv rest ih =>
    by_cases hk : kv.1 = k
    · simp [dlookup, hk]
    · simp only [List.map_cons, List.mem_cons] at h
      rcases h with h | h
      · exact absurd h.symm hk
      · simp only [dlookup, if_neg hk]
        exact ih h

theorem dinsert_self {s : StateL α} {k : String} {v : α}
    (h : dlookup s k = some v) : dinsert s k v = s := by
  induction s with
  | nil => simp [dlookup] at h
  | cons kv rest ih =>
    obtain ⟨k', w⟩ := kv
    by_cases hk : k' = k
    · simp only [dlookup, if_pos hk] at h
      obtain rfl : w = v := by injection h
      simp [dinsert, if_pos hk]
    · simp only [dlookup, if_neg hk] at h
      simp [dinsert, if_neg hk, ih h]

theorem renameLoop_id {style : String} (hstyle : style ≠ "megatron") (b : Bool)
    (keys : List String) (s : StateL α)
    (hkeys : ∀ k ∈ keys, (dlookup s k).isSome) :
    keys.foldlM (renameLoopStep style b) s = Except.ok s := by
  induction keys with
  | nil => rfl
  | cons k ks ih =>
    obtain ⟨v, hv⟩ := Option.isSome_iff_exists.mp (hkeys k (by simp))
    have hstep : renameLoopStep style b s k = .ok s := by
      unfold renameLoopStep
      rw [hv]
      simp only [rename_keys_for_megatron, if_pos hstyle, dinsert_self hv,
        if_neg hstyle]
    rw [List.foldlM_cons, hstep]
    show ks.foldlM (renameLoopStep style b) s = Except.ok s
    exact ih (fun k hk => hkeys k (by simp [hk]))

theorem modify_qkv_nonmeg {args : CArgs} (hstyle : args.model_style ≠ "megatron")
    [Inhabited α] (s : StateL (Mat α)) :
    modify_qkv_for_megatron s args = .ok s := by
  simp [modify_qkv_for_megatron, if_pos hstyle]

/-- For non-megatron style with `fuse_qkv` off, `convert_full_state_to_tp`
is exactly the per-parameter fold (renaming and QKV modification are
no-ops). -/
theorem convert_hf_eq [Inhabited α] {args : CArgs}
    (hstyle : args.model_style ≠ "megatron") (hfuse : args.fuse_qkv = false)
    (full_state : StateL (Mat α)) (tp_rank pp_rank ep_rank : ℕ)
    (partitions : List String) (config : MConfig) :
    convert_full_state_to_tp full_state args tp_rank pp_rank ep_rank partitions
      config
      = full_state.foldlM (fun ps nv =>
          convertOneParam args config partitions tp_rank pp_rank ep_rank ps
            nv.1 nv.2) [] := by
  unfold convert_full_state_to_tp
  cases h : full_state.foldlM (fun ps nv =>
      convertOneParam args config partitions tp_rank pp_rank ep_rank ps
        nv.1 nv.2) [] with
  | error e => simp only [except_bind_error]
  | ok p =>
    simp only [except_bind_ok]
    rw [renameLoop_id hstyle _ _ _ (fun k hk => dlookup_fst_isSome hk)]
    simp [except_bind_ok, modify_qkv_nonmeg hstyle, hfuse, except_pure]

/-! ### Evaluation lemmas for `convertOneParam` / `convertParamSlices` -/

theorem narrowD_zero (s n : ℕ) (M : Mat α) : narrowD 0 s n M = narrow0 s n M := rfl

theorem narrowD_one (s n : ℕ) (M : Mat α) : narrowD 1 s n M = narrow1 s n M := rfl

theorem convertOneParam_skip_embed [Inhabited α] {args : CArgs} {config : MConfig}
    {partitions : List String} {tp_rank pp_rank ep_rank : ℕ}
    {pstate : StateL (Mat α)} {name : String} {M : Mat α}
    (hA : (pp_rank != 0 && hasSub "embed_tokens" name) = true) :
    convertOneParam args config partitions tp_rank pp_rank ep_rank pstate name M
      = .ok pstate := by
  unfold convertOneParam
  simp [hA, except_bind_ok, except_pure]

theorem convertOneParam_skip_ep [Inhabited α] {args : CArgs} {config : MConfig}
    {partitions : List String} {tp_rank pp_rank ep_rank : ℕ}
    {pstate : StateL (Mat α)} {name : String} {M : Mat α}
    (hA : (pp_rank != 0 && hasSub "embed_tokens" name) = false)
    (hB : (ep_rank != 0 && !hasSub "expert_mlps" name) = true) :
    convertOneParam args config partitions tp_rank pp_rank ep_rank pstate name M
      = .ok pstate := by
  unfold convertOneParam
  simp [hA, hB, except_bind_ok, except_pure]

theorem convertOneParam_skip_lm [Inhabited α] {args : CArgs} {config : MConfig}
    {partitions : List String} {tp_rank pp_rank ep_rank : ℕ}
    {pstate : StateL (Mat α)} {name : String} {M : Mat α}
    (hA : (pp_rank != 0 && hasSub "embed_tokens" name) = false)
    (hB : (ep_rank != 0 && !hasSub "expert_mlps" name) = false)
    (hC : ((pp_rank != args.pp_size - 1) &&
      (hasSub "lm_head" name || hasSub "model.norm.weight" name)) = true) :
    convertOneParam args config partitions tp_rank pp_rank ep_rank pstate name M
      = .ok pstate := by
  unfold convertOneParam
  simp [hA, hB, hC, except_bind_ok, except_pure]

theorem convertOneParam_skip_layer [Inhabited α] {args : CArgs} {config : MConfig}
    {partitions : List String} {tp_rank pp_rank ep_rank : ℕ}
    {pstate : StateL (Mat α)} {name : String} {M : Mat α} (L st : ℕ)
    (hA : (pp_rank != 0 && hasSub "embed_tokens" name) = false)
    (hB : (ep_rank != 0 && !hasSub "expert_mlps" name) = false)
    (hC : ((pp_rank != args.pp_size - 1) &&
      (hasSub "lm_head" name || hasSub "model.norm.weight" name)) = false)
    (hlay : hasSub "layers" name = true)
    (hidx : pyLayerIdx name = .ok L)
    (hst : findCutStage partitions L 0 = .ok st)
    (hne : (stage_to_pipeline_parallel_rank st args.pp_size != pp_rank) = true) :
    convertOneParam args config partitions tp_rank pp_rank ep_rank pstate name M
      = .ok pstate := by
  have hne' : stage_to_pipeline_parallel_rank st args.pp_size ≠ pp_rank := by
    simpa using hne
  unfold convertOneParam
  simp [hA, hB, hC, hlay, hidx, hst, hne', except_bind_ok, except_pure]

theorem convertOneParam_pass_nolayers [Inhabited α] {args : CArgs}
    {config : MConfig} {partitions : List String}
    {tp_rank pp_rank ep_rank : ℕ} {pstate : StateL (Mat α)} {name : String}
    {M : Mat α}
    (hA : (pp_rank != 0 && hasSub "embed_tokens" name) = false)
    (hB : (ep_rank != 0 && !hasSub "expert_mlps" name) = false)
    (hC : ((pp_rank != args.pp_size - 1) &&
      (hasSub "lm_head" name || hasSub "model.norm.weight" name)) = false)
    (hlay : hasSub "layers" name = false) :
    convertOneParam args config partitions tp_rank pp_rank ep_rank pstate name M
      = convertParamSlices args config tp_rank ep_rank pstate name M := by
  unfold convertOneParam
  simp [hA, hB, hC, hlay, except_bind_ok, except_pure]

theorem convertOneParam_pass_layers [Inhabited α] {args : CArgs}
    {config : MConfig} {partitions : List String}
    {tp_rank pp_rank ep_rank : ℕ} {pstate : StateL (Mat α)} {name : String}
    {M : Mat α} (L st : ℕ)
    (hA : (pp_rank != 0 && hasSub "embed_tokens" name) = false)
    (hB : (ep_rank != 0 && !hasSub "expert_mlps" name) = false)
    (hC : ((pp_rank != args.pp_size - 1) &&
      (hasSub "lm_head" name || hasSub "model.norm.weight" name)) = false)
    (hlay : hasSub "layers" name = true)
    (hidx : pyLayerIdx name = .ok L)
    (hst : findCutStage partitions L 0 = .ok st)
    (heq : (stage_to_pipeline_parallel_rank st args.pp_size != pp_rank) = false) :
    convertOneParam args config partitions tp_rank pp_rank ep_rank pstate name M
      = convertParamSlices args config tp_rank ep_rank pstate name M := by
  have heq' : stage_to_pipeline_parallel_rank st args.pp_size = pp_rank := by
    simpa using heq
  unfold convertOneParam
  simp [hA, hB, hC, hlay, hidx, hst, heq', except_bind_ok, except_pure]

theorem convertParamSlices_passthrough [Inhabited α] {args : CArgs}
    {config : MConfig} {tp_rank ep_rank : ℕ} {pstate : StateL (Mat α)}
    {name : String} {M : Mat α}
    (hexp : hasSub "expert_mlps" name = false)
    (h1 : ((is_qkv_weight name || hasSub "o_proj" name) && args.qkv_linear) = false)
    (h2 : (hasSub "embed_tokens" name || is_qkv_weight name ||
      hasSub "o_proj" name || hasSub "down_proj" name ||
      hasSub "lm_head" name) = false)
    (h3 : (hasSub "gate_proj" name || hasSub "up_proj" name) = false) :
    convertParamSlices args config tp_rank ep_rank pstate name M
      = .ok (dinsert pstate name M) := by
  unfold convertParamSlices
  simp [hexp, h1, h2, h3, except_pure, except_bind_ok]

theorem convertParamSlices_dim_plain [Inhabited α] (pd : ℕ) {args : CArgs}
    {config : MConfig} {tp_rank ep_rank : ℕ} {pstate : StateL (Mat α)}
    {name : String} {M : Mat α}
    (hexp : hasSub "expert_mlps" name = false)
    (h1 : ((is_qkv_weight name || hasSub "o_proj" name) && args.qkv_linear) = false)
    (h2 : (hasSub "embed_tokens" name || is_qkv_weight name ||
      hasSub "o_proj" name || hasSub "down_proj" name ||
      hasSub "lm_head" name) = true)
    (hpd : get_partition_dim name = .ok pd)
    (hdiv : sizeD pd M % args.tp_size = 0) :
    convertParamSlices args config tp_rank ep_rank pstate name M
      = .ok (dinsert pstate name (narrowD pd
          (tp_rank * (sizeD pd M / args.tp_size))
          (sizeD pd M / args.tp_size) M)) := by
  unfold convertParamSlices
  simp [hexp, h1, h2, hpd, hdiv, except_pure, except_bind_ok]

theorem convertParamSlices_dim_plain_err [Inhabited α] {args : CArgs}
    {config : MConfig} {tp_rank ep_rank : ℕ} {pstate : StateL (Mat α)}
    {name : String} {M : Mat α} {pd : ℕ}
    (hexp : hasSub "expert_mlps" name = false)
    (h1 : ((is_qkv_weight name || hasSub "o_proj" name) && args.qkv_linear) = false)
    (h2 : (hasSub "embed_tokens" name || is_qkv_weight name ||
      hasSub "o_proj" name || hasSub "down_proj" name ||
      hasSub "lm_head" name) = true)
    (hpd : get_partition_dim name = .ok pd)
    (hdiv : ¬ sizeD pd M % args.tp_size = 0) :
    convertParamSlices args config tp_rank ep_rank pstate name M
      = .error "vocab size is not divisiable" := by
  unfold convertParamSlices
  simp [hexp, h1, h2, hpd, hdiv, except_pure, except_bind_ok]

theorem convertParamSlices_gateup [Inhabited α] {args : CArgs}
    {config : MConfig} {tp_rank ep_rank : ℕ} {pstate : StateL (Mat α)}
    {name : String} {M : Mat α} {pd : ℕ}
    (hexp : hasSub "expert_mlps" name = false)
    (h1 : ((is_qkv_weight name || hasSub "o_proj" name) && args.qkv_linear) = false)
    (h2 : (hasSub "embed_tokens" name || is_qkv_weight name ||
      hasSub "o_proj" name || hasSub "down_proj" name ||
      hasSub "lm_head" name) = false)
    (h3 : (hasSub "gate_proj" name || hasSub "up_proj" name) = true)
    (hpd : get_partition_dim name = .ok pd)
    (hdiv : sizeD pd M % args.tp_size = 0) :
    convertParamSlices args config tp_rank ep_rank pstate name M
      = .ok (
        let partition_size := sizeD pd M / args.tp_size
        let to_load := narrowD pd (tp_rank * partition_size) partition_size M
        let token := if hasSub "gate_proj" name then "gate_proj" else "up_proj"
        let updated_name := strReplace name token "gate_up_proj"
        match dlookup pstate updated_name with
        | some existing =>
          if token = "gate_proj" then
            dinsert pstate updated_name (catDim pd [to_load, existing])
          else
            dinsert pstate updated_name (catDim pd [existing, to_load])
        | none => dinsert pstate updated_name to_load) := by
  unfold convertParamSlices
  simp only [hexp, h1, h2, h3, hpd, except_pure, except_bind_ok,
    Bool.false_eq_true, if_false, Bool.or_true, Bool.true_or, if_true,
    bne_self_eq_false, Bool.false_and, Bool.and_false]
  simp [hdiv, except_pure, except_bind_ok]
  cases dlookup pstate (strReplace name
      (if hasSub "gate_proj" name then "gate_proj" else "up_proj")
      "gate_up_proj") with
  | none => rfl
  | some existing =>
    by_cases hg : hasSub "gate_proj" name = true <;> simp [hg]

theorem convertParamSlices_kv [Inhabited α] {args : CArgs}
    {config : MConfig} {tp_rank ep_rank : ℕ} {pstate : StateL (Mat α)}
    {name name2 : String} {M : Mat α}
    (hexp : hasSub "expert_mlps" name = false)
    (h1 : ((is_qkv_weight name || hasSub "o_proj" name) && args.qkv_linear) = true)
    (hwk : get_weight_key
      (get_hf_to_nxd_model_keys args.qkv_linear
        (config.num_attention_heads != config.num_key_value_heads)).1
      (get_hf_to_nxd_model_keys args.qkv_linear
        (config.num_attention_heads != config.num_key_value_heads)).2
      name true = .ok name2)
    (hbr : (hasSub "weight_k" name2 || hasSub "weight_v" name2 ||
      is_q_or_o_for_megatron args.model_style name2) = true)
    (hop : hasSub "o_proj" name2 = false)
    (hdiv : size0 (repeatRows args.kv_size_multiplier M) % args.tp_size = 0) :
    convertParamSlices args config tp_rank ep_rank pstate name M
      = .ok (dinsert pstate name2 (narrow0
          (tp_rank * (size0 (repeatRows args.kv_size_multiplier M) / args.tp_size))
          (size0 (repeatRows args.kv_size_multiplier M) / args.tp_size)
          (repeatRows args.kv_size_multiplier M))) := by
  unfold convertParamSlices
  simp [hexp, h1, hwk, hbr, hop, hdiv, except_pure, except_bind_ok, narrowD_zero]
  intro hk hv hm
  rw [hk, hv, hm] at hbr
  simp at hbr

theorem convertParamSlices_qshuffle [Inhabited α] {args : CArgs}
    {config : MConfig} {tp_rank ep_rank : ℕ} {pstate : StateL (Mat α)}
    {name name2 : String} {M : Mat α}
    (hexp : hasSub "expert_mlps" name = false)
    (h1 : ((is_qkv_weight name || hasSub "o_proj" name) && args.qkv_linear) = true)
    (hwk : get_weight_key
      (get_hf_to_nxd_model_keys args.qkv_linear
        (config.num_attention_heads != config.num_key_value_heads)).1
      (get_hf_to_nxd_model_keys args.qkv_linear
        (config.num_attention_heads != config.num_key_value_heads)).2
      name true = .ok name2)
    (hbr : (hasSub "weight_k" name2 || hasSub "weight_v" name2 ||
      is_q_or_o_for_megatron args.model_style name2) = false) :
    convertParamSlices args config tp_rank ep_rank pstate name M
      = .ok (
        let full_p := if hasSub "o_proj" name2 then transposeM M else M
        let to_load := gqaQSliceRows args.hw_backend config.num_attention_heads
          (config.hidden_size / config.num_attention_heads)
          config.num_key_value_heads args.kv_size_multiplier args.tp_size
          tp_rank full_p
        dinsert pstate name2
          (if hasSub "o_proj" name2 then transposeM to_load else to_load)) := by
  unfold convertParamSlices
  simp [hexp, h1, hwk, hbr, except_pure, except_bind_ok]
  intro h
  rcases h with (h | h) | h <;> rw [h] at hbr <;> simp at hbr

theorem convertParamSlices_expert_err [Inhabited α] {args : CArgs}
    {config : MConfig} {tp_rank ep_rank : ℕ} {pstate : StateL (Mat α)}
    {name : String} {M : Mat α}
    (hexp : hasSub "expert_mlps" name = true)
    (hdiv : ¬ size0 M % args.ep_size = 0) :
    convertParamSlices args config tp_rank ep_rank pstate name M
      = .error ("Expert dimension (" ++ toString (size0 M) ++
          ") is not divisible by expert parallelism degree (" ++
          toString args.ep_size ++ ").") := by
  unfold convertParamSlices
  simp [hexp, hdiv, except_pure, except_bind_ok, except_bind_error]

/-! ### Merge-side evaluation lemmas -/

theorem foldlM_singleton {β σ : Type} {f : β → σ → Except String β} (b : β)
    (x : σ) : [x].foldlM f b = f b x := by
  simp

theorem dlookup_dinsert_self (s : List (String × β)) (k : String) (v : β) :
    dlookup (dinsert s k v) k = some v := by
  induction s with
  | nil => simp [dinsert, dlookup]
  | cons kv rest ih =>
    obtain ⟨n, w⟩ := kv
    by_cases hk : n = k
    · simp [dinsert, hk, dlookup]
    · simp [dinsert, hk, dlookup, ih]

theorem dlookup_dinsert_ne (s : List (String × β)) {k n : String} (v : β)
    (h : n ≠ k) : dlookup (dinsert s k v) n = dlookup s n := by
  induction s with
  | nil => simp [dinsert, dlookup, Ne.symm h]
  | cons kv rest ih =>
    obtain ⟨m, w⟩ := kv
    by_cases hk : m = k
    · subst hk
      simp [dinsert, dlookup, Ne.symm h]
    · simp only [dinsert, if_neg hk]
      by_cases hn : m = n <;> simp [dlookup, hn, ih]

theorem dinsert_dinsert (s : List (String × β)) (k : String) (v w : β) :
    dinsert (dinsert s k v) k w = dinsert s k w := by
  induction s with
  | nil => simp [dinsert]
  | cons kv rest ih =>
    obtain ⟨n, u⟩ := kv
    by_cases hk : n = k <;> simp [dinsert, hk, ih]

/-- `accumStep` on a fresh key behaves as on an initialized empty list. -/
theorem accumStep_fresh_eq {α : Type} [Inhabited α] (size rank : ℕ)
    (FIN : List (Mat α) → MVal α) {fs : StateL (MVal α)} {nm : String}
    (p : Mat α) (hfs : dlookup fs nm = none) :
    accumStep size rank FIN fs nm p
      = accumStep size rank FIN (dinsert fs nm (.lst [])) nm p := by
  unfold accumStep
  have h1 : dmem fs nm = false := by simp [dmem, hfs]
  have h2 : dmem (dinsert fs nm (MVal.lst [])) nm = true := by
    simp [dmem, dlookup_dinsert_self]
  simp [h1, h2]

/-- `accumStep` at a non-final rank appends the shard to the accumulator. -/
theorem accumStep_acc_mid {α : Type} [Inhabited α] {size rank : ℕ}
    {FIN : List (Mat α) → MVal α} {fs : StateL (MVal α)} {nm : String}
    {l : List (Mat α)} (p : Mat α) (hfs : dlookup fs nm = some (.lst l))
    (hrank : (rank != size - 1) = true) :
    accumStep size rank FIN fs nm p = .ok (dinsert fs nm (.lst (l ++ [p]))) := by
  unfold accumStep
  have h1 : dmem fs nm = true := by simp [dmem, hfs]
  simp [h1, hfs, mvalAppend, hrank, except_bind_ok, except_pure]

/-- `accumStep` at the final rank appends the shard and finalizes with `FIN`. -/
theorem accumStep_acc_last {α : Type} [Inhabited α] {size rank : ℕ}
    {FIN : List (Mat α) → MVal α} {fs : StateL (MVal α)} {nm : String}
    {l : List (Mat α)} (p : Mat α) (hfs : dlookup fs nm = some (.lst l))
    (hrank : (rank != size - 1) = false) :
    accumStep size rank FIN fs nm p
      = .ok (dinsert fs nm (FIN (l ++ [p]))) := by
  unfold accumStep
  have h1 : dmem fs nm = true := by simp [dmem, hfs]
  simp [h1, hfs, mvalAppend, hrank, except_bind_ok, except_pure,
    dinsert_dinsert]

/-- Appending a shard to an already-finalized tensor is the Python
`AttributeError` (`Tensor` has no `append`). -/
theorem accumStep_ten_err {α : Type} [Inhabited α] {size rank : ℕ}
    {FIN : List (Mat α) → MVal α} {fs : StateL (MVal α)} {nm : String}
    {M : Mat α} (p : Mat α) (hfs : dlookup fs nm = some (.ten M)) :
    accumStep size rank FIN fs nm p
      = .error "AttributeError: 'Tensor' object has no attribute 'append'" := by
  unfold accumStep
  have h1 : dmem fs nm = true := by simp [dmem, hfs]
  simp [h1, hfs, mvalAppend, except_bind_error]

theorem accumStep_fold_partial {α : Type} [Inhabited α] (size : ℕ)
    (FIN : List (Mat α) → MVal α) (nm : String) (shard : ℕ → Mat α)
    (fs₀ : StateL (MVal α)) (hfresh : dlookup fs₀ nm = none)
    (j : ℕ) (hj0 : 0 < j) (hj : j ≤ size - 1) :
    (List.range j).foldlM
        (fun fs r => accumStep size r FIN fs nm (shard r)) fs₀
      = .ok (dinsert fs₀ nm (.lst ((List.range j).map shard))) := by
  induction j with
  | zero => exact absurd hj0 (lt_irrefl 0)
  | succ j ih =>
    rcases Nat.eq_zero_or_pos j with hj' | hj'
    · subst hj'
      rw [show List.range 1 = [0] from rfl, foldlM_singleton,
        accumStep_fresh_eq _ _ _ _ hfresh,
        accumStep_acc_mid _ (dlookup_dinsert_self _ _ _)
          (by simp only [bne_iff_ne, ne_eq]; omega),
        dinsert_dinsert]
      simp
    · rw [List.range_succ, List.foldlM_append, ih hj' (by omega),
        except_bind_ok, foldlM_singleton,
        accumStep_acc_mid _ (dlookup_dinsert_self _ _ _)
          (by simp only [bne_iff_ne, ne_eq]; omega),
        dinsert_dinsert, List.map_append]
      simp

/-- Folding `accumStep` for one fresh name over ranks `0, …, size-1`
accumulates all shards in rank order and finalizes them with `FIN`. -/
theorem accumStep_fold {α : Type} [Inhabited α] (size : ℕ) (hsz : 0 < size)
    (FIN : List (Mat α) → MVal α) (nm : String) (shard : ℕ → Mat α)
    (fs₀ : StateL (MVal α)) (hfresh : dlookup fs₀ nm = none) :
    (List.range size).foldlM
        (fun fs r => accumStep size r FIN fs nm (shard r)) fs₀
      = .ok (dinsert fs₀ nm (FIN ((List.range size).map shard))) := by
  rcases Nat.eq_zero_or_pos (size - 1) with h1 | h1
  · have hs : size = 1 := by omega
    subst hs
    rw [show List.range 1 = [0] from rfl, foldlM_singleton,
      accumStep_fresh_eq _ _ _ _ hfresh,
      accumStep_acc_last _ (dlookup_dinsert_self _ _ _) (by simp),
      dinsert_dinsert]
    simp
  · obtain ⟨n, hn⟩ : ∃ n, size = n + 1 := ⟨size - 1, by omega⟩
    have hrange : List.range size = List.range n ++ [n] := by
      rw [hn, List.range_succ]
    have hn1 : n = size - 1 := by omega
    rw [hrange, List.foldlM_append,
      accumStep_fold_partial size FIN nm shard fs₀ hfresh n (by omega)
        (by omega),
      except_bind_ok, foldlM_singleton,
      accumStep_acc_last _ (dlookup_dinsert_self _ _ _) (by rw [hn1]; simp),
      dinsert_dinsert, List.map_append]
    simp

/-! #### `lst2Step` evaluation and the two-level grid fold -/

theorem lst2Get_append (F : List (MEntry α)) (x : MEntry α) :
    lst2Get (F ++ [x]) F.length = .ok x := by
  unfold lst2Get
  have h : F.length < (F ++ [x]).length := by simp
  rw [dif_pos h]
  simp [List.getElem_concat_length]

theorem set_append_len (F : List (MEntry α)) (x y : MEntry α) :
    (F ++ [x]).set F.length y = F ++ [y] := by
  induction F with
  | nil => rfl
  | cons a F ih => simp [List.set, ih]

theorem extractFins_map_fin {α : Type} (F : List (Mat α)) :
    extractFins (F.map MEntry.fin) = Except.ok F := by
  induction F with
  | nil => rfl
  | cons M F ih => simp [extractFins, ih, except_bind_ok, except_pure]

/-- `lst2Step` on a fresh key behaves as on an initialized accumulator. -/
theorem lst2Step_fresh_eq {α : Type} [Inhabited α] (args : CArgs)
    (tp ep pd : ℕ) {fs : StateL (MVal α)} {nm : String} (p : Mat α)
    (hfs : dlookup fs nm = none) :
    lst2Step args tp ep pd fs nm p
      = lst2Step args tp ep pd (dinsert fs nm (.lst2 [.acc []])) nm p := by
  unfold lst2Step
  have h1 : dmem fs nm = false := by simp [dmem, hfs]
  have h2 : dmem (dinsert fs nm (MVal.lst2 [MEntry.acc []])) nm = true := by
    simp [dmem, dlookup_dinsert_self]
  simp [h1, h2, dlookup_dinsert_self]

/-- `lst2Step` at a non-final EP rank appends into the TP slot. -/
theorem lst2Step_acc_mid {α : Type} [Inhabited α] {args : CArgs}
    {tp ep pd : ℕ} {fs : StateL (MVal α)} {nm : String} {E : List (MEntry α)}
    {l : List (Mat α)} (p : Mat α)
    (hfs : dlookup fs nm = some (.lst2 E))
    (hget : lst2Get E tp = .ok (.acc l))
    (hep : (ep == args.ep_size - 1) = false) :
    lst2Step args tp ep pd fs nm p
      = .ok (dinsert fs nm (.lst2 (E.set tp (.acc (l ++ [p]))))) := by
  unfold lst2Step
  have h1 : dmem fs nm = true := by simp [dmem, hfs]
  simp [h1, hfs, hget, hep, except_bind_ok, except_pure]

/-- `lst2Step` at the final EP rank of a non-final TP rank finalizes the
slot along the expert axis and opens the next slot. -/
theorem lst2Step_acc_eplast_mid {α : Type} [Inhabited α] {args : CArgs}
    {tp ep pd : ℕ} {fs : StateL (MVal α)} {nm : String} {E : List (MEntry α)}
    {l : List (Mat α)} (p : Mat α)
    (hfs : dlookup fs nm = some (.lst2 E))
    (hget : lst2Get E tp = .ok (.acc l))
    (hep : (ep == args.ep_size - 1) = true)
    (htp : (tp != args.tp_size - 1) = true) :
    lst2Step args tp ep pd fs nm p
      = .ok (dinsert fs nm (.lst2
          (E.set tp (.fin (catDim 0 (l ++ [p]))) ++ [.acc []]))) := by
  unfold lst2Step
  have h1 : dmem fs nm = true := by simp [dmem, hfs]
  simp [h1, hfs, hget, hep, htp, List.set_set, except_bind_ok, except_pure]

/-- `lst2Step` at the final EP and TP rank finalizes the slot and then the
whole two-level accumulator along the partition axis. -/
theorem lst2Step_acc_last {α : Type} [Inhabited α] {args : CArgs}
    {tp ep pd : ℕ} {fs : StateL (MVal α)} {nm : String} {E : List (MEntry α)}
    {l : List (Mat α)} {F : List (Mat α)} (p : Mat α)
    (hfs : dlookup fs nm = some (.lst2 E))
    (hget : lst2Get E tp = .ok (.acc l))
    (hep : (ep == args.ep_size - 1) = true)
    (htp : (tp != args.tp_size - 1) = false)
    (hset : E.set tp (MEntry.fin (catDim 0 (l ++ [p]))) = F.map MEntry.fin) :
    lst2Step args tp ep pd fs nm p
      = .ok (dinsert fs nm (.ten (catDim pd F))) := by
  unfold lst2Step
  have h1 : dmem fs nm = true := by simp [dmem, hfs]
  simp [h1, hfs, hget, hep, htp, List.set_set, hset, extractFins_map_fin,
    except_bind_ok, except_pure]

theorem lst2_inner_partial {α : Type} [Inhabited α] (args : CArgs)
    (pd : ℕ) (nm : String) (shard : ℕ → Mat α) (fs₀ : StateL (MVal α))
    (F : List (MEntry α)) (j : ℕ) (hlen : F.length = j)
    (i : ℕ) (hi : i ≤ args.ep_size - 1) :
    (List.range i).foldlM
        (fun fs ep => lst2Step args j ep pd fs nm (shard ep))
        (dinsert fs₀ nm (.lst2 (F ++ [.acc []])))
      = .ok (dinsert fs₀ nm (.lst2
          (F ++ [.acc ((List.range i).map shard)]))) := by
  induction i with
  | zero => rfl
  | succ i ih =>
    have hget : lst2Get (F ++ [MEntry.acc ((List.range i).map shard)]) j
        = .ok (.acc ((List.range i).map shard)) := by
      rw [← hlen]; exact lst2Get_append F _
    have hep : (i == args.ep_size - 1) = false := by
      simp only [beq_eq_false_iff_ne, ne_eq]; omega
    rw [List.range_succ, List.foldlM_append, ih (by omega), except_bind_ok,
      foldlM_singleton,
      lst2Step_acc_mid (shard i) (dlookup_dinsert_self _ _ _) hget hep,
      dinsert_dinsert, ← hlen, set_append_len, List.map_append]
    simp

theorem lst2_inner_mid {α : Type} [Inhabited α] (args : CArgs) (pd : ℕ)
    (nm : String) (shard : ℕ → Mat α) (fs₀ : StateL (MVal α))
    (F : List (MEntry α)) (j : ℕ) (hlen : F.length = j)
    (he : 0 < args.ep_size) (htp : (j != args.tp_size - 1) = true) :
    (List.range args.ep_size).foldlM
        (fun fs ep => lst2Step args j ep pd fs nm (shard ep))
        (dinsert fs₀ nm (.lst2 (F ++ [.acc []])))
      = .ok (dinsert fs₀ nm (.lst2 (F
          ++ [.fin (catDim 0 ((List.range args.ep_size).map shard)), .acc []]))) := by
  obtain ⟨e, hE⟩ : ∃ e, args.ep_size = e + 1 := ⟨args.ep_size - 1, by omega⟩
  have hget : lst2Get (F ++ [MEntry.acc ((List.range e).map shard)]) j
      = .ok (.acc ((List.range e).map shard)) := by
    rw [← hlen]; exact lst2Get_append F _
  have hep : (e == args.ep_size - 1) = true := by
    simp only [beq_iff_eq]; omega
  rw [hE, List.range_succ, List.foldlM_append,
    lst2_inner_partial args pd nm shard fs₀ F j hlen e (by omega),
    except_bind_ok, foldlM_singleton,
    lst2Step_acc_eplast_mid (shard e) (dlookup_dinsert_self _ _ _) hget hep htp,
    dinsert_dinsert, ← hlen, set_append_len, List.map_append]
  simp

theorem lst2_inner_last {α : Type} [Inhabited α] (args : CArgs) (pd : ℕ)
    (nm : String) (shard : ℕ → Mat α) (fs₀ : StateL (MVal α))
    (G : List (Mat α)) (j : ℕ) (hlen : (G.map MEntry.fin).length = j)
    (he : 0 < args.ep_size) (htp : (j != args.tp_size - 1) = false) :
    (List.range args.ep_size).foldlM
        (fun fs ep => lst2Step args j ep pd fs nm (shard ep))
        (dinsert fs₀ nm (.lst2 (G.map MEntry.fin ++ [.acc []])))
      = .ok (dinsert fs₀ nm (.ten (catDim pd
          (G ++ [catDim 0 ((List.range args.ep_size).map shard)])))) := by
  obtain ⟨e, hE⟩ : ∃ e, args.ep_size = e + 1 := ⟨args.ep_size - 1, by omega⟩
  have hget : lst2Get (G.map MEntry.fin
        ++ [MEntry.acc ((List.range e).map shard)]) j
      = .ok (.acc ((List.range e).map shard)) := by
    rw [← hlen]; exact lst2Get_append _ _
  have hep : (e == args.ep_size - 1) = true := by
    simp only [beq_iff_eq]; omega
  have hset : (G.map MEntry.fin ++ [MEntry.acc ((List.range e).map shard)]).set
        j (MEntry.fin (catDim 0 ((List.range e).map shard ++ [shard e])))
      = (G ++ [catDim 0 ((List.range e).map shard ++ [shard e])]).map
          MEntry.fin := by
    rw [← hlen, set_append_len, List.map_append]
    simp
  rw [hE, List.range_succ, List.foldlM_append,
    lst2_inner_partial args pd nm shard fs₀ (G.map MEntry.fin) j hlen e
      (by omega),
    except_bind_ok, foldlM_singleton,
    lst2Step_acc_last (shard e) (dlookup_dinsert_self _ _ _) hget hep htp hset,
    dinsert_dinsert, List.map_append]
  simp

theorem lst2_inner_fresh_swap {α : Type} [Inhabited α] (args : CArgs)
    (pd : ℕ) (nm : String) (j : ℕ) (shard : ℕ → Mat α)
    (fs₀ : StateL (MVal α)) (hfresh : dlookup fs₀ nm = none)
    (he : 0 < args.ep_size) :
    (List.range args.ep_size).foldlM
        (fun fs ep => lst2Step args j ep pd fs nm (shard ep)) fs₀
      = (List.range args.ep_size).foldlM
          (fun fs ep => lst2Step args j ep pd fs nm (shard ep))
          (dinsert fs₀ nm (.lst2 [.acc []])) := by
  obtain ⟨e, hE⟩ : ∃ e, args.ep_size = e + 1 := ⟨args.ep_size - 1, by omega⟩
  rw [hE, List.range_succ_eq_map]
  simp only [List.foldlM_cons]
  rw [lst2Step_fresh_eq args j 0 pd (shard 0) hfresh]

theorem lst2_grid_partial {α : Type} [Inhabited α] (args : CArgs) (pd : ℕ)
    (nm : String) (shard : ℕ → ℕ → Mat α) (fs₀ : StateL (MVal α))
    (he : 0 < args.ep_size) (j : ℕ) (hj : j ≤ args.tp_size - 1) :
    (List.range j).foldlM (fun fs tp =>
        (List.range args.ep_size).foldlM
          (fun fs ep => lst2Step args tp ep pd fs nm (shard tp ep)) fs)
        (dinsert fs₀ nm (.lst2 [.acc []]))
      = .ok (dinsert fs₀ nm (.lst2 ((List.range j).map (fun tp =>
          MEntry.fin (catDim 0 ((List.range args.ep_size).map (shard tp))))
          ++ [.acc []]))) := by
  induction j with
  | zero => rfl
  | succ j ih =>
    have hstep := lst2_inner_mid args pd nm (shard j) fs₀
      ((List.range j).map (fun tp =>
        MEntry.fin (catDim 0 ((List.range args.ep_size).map (shard tp)))))
      j (by simp) he (by simp only [bne_iff_ne, ne_eq]; omega)
    rw [List.range_succ, List.foldlM_append, ih (by omega), except_bind_ok,
      foldlM_singleton, hstep, List.map_append]
    simp

/-- The two-level grid fold: folding `lst2Step` for one fresh name over the
TP (outer) × EP (inner) rank grid concatenates each TP slot's EP shards
along the expert axis (dim 0) once its last EP rank is seen, and the
EP-merged slots along `partition_dim` once the last TP rank is seen. -/
theorem lst2_grid_fold {α : Type} [Inhabited α] (args : CArgs) (pd : ℕ)
    (nm : String) (shard : ℕ → ℕ → Mat α) (fs₀ : StateL (MVal α))
    (hfresh : dlookup fs₀ nm = none) (ht : 0 < args.tp_size)
    (he : 0 < args.ep_size) :
    (List.range args.tp_size).foldlM (fun fs tp =>
        (List.range args.ep_size).foldlM
          (fun fs ep => lst2Step args tp ep pd fs nm (shard tp ep)) fs) fs₀
      = .ok (dinsert fs₀ nm (.ten (catDim pd ((List.range args.tp_size).map
          (fun tp => catDim 0 ((List.range args.ep_size).map (shard tp))))))) := by
  obtain ⟨t, hT⟩ : ∃ t, args.tp_size = t + 1 := ⟨args.tp_size - 1, by omega⟩
  have hswap : (List.range args.tp_size).foldlM (fun fs tp =>
        (List.range args.ep_size).foldlM
          (fun fs ep => lst2Step args tp ep pd fs nm (shard tp ep)) fs) fs₀
      = (List.range args.tp_size).foldlM (fun fs tp =>
          (List.range args.ep_size).foldlM
            (fun fs ep => lst2Step args tp ep pd fs nm (shard tp ep)) fs)
          (dinsert fs₀ nm (.lst2 [.acc []])) := by
    rw [hT, List.range_succ_eq_map]
    simp only [List.foldlM_cons]
    rw [lst2_inner_fresh_swap args pd nm 0 (shard 0) fs₀ hfresh he]
  have hlast := lst2_inner_last args pd nm (shard t) fs₀
    ((List.range t).map (fun tp =>
      catDim 0 ((List.range args.ep_size).map (shard tp))))
    t (by simp) he (by simp only [bne_eq_false_iff_eq]; omega)
  rw [hswap, hT, List.range_succ, List.foldlM_append,
    lst2_grid_partial args pd nm shard fs₀ he t (by omega), except_bind_ok,
    foldlM_singleton]
  rw [show ((List.range t).map fun tp => MEntry.fin
      (catDim 0 ((List.range args.ep_size).map (shard tp))))
    = ((List.range t).map fun tp =>
        catDim 0 ((List.range args.ep_size).map (shard tp))).map MEntry.fin
    from by rw [List.map_map]; rfl]
  rw [hlast, List.map_append]
  simp

/-! #### `mergeOneParam` branch dispatch -/

theorem mergeOneParam_kv_eq {α : Type} [Inhabited α] {args : CArgs}
    {config : MConfig} {k1 k2 : List (String × String)} {is_gqa : Bool}
    {tp pp ep : ℕ} {fs : StateL (MVal α)} {name nm2 : String} {p : Mat α}
    {pd : ℕ}
    (h1 : ((is_qkv_weight name || hasSub "o_proj" name) && args.qkv_linear)
      = true)
    (hpd : get_partition_dim name = .ok pd)
    (hwk : get_weight_key k1 k2 name false = .ok nm2)
    (hkv : (hasSub "k" nm2 || hasSub "v" nm2 ||
      is_q_or_o_for_megatron args.model_style nm2) = true) :
    mergeOneParam args config k1 k2 is_gqa tp pp ep fs name p
      = accumStep args.tp_size tp
          (fun l => .ten (torchChunkFirst args.kv_size_multiplier (catDim pd l)))
          fs nm2 p := by
  unfold mergeOneParam
  have hkv' : (hasSub "k" nm2 = true ∨ hasSub "v" nm2 = true) ∨
      is_q_or_o_for_megatron args.model_style nm2 = true := by
    simpa using hkv
  simp [h1, hpd, hwk, hkv', except_bind_ok]

theorem mergeOneParam_qmerge_eq {α : Type} [Inhabited α] {args : CArgs}
    {config : MConfig} {k1 k2 : List (String × String)} {is_gqa : Bool}
    {tp pp ep : ℕ} {fs : StateL (MVal α)} {name nm2 : String} {p : Mat α}
    {pd : ℕ}
    (h1 : ((is_qkv_weight name || hasSub "o_proj" name) && args.qkv_linear)
      = true)
    (hpd : get_partition_dim name = .ok pd)
    (hwk : get_weight_key k1 k2 name false = .ok nm2)
    (hkv : (hasSub "k" nm2 || hasSub "v" nm2 ||
      is_q_or_o_for_megatron args.model_style nm2) = false)
    (ho : hasSub "o_proj" nm2 = false) :
    mergeOneParam args config k1 k2 is_gqa tp pp ep fs name p
      = accumStep args.tp_size tp
          (fun l => .ten (gqaQMergeRows args.hw_backend
            config.num_attention_heads
            (config.hidden_size / config.num_attention_heads)
            config.num_key_value_heads args.kv_size_multiplier args.tp_size
            (catDim pd l)))
          fs nm2 p := by
  unfold mergeOneParam
  have hk : hasSub "k" nm2 = false := by
    cases h : hasSub "k" nm2
    · rfl
    · rw [h] at hkv; simp at hkv
  have hv : hasSub "v" nm2 = false := by
    cases h : hasSub "v" nm2
    · rfl
    · rw [h] at hkv; simp at hkv
  have hq : is_q_or_o_for_megatron args.model_style nm2 = false := by
    cases h : is_q_or_o_for_megatron args.model_style nm2
    · rfl
    · rw [h] at hkv; simp at hkv
  simp [h1, hpd, hwk, hk, hv, hq, ho, except_bind_ok]

theorem mergeOneParam_omerge_eq {α : Type} [Inhabited α] {args : CArgs}
    {config : MConfig} {k1 k2 : List (String × String)} {is_gqa : Bool}
    {tp pp ep : ℕ} {fs : StateL (MVal α)} {name nm2 : String} {p : Mat α}
    {pd : ℕ}
    (h1 : ((is_qkv_weight name || hasSub "o_proj" name) && args.qkv_linear)
      = true)
    (hpd : get_partition_dim name = .ok pd)
    (hwk : get_weight_key k1 k2 name false = .ok nm2)
    (hkv : (hasSub "k" nm2 || hasSub "v" nm2 ||
      is_q_or_o_for_megatron args.model_style nm2) = false)
    (ho : hasSub "o_proj" nm2 = true) :
    mergeOneParam args config k1 k2 is_gqa tp pp ep fs name p
      = accumStep args.tp_size tp
          (fun l => .ten (transposeM (gqaQMergeRows args.hw_backend
            config.num_attention_heads
            (config.hidden_size / config.num_attention_heads)
            config.num_key_value_heads args.kv_size_multiplier args.tp_size
            (transposeM (catDim pd l)))))
          fs nm2 p := by
  unfold mergeOneParam
  have hk : hasSub "k" nm2 = false := by
    cases h : hasSub "k" nm2
    · rfl
    · rw [h] at hkv; simp at hkv
  have hv : hasSub "v" nm2 = false := by
    cases h : hasSub "v" nm2
    · rfl
    · rw [h] at hkv; simp at hkv
  have hq : is_q_or_o_for_megatron args.model_style nm2 = false := by
    cases h : is_q_or_o_for_megatron args.model_style nm2
    · rfl
    · rw [h] at hkv; simp at hkv
  simp [h1, hpd, hwk, hk, hv, hq, ho, except_bind_ok]

theorem mergeOneParam_plain_eq {α : Type} [Inhabited α] {args : CArgs}
    {config : MConfig} {k1 k2 : List (String × String)} {is_gqa : Bool}
    {tp pp ep : ℕ} {fs : StateL (MVal α)} {name nm2 : String} {p : Mat α}
    {pd : ℕ}
    (h1 : ((is_qkv_weight name || hasSub "o_proj" name) && args.qkv_linear)
      = false)
    (h2 : (hasSub "qkv_proj" name && !is_gqa) = false)
    (h3 : (hasSub "embed_tokens" name || is_qkv_weight name ||
      hasSub "o_proj" name || hasSub "lm_head" name) = true)
    (hpd : get_partition_dim name = .ok pd)
    (hwk : get_weight_key k1 k2 name false = .ok nm2) :
    mergeOneParam args config k1 k2 is_gqa tp pp ep fs name p
      = accumStep args.tp_size tp (fun l => .ten (catDim pd l)) fs nm2 p := by
  unfold mergeOneParam
  simp [h1, h2, h3, hpd, hwk, except_bind_ok]

theorem mergeOneParam_down_eq {α : Type} [Inhabited α] {args : CArgs}
    {config : MConfig} {k1 k2 : List (String × String)} {is_gqa : Bool}
    {tp pp ep : ℕ} {fs : StateL (MVal α)} {name nm2 : String} {p : Mat α}
    {pd : ℕ}
    (h1 : ((is_qkv_weight name || hasSub "o_proj" name) && args.qkv_linear)
      = false)
    (h2 : (hasSub "qkv_proj" name && !is_gqa) = false)
    (h3 : (hasSub "embed_tokens" name || is_qkv_weight name ||
      hasSub "o_proj" name || hasSub "lm_head" name) = false)
    (hd : hasSub "down_proj" name = true)
    (hpd : get_partition_dim name = .ok pd)
    (hwk : get_weight_key k1 k2 name false = .ok nm2) :
    mergeOneParam args config k1 k2 is_gqa tp pp ep fs name p
      = lst2Step args tp ep pd fs nm2 p := by
  unfold mergeOneParam
  simp [h1, h2, h3, hd, hpd, hwk, except_bind_ok]

theorem mergeOneParam_gateup_eq {α : Type} [Inhabited α] {args : CArgs}
    {config : MConfig} {k1 k2 : List (String × String)} {is_gqa : Bool}
    {tp pp ep : ℕ} {fs : StateL (MVal α)} {name : String} {p : Mat α}
    {pd : ℕ}
    (h1 : ((is_qkv_weight name || hasSub "o_proj" name) && args.qkv_linear)
      = false)
    (h2 : (hasSub "qkv_proj" name && !is_gqa) = false)
    (h3 : (hasSub "embed_tokens" name || is_qkv_weight name ||
      hasSub "o_proj" name || hasSub "lm_head" name) = false)
    (hd : hasSub "down_proj" name = false)
    (hg : hasSub "gate_up_proj" name = true)
    (hpd : get_partition_dim name = .ok pd) :
    mergeOneParam args config k1 k2 is_gqa tp pp ep fs name p
      = (lst2Step args tp ep pd fs
          (strReplace name "gate_up_proj" "gate_proj")
          (narrowD pd 0 (sizeD pd p / 2) p) >>= fun fs =>
        lst2Step args tp ep pd fs
          (strReplace name "gate_up_proj" "up_proj")
          (narrowD pd (sizeD pd p / 2) (sizeD pd p / 2) p)) := by
  unfold mergeOneParam
  simp [h1, h2, h3, hd, hg, hpd, except_bind_ok]

theorem mergeOneParam_expert_eq {α : Type} [Inhabited α] {args : CArgs}
    {config : MConfig} {k1 k2 : List (String × String)} {is_gqa : Bool}
    {tp pp ep : ℕ} {fs : StateL (MVal α)} {name : String} {p : Mat α}
    (h1 : ((is_qkv_weight name || hasSub "o_proj" name) && args.qkv_linear)
      = false)
    (h2 : (hasSub "qkv_proj" name && !is_gqa) = false)
    (h3 : (hasSub "embed_tokens" name || is_qkv_weight name ||
      hasSub "o_proj" name || hasSub "lm_head" name) = false)
    (hd : hasSub "down_proj" name = false)
    (hg : hasSub "gate_up_proj" name = false)
    (he : hasSub "expert_mlps" name = true) :
    mergeOneParam args config k1 k2 is_gqa tp pp ep fs name p
      = accumStep args.ep_size ep (fun l => .ten (catDim 0 l)) fs name p := by
  unfold mergeOneParam
  simp [h1, h2, h3, hd, hg, he]

theorem mergeOneParam_pass {α : Type} [Inhabited α] {args : CArgs}
    {config : MConfig} {k1 k2 : List (String × String)} {is_gqa : Bool}
    {tp pp ep : ℕ} {fs : StateL (MVal α)} {name : String} {p : Mat α}
    (h1 : ((is_qkv_weight name || hasSub "o_proj" name) && args.qkv_linear)
      = false)
    (h2 : (hasSub "qkv_proj" name && !is_gqa) = false)
    (h3 : (hasSub "embed_tokens" name || is_qkv_weight name ||
      hasSub "o_proj" name || hasSub "lm_head" name) = false)
    (hd : hasSub "down_proj" name = false)
    (hg : hasSub "gate_up_proj" name = false)
    (he : hasSub "expert_mlps" name = false) :
    mergeOneParam args config k1 k2 is_gqa tp pp ep fs name p
      = .ok (if dmem fs name then fs else dinsert fs name (.ten p)) := by
  unfold mergeOneParam
  by_cases hm : dmem fs name = true <;>
    simp [h1, h2, h3, hd, hg, he, hm, except_pure]

/-- For non-megatron style with `fuse_qkv` off, one merge pass over a loaded
partial state is exactly the per-parameter `mergeOneParam` fold. -/
theorem mergeOneState_hf_eq {α : Type} [Inhabited α] {args : CArgs}
    (hstyle : args.model_style ≠ "megatron") (hfuse : args.fuse_qkv = false)
    (config : MConfig) (tp pp ep : ℕ) (fs : StateL (MVal α))
    (pstate : StateL (Mat α)) :
    mergeOneState args config tp pp ep fs pstate
      = pstate.foldlM (fun fs nv =>
          mergeOneParam args config
            (get_hf_to_nxd_model_keys args.qkv_linear
              (config.num_attention_heads != config.num_key_value_heads)).1
            (get_hf_to_nxd_model_keys args.qkv_linear
              (config.num_attention_heads != config.num_key_value_heads)).2
            (config.num_attention_heads != config.num_key_value_heads)
            tp pp ep fs nv.1 nv.2) fs := by
  unfold mergeOneState
  simp only [renameLoop_id hstyle false (pstate.map (·.1)) pstate
      (fun k hk => dlookup_fst_isSome hk),
    except_bind_ok, modify_qkv_nonmeg hstyle, hfuse, except_pure]
  simp [except_bind_ok, except_pure]

/-- With `pp_size = 1` the pipeline-rank loop of `merge_tp_checkpoints`
degenerates and the fold is over TP (outer) and EP (inner) ranks only. -/
theorem merge_tp_pp1_eq {α : Type} [Inhabited α] {args : CArgs}
    (hpp : args.pp_size = 1) (config : MConfig)
    (loadPart : ℕ → ℕ → ℕ → StateL (Mat α)) :
    merge_tp_checkpoints args config loadPart
      = (List.range args.tp_size).foldlM (fun fs tp =>
          (List.range args.ep_size).foldlM (fun fs ep =>
            mergeOneState args config tp 0 ep fs (loadPart tp 0 ep)) fs) [] := by
  unfold merge_tp_checkpoints
  rw [hpp, show List.range 1 = [0] from rfl]
  have h : (fun (fs : StateL (MVal α)) (tp : ℕ) =>
        ([0] : List ℕ).foldlM (fun fs pp =>
          (List.range args.ep_size).foldlM (fun fs ep =>
            mergeOneState args config tp pp ep fs (loadPart tp pp ep)) fs) fs)
      = (fun (fs : StateL (MVal α)) (tp : ℕ) =>
          (List.range args.ep_size).foldlM (fun fs ep =>
            mergeOneState args config tp 0 ep fs (loadPart tp 0 ep)) fs) := by
    funext fs tp
    rw [foldlM_singleton]
  rw [h]

/-- With `pp_size = ep_size = 1` the merge is a single fold over TP ranks. -/
theorem merge_tp_pp1_ep1_eq {α : Type} [Inhabited α] {args : CArgs}
    (hpp : args.pp_size = 1) (hep : args.ep_size = 1) (config : MConfig)
    (loadPart : ℕ → ℕ → ℕ → StateL (Mat α)) :
    merge_tp_checkpoints args config loadPart
      = (List.range args.tp_size).foldlM (fun fs tp =>
          mergeOneState args config tp 0 0 fs (loadPart tp 0 0)) [] := by
  rw [merge_tp_pp1_eq hpp, hep, show List.range 1 = [0] from rfl]
  have h : (fun (fs : StateL (MVal α)) (tp : ℕ) =>
        ([0] : List ℕ).foldlM (fun fs ep =>
          mergeOneState args config tp 0 ep fs (loadPart tp 0 ep)) fs)
      = (fun (fs : StateL (MVal α)) (tp : ℕ) =>
          mergeOneState args config tp 0 0 fs (loadPart tp 0 0)) := by
    funext fs tp
    rw [foldlM_singleton]
  rw [h]

/-! ### Claim theorems -/

/-- A representative set of megatron-style parameter names covering every
entry class of the `megatron_name_to_hf_name` table. -/
def megatronRepresentativeKeys : List String :=
  ["language_model.embedding.word_embeddings.weight",
   "language_model.encoder.final_layernorm.weight",
   "language_model.encoder.layers.0.self_attention.dense.weight",
   "language_model.encoder.layers.0.self_attention.core_attention.rotary_emb.inv_freq",
   "language_model.encoder.layers.0.mlp.dense_h_to_4h.weight",
   "language_model.encoder.layers.0.mlp.dense_4h_to_h.weight",
   "language_model.encoder.layers.13.self_attention.query_key_value.weight",
   "language_model.encoder.layers.2.input_layernorm.weight",
   "language_model.encoder.layers.2.post_attention_layernorm.weight",
   "language_model.output_layer.weight"]

/-- Claim C9: for every parameter name in a representative key set, applying
`rename_keys_for_megatron` in the forward direction (`hf_to_nxdt = false`)
and then in the reverse direction (`hf_to_nxdt = true`) under megatron style
returns the original name; moreover substitution stops once an
embedding/final-norm canonical form is reached, so the `"model."` substring
inside `"model.norm.weight"` is never double-translated (the reverse rename
of `"model.norm.weight"` is exactly the canonical megatron final-norm name,
and the embedding name maps back exactly). -/
theorem c9_style_rename_roundtrip :
    (∀ key ∈ megatronRepresentativeKeys,
      rename_keys_for_megatron
        (rename_keys_for_megatron key "megatron" false) "megatron" true = key)
    ∧ rename_keys_for_megatron "model.norm.weight" "megatron" true
        = "language_model.encoder.final_layernorm.weight"
    ∧ rename_keys_for_megatron "model.embed_tokens.weight" "megatron" true
        = "language_model.embedding.word_embeddings.weight" := by decide

set_option maxRecDepth 8192 in
/-- Claim C8: splitting fails when a dimension is not evenly divisible by
the declared parallelism degree: with `hidden_size = 256` and `tp_size = 3`
the TP slice of a `[256, 256]` `o_proj` weight raises (the source's
`assert dim_size % tp_size == 0`), and an expert dimension (5) not divisible
by `ep_size = 2` raises a `ValueError`; in both cases
`convert_full_state_to_tp` aborts with the error instead of recovering. -/
theorem c8_divisibility_enforced :
    convert_full_state_to_tp
        [("model.layers.0.self_attn.o_proj.weight",
          List.replicate 256 (List.replicate 256 (0 : ℕ)))]
        { tp_size := 3, model_style := "hf" } 0 0 0 ["model.layers.0"]
        { num_attention_heads := 8, num_key_value_heads := 8,
          hidden_size := 256 }
      = .error "vocab size is not divisiable"
    ∧ convert_full_state_to_tp
        [("expert_mlps.mlp_op.weight", List.replicate 5 [(0 : ℕ)])]
        { ep_size := 2, model_style := "hf" } 0 0 0 []
        { num_attention_heads := 8, num_key_value_heads := 8,
          hidden_size := 256 }
      = .error
        "Expert dimension (5) is not divisible by expert parallelism degree (2)." := by
  decide

/-- The HeadLayout divisibility invariants as needed for the GQA head index
arithmetic to be a bijection: on the interleaved (trn1) layout the KV
replication must satisfy `tp_size = kv_heads * kv_size_multiplier` exactly
(not merely divisibility) with whole head groups per rank; on the blocked
(trn2) layout `kv_heads ∣ q_heads` and `tp_size ∣ q_heads`. -/
def gqaInvariant (hw : Hw) (q k m t : ℕ) : Prop :=
  match hw with
  | .trn1 => 0 < k ∧ 0 < m ∧ t = k * m ∧ ∃ g, 0 < g ∧ q = k * m * g
  | .trn2 => 0 < k ∧ 0 < t ∧ k ∣ q ∧ t ∣ q

/-- Claim C2 (counterexample): with `q_heads = 8`, `kv_heads = 2`,
`kv_size_multiplier = 4`, `tp_size = 4` on the interleaved backend, the
spec's HeadLayout divisibility invariants hold (`q_heads % kv_heads = 0` and
`kv_size_multiplier * kv_heads` is divisible by `tp_size`), yet the split
index arithmetic followed by the merge index arithmetic applied to
`range(q_heads)` is not a permutation of `range(q_heads)`: heads 4–7 are
dropped. -/
theorem c2_counterexample :
    8 % 2 = 0 ∧ (4 * 2) % 4 = 0 ∧ (2 * 4) % 8 = 0 ∧
    ¬ (gqaQMergeRows .trn1 8 1 2 4 4
        (catD0 ((List.range 4).map fun r =>
          gqaQSliceRows .trn1 8 1 2 4 4 r ((List.range 8).map fun h => [h])))
      = (List.range 8).map fun h => [h]) := by decide

/-- Claim C2 (amended): for every `(q_heads, kv_heads, kv_size_multiplier,
hw_backend, tp_size)` satisfying the corrected HeadLayout invariants
(`tp_size = kv_heads * kv_size_multiplier` exactly for the interleaved
layout; `kv_heads ∣ q_heads` and `tp_size ∣ q_heads` for the blocked
layout), the query-head index arithmetic of the split direction followed by
that of the merge direction maps `range(q_heads)` exactly to
`range(q_heads)` — the identity permutation, so no head index is dropped or
duplicated. -/
theorem c2_gqa_index_permutation (hw : Hw) (q k m t : ℕ)
    (hinv : gqaInvariant hw q k m t) :
    gqaQMergeRows hw q 1 k m t
      (catD0 ((List.range t).map fun r =>
        gqaQSliceRows hw q 1 k m t r ((List.range q).map fun h => [h])))
      = (List.range q).map fun h => [h] := by
  cases hw with
  | trn1 =>
    obtain ⟨hk, hm, ht, g, hg, hq⟩ := hinv
    subst ht hq
    exact gqaQ_roundtrip_trn1 k m g 1 hk hm hg _ (by simp)
  | trn2 =>
    obtain ⟨hk, ht, hkq, htq⟩ := hinv
    exact gqaQ_roundtrip_trn2 q k m t 1 hk ht hkq htq _ (by simp)

/-- Witness for C2 (amended) at the worked example scaled to
`q_heads = 8, kv_heads = 2, kv_size_multiplier = 4, tp_size = 8`
(interleaved). -/
theorem c2_gqa_index_permutation_witness :
    gqaInvariant .trn1 8 2 4 8 ∧
    gqaQMergeRows .trn1 8 1 2 4 8
      (catD0 ((List.range 8).map fun r =>
        gqaQSliceRows .trn1 8 1 2 4 8 r ((List.range 8).map fun h => [h])))
      = (List.range 8).map fun h => [h] :=
  ⟨⟨by norm_num, by norm_num, by norm_num, 1, by norm_num, by norm_num⟩,
   c2_gqa_index_permutation .trn1 8 2 4 8
     ⟨by norm_num, by norm_num, by norm_num, 1, by norm_num, by norm_num⟩⟩

/-- Arguments of the C5 scenario: `tp_size = 2`, plain (non-GQAQKV) linear
layers, HF style. -/
def c5Args : CArgs := { tp_size := 2, model_style := "hf" }

/-- Config of the C5 scenario: `q_heads = kv_heads = 8` (no GQA),
`hidden_size = 512`. -/
def c5Cfg : MConfig :=
  { num_attention_heads := 8, num_key_value_heads := 8, hidden_size := 512 }

/-- Claim C5: with `q_heads = 8 = kv_heads` (no GQA) and `tp_size = 2`,
splitting a `[512, 512]` `o_proj` full weight yields, on each TP rank
`r < 2`, a `[512, 256]` shard equal to the plain contiguous column half
`M[:, r·256 : (r+1)·256]` — no replication and no head permutation is
applied. -/
theorem c5_no_gqa_plain_column_halves {α : Type} [Inhabited α] (M : Mat α)
    (hlen : M.length = 512) (hrect : Rect 512 M) (r : ℕ) (hr : r < 2) :
    convert_full_state_to_tp [("model.layers.0.self_attn.o_proj.weight", M)]
        c5Args r 0 0 ["model.layers.0"] c5Cfg
      = .ok [("model.layers.0.self_attn.o_proj.weight",
          M.map fun row => (row.drop (r * 256)).take 256)]
    ∧ (M.map fun row => (row.drop (r * 256)).take 256).length = 512
    ∧ Rect 256 (M.map fun row => (row.drop (r * 256)).take 256) := by
  have hMne : M ≠ [] := by intro h; rw [h] at hlen; simp at hlen
  have hs1 : size1 M = 512 := size1_eq_of_rect hrect hMne
  have hsD : sizeD 1 M = 512 := by simpa [sizeD] using hs1
  refine ⟨?_, ?_, ?_⟩
  · rw [convert_hf_eq (by decide) rfl, foldlM_singleton]
    show convertOneParam c5Args c5Cfg ["model.layers.0"] r 0 0 []
        "model.layers.0.self_attn.o_proj.weight" M = _
    rw [convertOneParam_pass_layers 0 0
        (by rw [show hasSub "embed_tokens"
          "model.layers.0.self_attn.o_proj.weight" = false from by decide,
          Bool.and_false])
        (by decide) (by decide) (by decide) (by decide) (by decide) (by decide)]
    rw [convertParamSlices_dim_plain 1 (by decide) (by decide)
      (by decide) (by decide) (by rw [hsD]; decide)]
    rw [show (c5Args.tp_size : ℕ) = 2 from rfl, hsD]
    rfl
  · simp [hlen]
  · intro row' hrow'
    simp only [List.mem_map] at hrow'
    obtain ⟨row, hrow, rfl⟩ := hrow'
    have h512 : row.length = 512 := hrect row hrow
    simp only [List.length_take, List.length_drop, h512]
    have : r * 256 ≤ 256 := by
      have : r ≤ 1 := by omega
      calc r * 256 ≤ 1 * 256 := Nat.mul_le_mul_right _ this
      _ = 256 := by norm_num
    omega

/-- Witness for C5 at the concrete full weight `replicate 512 (replicate 512 0)`
and TP rank `1`. -/
theorem c5_no_gqa_plain_column_halves_witness :
    (List.replicate 512 (List.replicate 512 (0 : ℕ))).length = 512
    ∧ (1 : ℕ) < 2
    ∧ convert_full_state_to_tp
        [("model.layers.0.self_attn.o_proj.weight",
          List.replicate 512 (List.replicate 512 (0 : ℕ)))]
        c5Args 1 0 0 ["model.layers.0"] c5Cfg
      = .ok [("model.layers.0.self_attn.o_proj.weight",
          (List.replicate 512 (List.replicate 512 (0 : ℕ))).map
            fun row => (row.drop (1 * 256)).take 256)] :=
  ⟨List.length_replicate 512 _, by decide,
    (c5_no_gqa_plain_column_halves
      (List.replicate 512 (List.replicate 512 (0 : ℕ)))
      (List.length_replicate 512 _)
      (by intro row hrow
          rw [List.eq_of_mem_replicate hrow]
          exact List.length_replicate 512 _)
      1 (by decide)).1⟩

/-- Claim C10: in `convert_full_state_to_tp`, a parameter whose name matches
no partition-role pattern (for example a per-layer norm weight) is not an
error: once the PP filter admits it (its layer maps to this pipeline rank)
and the EP filter admits it (`ep_rank = 0`), the unmodified full tensor is
inserted into the partial state; the result does not depend on `tp_rank`,
so every TP rank receives an identical copy. -/
theorem c10_unmatched_names_replicated {α : Type} [Inhabited α] (args : CArgs)
    (config : MConfig) (partitions : List String) (tp_rank pp_rank : ℕ)
    (pstate : StateL (Mat α)) (name : String) (M : Mat α) (L st : ℕ)
    (hembed : hasSub "embed_tokens" name = false)
    (hexp : hasSub "expert_mlps" name = false)
    (hlm : hasSub "lm_head" name = false)
    (hnorm : hasSub "model.norm.weight" name = false)
    (hlay : hasSub "layers" name = true)
    (hidx : pyLayerIdx name = .ok L)
    (hst : findCutStage partitions L 0 = .ok st)
    (hpp : stage_to_pipeline_parallel_rank st args.pp_size = pp_rank)
    (hq : is_qkv_weight name = false)
    (ho : hasSub "o_proj" name = false)
    (hd : hasSub "down_proj" name = false)
    (hg : hasSub "gate_proj" name = false)
    (hu : hasSub "up_proj" name = false) :
    convertOneParam args config partitions tp_rank pp_rank 0 pstate name M
      = .ok (dinsert pstate name M) := by
  rw [convertOneParam_pass_layers L st (by rw [hembed, Bool.and_false]) (by simp)
    (by rw [hlm, hnorm]; simp) hlay hidx hst (by rw [hpp]; simp)]
  exact convertParamSlices_passthrough hexp (by rw [hq, ho]; simp)
    (by rw [hembed, hq, ho, hd, hlm]; simp) (by rw [hg, hu]; simp)

/-- Witness for C10 at the per-layer norm weight
`model.layers.0.input_layernorm.weight` on TP rank 1. -/
theorem c10_unmatched_names_replicated_witness :
    convertOneParam ({ model_style := "hf" } : CArgs)
        { num_attention_heads := 2, num_key_value_heads := 2, hidden_size := 2 }
        ["model.layers.0"] 1 0 0 [] "model.layers.0.input_layernorm.weight"
        ([[1, 2]] : Mat ℕ)
      = .ok (dinsert [] "model.layers.0.input_layernorm.weight" [[1, 2]]) :=
  c10_unmatched_names_replicated _ _ _ 1 0 [] _ [[1, 2]] 0 0 (by decide)
    (by decide) (by decide) (by decide) (by decide) (by decide) (by decide)
    (by decide) (by decide) (by decide) (by decide) (by decide) (by decide)

/-- Claim C7: the PP filter of `convert_full_state_to_tp` — an
`embed_tokens` parameter is not emitted on any `pp_rank ≠ 0`; an `lm_head`
or final-norm (`model.norm.weight`) parameter is not emitted on any
`pp_rank ≠ pp_size - 1`; and a transformer-layer parameter whose first
partition boundary with cut-layer index `≥ L` has stage `st` is not emitted
on any pipeline rank other than `stage_to_pipeline_parallel_rank st pp_size`
(so each parameter is emitted only on its designated pipeline rank). -/
theorem c7_pp_filter {α : Type} [Inhabited α] (args : CArgs) (config : MConfig)
    (partitions : List String) :
    (∀ (name : String) (M : Mat α) (tp_rank pp_rank : ℕ)
      (pstate : StateL (Mat α)),
      hasSub "embed_tokens" name = true → pp_rank ≠ 0 →
      convertOneParam args config partitions tp_rank pp_rank 0 pstate name M
        = .ok pstate)
    ∧ (∀ (name : String) (M : Mat α) (tp_rank pp_rank : ℕ)
      (pstate : StateL (Mat α)),
      hasSub "embed_tokens" name = false →
      (hasSub "lm_head" name = true ∨ hasSub "model.norm.weight" name = true) →
      pp_rank ≠ args.pp_size - 1 →
      convertOneParam args config partitions tp_rank pp_rank 0 pstate name M
        = .ok pstate)
    ∧ (∀ (name : String) (M : Mat α) (tp_rank pp_rank : ℕ)
      (pstate : StateL (Mat α)) (L st : ℕ),
      hasSub "embed_tokens" name = false →
      hasSub "lm_head" name = false → hasSub "model.norm.weight" name = false →
      hasSub "layers" name = true →
      pyLayerIdx name = .ok L →
      findCutStage partitions L 0 = .ok st →
      stage_to_pipeline_parallel_rank st args.pp_size ≠ pp_rank →
      convertOneParam args config partitions tp_rank pp_rank 0 pstate name M
        = .ok pstate) := by
  refine ⟨?_, ?_, ?_⟩
  · intro name M tp_rank pp_rank pstate hembed hpp
    exact convertOneParam_skip_embed (by rw [hembed]; simpa using hpp)
  · intro name M tp_rank pp_rank pstate hembed hlm hpp
    refine convertOneParam_skip_lm (by rw [hembed, Bool.and_false]) (by simp) ?_
    rcases hlm with h | h <;> rw [h] <;> simp <;> simpa using hpp
  · intro name M tp_rank pp_rank pstate L st hembed hlm hnorm hlay hidx hst hne
    exact convertOneParam_skip_layer L st (by rw [hembed, Bool.and_false])
      (by simp) (by rw [hlm, hnorm]; simp) hlay hidx hst (by simpa using hne)

/-- Witness for C7: concrete instances of all three filter clauses
(an embedding weight on `pp_rank = 1`, `lm_head` on `pp_rank = 0` of a
2-stage pipeline, and layer 1 (stage 1) on `pp_rank = 0`). -/
theorem c7_pp_filter_witness :
    convertOneParam ({ pp_size := 2, model_style := "hf" } : CArgs)
        { num_attention_heads := 2, num_key_value_heads := 2, hidden_size := 2 }
        ["model.layers.0", "model.layers.1"] 0 1 0 []
        "model.embed_tokens.weight" ([[1]] : Mat ℕ) = .ok []
    ∧ convertOneParam ({ pp_size := 2, model_style := "hf" } : CArgs)
        { num_attention_heads := 2, num_key_value_heads := 2, hidden_size := 2 }
        ["model.layers.0", "model.layers.1"] 0 0 0 []
        "lm_head.weight" ([[1]] : Mat ℕ) = .ok []
    ∧ convertOneParam ({ pp_size := 2, model_style := "hf" } : CArgs)
        { num_attention_heads := 2, num_key_value_heads := 2, hidden_size := 2 }
        ["model.layers.0", "model.layers.1"] 0 0 0 []
        "model.layers.1.input_layernorm.weight" ([[1]] : Mat ℕ) = .ok [] :=
  ⟨(c7_pp_filter _ _ _).1 _ [[1]] 0 1 [] (by decide) (by decide),
   (c7_pp_filter _ _ _).2.1 _ [[1]] 0 0 [] (by decide) (Or.inl (by decide))
     (by decide),
   (c7_pp_filter _ _ _).2.2 _ [[1]] 0 0 [] 1 1 (by decide) (by decide)
     (by decide) (by decide) (by decide) (by decide) (by decide)⟩

/-- Folding the pass-through (role-less) branch of `mergeOneParam` over all
TP ranks keeps the first rank's tensor and silently ignores the others. -/
theorem mergeOneParam_pass_fold {α : Type} [Inhabited α] (args : CArgs)
    (config : MConfig) (k1 k2 : List (String × String)) (is_gqa : Bool)
    (name : String) (shard : ℕ → Mat α) (t : ℕ) (ht : 0 < t)
    (hq : is_qkv_weight name = false) (ho : hasSub "o_proj" name = false)
    (hqkvp : hasSub "qkv_proj" name = false)
    (hembed : hasSub "embed_tokens" name = false)
    (hlm : hasSub "lm_head" name = false)
    (hdown : hasSub "down_proj" name = false)
    (hgup : hasSub "gate_up_proj" name = false)
    (hexp : hasSub "expert_mlps" name = false) :
    (List.range t).foldlM (fun fs tp =>
        mergeOneParam args config k1 k2 is_gqa tp 0 0 fs name (shard tp)) []
      = .ok [(name, MVal.ten (shard 0))] := by
  have hA : ((is_qkv_weight name || hasSub "o_proj" name) && args.qkv_linear)
      = false := by simp [hq, ho]
  have hB : (hasSub "qkv_proj" name && !is_gqa) = false := by simp [hqkvp]
  have hC : (hasSub "embed_tokens" name || is_qkv_weight name ||
      hasSub "o_proj" name || hasSub "lm_head" name) = false := by
    simp [hembed, hq, ho, hlm]
  induction t with
  | zero => exact absurd ht (lt_irrefl 0)
  | succ t ih =>
    rcases Nat.eq_zero_or_pos t with h0 | h0
    · subst h0
      rw [show List.range 1 = [0] from rfl, foldlM_singleton,
        mergeOneParam_pass hA hB hC hdown hgup hexp]
      simp [dmem, dlookup, dinsert]
    · rw [List.range_succ, List.foldlM_append, ih h0, except_bind_ok,
        foldlM_singleton, mergeOneParam_pass hA hB hC hdown hgup hexp]
      have hm : dmem [(name, MVal.ten (shard 0))] name = true := by
        simp [dmem, dlookup]
      simp [hm]

set_option maxRecDepth 8192 in
/-- Counterexample to C3: merging TP shards of a parameter whose name
matches no known structural pattern (`input_layernorm`) does NOT raise: the
merge returns `.ok` and silently passes the first rank's tensor through
into the output full state (the second rank's distinct tensor `[[2]]` is
silently discarded). -/
theorem c3_counterexample :
    merge_tp_checkpoints ({ tp_size := 2, model_style := "hf" } : CArgs)
      { num_attention_heads := 2, num_key_value_heads := 2, hidden_size := 2 }
      (fun tp _ _ => [("model.layers.0.input_layernorm.weight",
        ([[tp + 1]] : Mat ℕ))])
      = .ok [("model.layers.0.input_layernorm.weight", MVal.ten [[1]])] := by
  decide

/-- Claim C3 (amended): a parameter name matching no known structural
pattern is exactly the case `get_partition_dim` rejects with
`Unknown partition_dim for {name}` — but `merge_tp_checkpoints` never
consults `get_partition_dim` for such names: its final `else` branch
accepts them, inserting the first TP rank's tensor unchanged and silently
skipping every later rank (`if name not in full_state` at line 438), so
the merge succeeds with the name passed through. -/
theorem c3_unknown_role_passthrough {α : Type} [Inhabited α] (args : CArgs)
    (config : MConfig) (shard : ℕ → Mat α) (name : String)
    (hstyle : args.model_style ≠ "megatron") (hfuse : args.fuse_qkv = false)
    (hpp : args.pp_size = 1) (hep : args.ep_size = 1)
    (htp : 0 < args.tp_size)
    (hq : is_qkv_weight name = false) (ho : hasSub "o_proj" name = false)
    (hembed : hasSub "embed_tokens" name = false)
    (hlm : hasSub "lm_head" name = false)
    (hdown : hasSub "down_proj" name = false)
    (hgup : hasSub "gate_up_proj" name = false)
    (hexp : hasSub "expert_mlps" name = false)
    (hgate : hasSub "gate_proj" name = false)
    (hup : hasSub "up_proj" name = false) :
    get_partition_dim name = .error ("Unknown partition_dim for " ++ name)
    ∧ merge_tp_checkpoints args config (fun tp _ _ => [(name, shard tp)])
        = .ok [(name, MVal.ten (shard 0))] := by
  have hqkvp : hasSub "qkv_proj" name = false := by
    cases h : hasSub "qkv_proj" name
    · rfl
    · rw [show is_qkv_weight name = true from by simp [is_qkv_weight, h]] at hq
      exact absurd hq (by simp)
  constructor
  · unfold get_partition_dim
    simp [hembed, hlm, hq, hgate, hup, hgup, hdown, ho]
  · rw [merge_tp_pp1_ep1_eq hpp hep]
    have hfun : (fun (fs : StateL (MVal α)) (tp : ℕ) =>
          mergeOneState args config tp 0 0 fs [(name, shard tp)])
        = (fun (fs : StateL (MVal α)) (tp : ℕ) =>
            mergeOneParam args config
              (get_hf_to_nxd_model_keys args.qkv_linear
                (config.num_attention_heads != config.num_key_value_heads)).1
              (get_hf_to_nxd_model_keys args.qkv_linear
                (config.num_attention_heads != config.num_key_value_heads)).2
              (config.num_attention_heads != config.num_key_value_heads)
              tp 0 0 fs name (shard tp)) := by
      funext fs tp
      rw [mergeOneState_hf_eq hstyle hfuse, foldlM_singleton]
    rw [hfun]
    exact mergeOneParam_pass_fold args config _ _ _ name shard args.tp_size htp
      hq ho hqkvp hembed hlm hdown hgup hexp

/-- Witness for C3's amended theorem at a concrete layer-norm name with
`tp_size = 2`. -/
theorem c3_unknown_role_passthrough_witness :
    get_partition_dim "model.layers.0.post_attention_layernorm.weight"
      = .error ("Unknown partition_dim for "
          ++ "model.layers.0.post_attention_layernorm.weight")
    ∧ merge_tp_checkpoints ({ tp_size := 2, model_style := "hf" } : CArgs)
        { num_attention_heads := 2, num_key_value_heads := 2, hidden_size := 2 }
        (fun tp _ _ => [("model.layers.0.post_attention_layernorm.weight",
          (fun _ => ([[5]] : Mat ℕ)) tp)])
      = .ok [("model.layers.0.post_attention_layernorm.weight",
          MVal.ten [[5]])] :=
  c3_unknown_role_passthrough ({ tp_size := 2, model_style := "hf" } : CArgs)
    { num_attention_heads := 2, num_key_value_heads := 2, hidden_size := 2 }
    (fun _ => ([[5]] : Mat ℕ)) "model.layers.0.post_attention_layernorm.weight"
    (by decide) rfl rfl rfl (by decide) (by decide) (by decide) (by decide)
    (by decide) (by decide) (by decide) (by decide) (by decide) (by decide)

set_option maxRecDepth 8192 in
/-- Counterexample to C4: for an `expert_mlps` parameter under expert
parallelism the accumulation is NOT two-level: all ranks append into one
flat list that is finalized as a tensor on the last EP rank of the FIRST
TP rank, so with `tp_size = 2, ep_size = 2` the second TP rank appends
into an already-finalized tensor and the merge crashes with Python's
`AttributeError` instead of concatenating along the TP partition axis. -/
theorem c4_counterexample :
    merge_tp_checkpoints
      ({ tp_size := 2, ep_size := 2, model_style := "hf" } : CArgs)
      { num_attention_heads := 2, num_key_value_heads := 2, hidden_size := 2 }
      (fun tp _ ep =>
        [("model.layers.0.mlp.expert_mlps.weight",
          ([[10 * tp + ep]] : Mat ℕ))])
      = .error "AttributeError: 'Tensor' object has no attribute 'append'" := by
  decide

set_option maxRecDepth 8192 in
/-- Claim C4 (amended): two-level accumulation holds for `down_proj` (and,
via the same `lst2Step`, `gate_up_proj`) but not for `expert_mlps`.
First conjunct: for every `down_proj`-profile name, merging shards over the
full TP × EP rank grid concatenates each TP slot's EP shards along the
expert axis (dim 0) once all its EP ranks are seen, then the EP-merged
pieces along the TP partition axis (dim 1) once all TP ranks are seen.
Second conjunct: an `expert_mlps`-profile parameter is instead accumulated
in a single flat list finalized along axis 0 on the last EP rank only —
no TP-level concatenation ever happens.  Third conjunct: the two output
halves of a concrete `gate_up_proj` weight each receive the same two-level
treatment. -/
theorem c4_two_level_accumulation {α : Type} [Inhabited α] (args : CArgs)
    (config : MConfig) (shard : ℕ → ℕ → Mat α) (name : String)
    (hstyle : args.model_style ≠ "megatron") (hfuse : args.fuse_qkv = false)
    (hpp : args.pp_size = 1) (ht : 0 < args.tp_size) (he : 0 < args.ep_size)
    (hdp : hasSub "down_proj" name = true)
    (hq : is_qkv_weight name = false) (ho : hasSub "o_proj" name = false)
    (hembed : hasSub "embed_tokens" name = false)
    (hlm : hasSub "lm_head" name = false)
    (hgate : hasSub "gate_proj" name = false)
    (hup : hasSub "up_proj" name = false)
    (hgup : hasSub "gate_up_proj" name = false) :
    merge_tp_checkpoints args config (fun tp _ ep => [(name, shard tp ep)])
      = .ok [(name, MVal.ten (catDim 1 ((List.range args.tp_size).map
          (fun tp => catDim 0 ((List.range args.ep_size).map (shard tp))))))]
    ∧ (∀ (k1 k2 : List (String × String)) (g : Bool) (tp pp ep : ℕ)
        (fs : StateL (MVal α)) (ename : String) (p : Mat α),
        hasSub "expert_mlps" ename = true →
        is_qkv_weight ename = false → hasSub "o_proj" ename = false →
        hasSub "embed_tokens" ename = false →
        hasSub "lm_head" ename = false →
        hasSub "down_proj" ename = false →
        hasSub "gate_up_proj" ename = false →
        hasSub "qkv_proj" ename = false →
        mergeOneParam args config k1 k2 g tp pp ep fs ename p
          = accumStep args.ep_size ep (fun l => .ten (catDim 0 l)) fs ename p)
    ∧ merge_tp_checkpoints
        ({ tp_size := 2, ep_size := 2, model_style := "hf" } : CArgs)
        { num_attention_heads := 2, num_key_value_heads := 2, hidden_size := 2 }
        (fun tp _ ep => [("model.layers.0.mlp.gate_up_proj.weight",
          ([[10 * tp + ep + 1], [10 * tp + ep + 51]] : Mat ℕ))])
        = .ok [("model.layers.0.mlp.gate_proj.weight",
            MVal.ten [[1], [2], [11], [12]]),
          ("model.layers.0.mlp.up_proj.weight",
            MVal.ten [[51], [52], [61], [62]])] := by
  have hqkvp : hasSub "qkv_proj" name = false := by
    cases h : hasSub "qkv_proj" name
    · rfl
    · rw [show is_qkv_weight name = true from by simp [is_qkv_weight, h]] at hq
      exact absurd hq (by simp)
  have h1 : ((is_qkv_weight name || hasSub "o_proj" name) && args.qkv_linear)
      = false := by simp [hq, ho]
  have h3 : (hasSub "embed_tokens" name || is_qkv_weight name ||
      hasSub "o_proj" name || hasSub "lm_head" name) = false := by
    simp [hembed, hq, ho, hlm]
  have hpd : get_partition_dim name = .ok 1 := by
    unfold get_partition_dim
    simp [hembed, hlm, hq, hgate, hup, hgup, hdp]
    rfl
  have hwk : ∀ (k1 k2 : List (String × String)),
      get_weight_key k1 k2 name false = .ok name := by
    intro k1 k2
    simp [get_weight_key, hq]
  refine ⟨?_, ?_, ?_⟩
  · rw [merge_tp_pp1_eq hpp]
    have hfun : (fun (fs : StateL (MVal α)) (tp : ℕ) =>
          (List.range args.ep_size).foldlM (fun fs ep =>
            mergeOneState args config tp 0 ep fs [(name, shard tp ep)]) fs)
        = (fun (fs : StateL (MVal α)) (tp : ℕ) =>
            (List.range args.ep_size).foldlM (fun fs ep =>
              lst2Step args tp ep 1 fs name (shard tp ep)) fs) := by
      funext fs tp
      have hfun2 : (fun (fs : StateL (MVal α)) (ep : ℕ) =>
            mergeOneState args config tp 0 ep fs [(name, shard tp ep)])
          = (fun fs ep => lst2Step args tp ep 1 fs name (shard tp ep)) := by
        funext fs ep
        rw [mergeOneState_hf_eq hstyle hfuse, foldlM_singleton,
          mergeOneParam_down_eq h1 (by simp [hqkvp]) h3 hdp hpd (hwk _ _)]
      rw [hfun2]
    rw [hfun, lst2_grid_fold args 1 name shard [] rfl ht he]
    simp [dinsert]
  · intro k1 k2 g tp pp ep fs ename p he1 he2 he3 he4 he5 he6 he7 he8
    exact mergeOneParam_expert_eq (by simp [he2, he3]) (by simp [he8])
      (by simp [he4, he2, he3, he5]) he6 he7 he1
  · decide

set_option maxRecDepth 8192 in
/-- Witness for C4's amended theorem: the `down_proj` grid conjunct at
`tp_size = ep_size = 2` with distinct 1×1 shards. -/
theorem c4_two_level_accumulation_witness :
    merge_tp_checkpoints
      ({ tp_size := 2, ep_size := 2, model_style := "hf" } : CArgs)
      { num_attention_heads := 2, num_key_value_heads := 2, hidden_size := 2 }
      (fun tp _ ep =>
        [("model.layers.0.mlp.down_proj.weight", ([[10 * tp + ep]] : Mat ℕ))])
      = .ok [("model.layers.0.mlp.down_proj.weight",
          MVal.ten (catDim 1 ((List.range 2).map (fun tp =>
            catDim 0 ((List.range 2).map (fun ep =>
              ([[10 * tp + ep]] : Mat ℕ)))))))] :=
  (c4_two_level_accumulation
    ({ tp_size := 2, ep_size := 2, model_style := "hf" } : CArgs)
    { num_attention_heads := 2, num_key_value_heads := 2, hidden_size := 2 }
    (fun tp ep => ([[10 * tp + ep]] : Mat ℕ))
    "model.layers.0.mlp.down_proj.weight"
    (by decide) rfl rfl (by decide) (by decide) (by decide) (by decide)
    (by decide) (by decide) (by decide) (by decide) (by decide) (by decide)).1

set_option maxRecDepth 8192 in
/-- Claim C6: for a key weight under KV replication factor
`m = kv_size_multiplier`: the split direction repeats the full tensor `m`
times along axis 0 and takes TP rank `r`'s contiguous slice of size
`dim / tp_size` (first conjunct); the merge direction concatenates the TP
shards in rank order and keeps only the first of the `m` repeated chunks
as the reconstructed full weight (second conjunct); and composing the two
restores the original tensor exactly (third conjunct). -/
theorem c6_kv_replication {α : Type} [Inhabited α] (m t : ℕ) (hm : 0 < m)
    (ht : 0 < t) (M : Mat α) (shard : ℕ → Mat α) (r : ℕ)
    (hdiv : t ∣ m * M.length) :
    convert_full_state_to_tp
        [("model.layers.0.self_attn.k_proj.weight", M)]
        ({ tp_size := t, kv_size_multiplier := m, qkv_linear := true,
           model_style := "hf" } : CArgs) r 0 0 ["model.layers.0"]
        { num_attention_heads := 2, num_key_value_heads := 1, hidden_size := 2 }
      = .ok [("model.layers.0.self_attn.qkv_proj.weight_k",
          narrow0 (r * (size0 (repeatRows m M) / t))
            (size0 (repeatRows m M) / t) (repeatRows m M))]
    ∧ merge_tp_checkpoints
        ({ tp_size := t, kv_size_multiplier := m, qkv_linear := true,
           model_style := "hf" } : CArgs)
        { num_attention_heads := 2, num_key_value_heads := 1, hidden_size := 2 }
        (fun tp _ _ => [("model.layers.0.self_attn.qkv_proj.weight_k",
          shard tp)])
      = .ok [("model.layers.0.self_attn.k_proj.weight",
          MVal.ten (torchChunkFirst m (catD0 ((List.range t).map shard))))]
    ∧ torchChunkFirst m (catD0 ((List.range t).map fun i =>
        narrow0 (i * (size0 (repeatRows m M) / t))
          (size0 (repeatRows m M) / t) (repeatRows m M))) = M := by
  have hsz : size0 (repeatRows m M) = m * M.length := length_repeatRows m M
  have hdiv' : size0 (repeatRows m M) % t = 0 := by
    obtain ⟨c, hc⟩ := hdiv
    rw [show size0 (repeatRows m M) = m * M.length from length_repeatRows m M,
      hc, Nat.mul_mod_right]
  refine ⟨?_, ?_, ?_⟩
  · rw [convert_hf_eq (show ("hf" : String) ≠ "megatron" from by decide) rfl,
      foldlM_singleton]
    show convertOneParam _ _ ["model.layers.0"] r 0 0 []
        "model.layers.0.self_attn.k_proj.weight" M = _
    rw [convertOneParam_pass_layers 0 0
        (show (((0 : ℕ) != 0) && hasSub "embed_tokens"
          "model.layers.0.self_attn.k_proj.weight") = false from by decide)
        (show (((0 : ℕ) != 0) && !hasSub "expert_mlps"
          "model.layers.0.self_attn.k_proj.weight") = false from by decide)
        (show (((0 : ℕ) != 1 - 1) && (hasSub "lm_head"
            "model.layers.0.self_attn.k_proj.weight"
          || hasSub "model.norm.weight"
            "model.layers.0.self_attn.k_proj.weight")) = false from by decide)
        (by decide) (by decide) (by decide)
        (show ((stage_to_pipeline_parallel_rank 0 1 : ℕ) != 0) = false
          from by decide)]
    rw [convertParamSlices_kv (by decide)
      (show ((is_qkv_weight "model.layers.0.self_attn.k_proj.weight"
          || hasSub "o_proj" "model.layers.0.self_attn.k_proj.weight")
        && true) = true from by decide)
      (show get_weight_key
          (get_hf_to_nxd_model_keys true ((2 : ℕ) != 1)).1
          (get_hf_to_nxd_model_keys true ((2 : ℕ) != 1)).2
          "model.layers.0.self_attn.k_proj.weight" true
        = .ok "model.layers.0.self_attn.qkv_proj.weight_k" from by decide)
      (show (hasSub "weight_k" "model.layers.0.self_attn.qkv_proj.weight_k"
          || hasSub "weight_v" "model.layers.0.self_attn.qkv_proj.weight_k"
          || is_q_or_o_for_megatron "hf"
            "model.layers.0.self_attn.qkv_proj.weight_k") = true
        from by decide)
      (show hasSub "o_proj" "model.layers.0.self_attn.qkv_proj.weight_k"
        = false from by decide)
      hdiv']
    rfl
  · rw [merge_tp_pp1_ep1_eq rfl rfl]
    have hfun2 : (fun (fs : StateL (MVal α)) (tp : ℕ) =>
          mergeOneState
            ({ tp_size := t, kv_size_multiplier := m, qkv_linear := true,
               model_style := "hf" } : CArgs)
            { num_attention_heads := 2, num_key_value_heads := 1,
              hidden_size := 2 }
            tp 0 0 fs [("model.layers.0.self_attn.qkv_proj.weight_k",
              shard tp)])
        = (fun (fs : StateL (MVal α)) (tp : ℕ) =>
            accumStep t tp
              (fun l => MVal.ten (torchChunkFirst m (catDim 0 l)))
              fs "model.layers.0.self_attn.k_proj.weight" (shard tp)) := by
      funext fs tp
      rw [mergeOneState_hf_eq (show ("hf" : String) ≠ "megatron" from by decide)
        rfl, foldlM_singleton]
      exact mergeOneParam_kv_eq
        (show ((is_qkv_weight "model.layers.0.self_attn.qkv_proj.weight_k"
            || hasSub "o_proj" "model.layers.0.self_attn.qkv_proj.weight_k")
          && true) = true from by decide)
        (show get_partition_dim "model.layers.0.self_attn.qkv_proj.weight_k"
          = .ok 0 from by decide)
        (show get_weight_key
            (get_hf_to_nxd_model_keys true ((2 : ℕ) != 1)).1
            (get_hf_to_nxd_model_keys true ((2 : ℕ) != 1)).2
            "model.layers.0.self_attn.qkv_proj.weight_k" false
          = .ok "model.layers.0.self_attn.k_proj.weight" from by decide)
        (show (hasSub "k" "model.layers.0.self_attn.k_proj.weight"
            || hasSub "v" "model.layers.0.self_attn.k_proj.weight"
            || is_q_or_o_for_megatron "hf"
              "model.layers.0.self_attn.k_proj.weight") = true
          from by decide)
    rw [hfun2, accumStep_fold t ht
      (fun l => MVal.ten (torchChunkFirst m (catDim 0 l)))
      "model.layers.0.self_attn.k_proj.weight" shard [] rfl]
    rfl
  · have h := kv_roundtrip m t hm M hdiv
    rw [← hsz] at h
    exact h

/-- Witness for C6 at `m = 2, t = 2`, a concrete 2×2 full weight and
concrete 2×1 shards, on TP rank `r = 1`. -/
theorem c6_kv_replication_witness :
    convert_full_state_to_tp
        [("model.layers.0.self_attn.k_proj.weight", ([[1, 2], [3, 4]] : Mat ℕ))]
        ({ tp_size := 2, kv_size_multiplier := 2, qkv_linear := true,
           model_style := "hf" } : CArgs) 1 0 0 ["model.layers.0"]
        { num_attention_heads := 2, num_key_value_heads := 1, hidden_size := 2 }
      = .ok [("model.layers.0.self_attn.qkv_proj.weight_k",
          narrow0 (1 * (size0 (repeatRows 2 ([[1, 2], [3, 4]] : Mat ℕ)) / 2))
            (size0 (repeatRows 2 ([[1, 2], [3, 4]] : Mat ℕ)) / 2)
            (repeatRows 2 ([[1, 2], [3, 4]] : Mat ℕ)))]
    ∧ merge_tp_checkpoints
        ({ tp_size := 2, kv_size_multiplier := 2, qkv_linear := true,
           model_style := "hf" } : CArgs)
        { num_attention_heads := 2, num_key_value_heads := 1, hidden_size := 2 }
        (fun tp _ _ => [("model.layers.0.self_attn.qkv_proj.weight_k",
          (fun tp => ([[10 * tp + 1], [10 * tp + 2]] : Mat ℕ)) tp)])
      = .ok [("model.layers.0.self_attn.k_proj.weight",
          MVal.ten (torchChunkFirst 2 (catD0 ((List.range 2).map
            (fun tp => ([[10 * tp + 1], [10 * tp + 2]] : Mat ℕ))))))]
    ∧ torchChunkFirst 2 (catD0 ((List.range 2).map fun i =>
        narrow0 (i * (size0 (repeatRows 2 ([[1, 2], [3, 4]] : Mat ℕ)) / 2))
          (size0 (repeatRows 2 ([[1, 2], [3, 4]] : Mat ℕ)) / 2)
          (repeatRows 2 ([[1, 2], [3, 4]] : Mat ℕ))))
        = ([[1, 2], [3, 4]] : Mat ℕ) :=
  c6_kv_replication 2 2 (by decide) (by decide) ([[1, 2], [3, 4]] : Mat ℕ)
    (fun tp => ([[10 * tp + 1], [10 * tp + 2]] : Mat ℕ)) 1 (by decide)

/-- Arguments of the C1 round-trip scenario: `tp_size = 2`, `pp_size =
ep_size = 1`, `kv_size_multiplier = 2`, trn1 GQA QKV linear, HF style. -/
def c1Args : CArgs :=
  { tp_size := 2, kv_size_multiplier := 2, hw_backend := .trn1,
    qkv_linear := true, model_style := "hf" }

/-- Config of the C1 scenario: 2 query heads, 1 KV head, hidden size 2
(head dim 1); the GQA invariant `tp_size = kv_heads · kv_size_multiplier`
holds. -/
def c1Cfg : MConfig :=
  { num_attention_heads := 2, num_key_value_heads := 1, hidden_size := 2 }

/-- Splitting the representative single-layer full state at TP rank `tp`
(`pp_rank = ep_rank = 0`): every parameter role receives its documented
shard. -/
theorem c1split {α : Type} [Inhabited α]
    (E Q K V O G U D L1 L2 N H : Mat α) (tp : ℕ)
    (hE : E.length = 4) (hK : K.length = 1) (hV : V.length = 1)
    (hG : G.length = 2) (hU : U.length = 2)
    (hD : D.length = 2) (hDr : Rect 2 D) (hH : H.length = 2) :
    convert_full_state_to_tp
      [("model.embed_tokens.weight", E),
       ("model.layers.0.self_attn.q_proj.weight", Q),
       ("model.layers.0.self_attn.k_proj.weight", K),
       ("model.layers.0.self_attn.v_proj.weight", V),
       ("model.layers.0.self_attn.o_proj.weight", O),
       ("model.layers.0.mlp.gate_proj.weight", G),
       ("model.layers.0.mlp.up_proj.weight", U),
       ("model.layers.0.mlp.down_proj.weight", D),
       ("model.layers.0.input_layernorm.weight", L1),
       ("model.layers.0.post_attention_layernorm.weight", L2),
       ("model.norm.weight", N),
       ("lm_head.weight", H)]
      c1Args tp 0 0 ["model.layers.0"] c1Cfg
    = .ok
      [("model.embed_tokens.weight", narrow0 (tp * 2) 2 E),
       ("model.layers.0.self_attn.qkv_proj.weight_q",
         gqaQSliceRows .trn1 2 1 1 2 2 tp Q),
       ("model.layers.0.self_attn.qkv_proj.weight_k",
         narrow0 (tp * 1) 1 (repeatRows 2 K)),
       ("model.layers.0.self_attn.qkv_proj.weight_v",
         narrow0 (tp * 1) 1 (repeatRows 2 V)),
       ("model.layers.0.self_attn.o_proj.weight",
         transposeM (gqaQSliceRows .trn1 2 1 1 2 2 tp (transposeM O))),
       ("model.layers.0.mlp.gate_up_proj.weight",
         catD0 [narrow0 (tp * 1) 1 G, narrow0 (tp * 1) 1 U]),
       ("model.layers.0.mlp.down_proj.weight", narrow1 (tp * 1) 1 D),
       ("model.layers.0.input_layernorm.weight", L1),
       ("model.layers.0.post_attention_layernorm.weight", L2),
       ("model.norm.weight", N),
       ("lm_head.weight", narrow0 (tp * 1) 1 H)] := by
  have hDne : D ≠ [] := by intro h; rw [h] at hD; simp at hD
  have hd1 : sizeD 1 D = 2 := by
    simpa [sizeD] using size1_eq_of_rect hDr hDne
  have s1 : convertOneParam c1Args c1Cfg ["model.layers.0"] tp 0 0 []
      "model.embed_tokens.weight" E
      = .ok [("model.embed_tokens.weight", narrow0 (tp * 2) 2 E)] := by
    rw [convertOneParam_pass_nolayers (by decide) (by decide) (by decide)
        (by decide),
      convertParamSlices_dim_plain 0 (by decide) (by decide) (by decide)
        (by decide) (show sizeD 0 E % c1Args.tp_size = 0 from by
          simp [sizeD, size0, hE, c1Args])]
    simp [sizeD, size0, hE, narrowD_zero, dinsert, c1Args]
  have s2 : convertOneParam c1Args c1Cfg ["model.layers.0"] tp 0 0
      [("model.embed_tokens.weight", narrow0 (tp * 2) 2 E)]
      "model.layers.0.self_attn.q_proj.weight" Q
      = .ok [("model.embed_tokens.weight", narrow0 (tp * 2) 2 E),
          ("model.layers.0.self_attn.qkv_proj.weight_q",
            gqaQSliceRows .trn1 2 1 1 2 2 tp Q)] := by
    rw [convertOneParam_pass_layers 0 0 (by decide) (by decide) (by decide)
        (by decide) (by decide) (by decide) (by decide),
      convertParamSlices_qshuffle (by decide) (by decide)
        (show get_weight_key (get_hf_to_nxd_model_keys true ((2 : ℕ) != 1)).1
            (get_hf_to_nxd_model_keys true ((2 : ℕ) != 1)).2
            "model.layers.0.self_attn.q_proj.weight" true
          = .ok "model.layers.0.self_attn.qkv_proj.weight_q" from by decide)
        (by decide)]
    simp [c1Args, c1Cfg, dinsert,
      show hasSub "o_proj" "model.layers.0.self_attn.qkv_proj.weight_q"
        = false from by decide]
  have s3 : convertOneParam c1Args c1Cfg ["model.layers.0"] tp 0 0
      [("model.embed_tokens.weight", narrow0 (tp * 2) 2 E),
       ("model.layers.0.self_attn.qkv_proj.weight_q",
         gqaQSliceRows .trn1 2 1 1 2 2 tp Q)]
      "model.layers.0.self_attn.k_proj.weight" K
      = .ok [("model.embed_tokens.weight", narrow0 (tp * 2) 2 E),
          ("model.layers.0.self_attn.qkv_proj.weight_q",
            gqaQSliceRows .trn1 2 1 1 2 2 tp Q),
          ("model.layers.0.self_attn.qkv_proj.weight_k",
            narrow0 (tp * 1) 1 (repeatRows 2 K))] := by
    rw [convertOneParam_pass_layers 0 0 (by decide) (by decide) (by decide)
        (by decide) (by decide) (by decide) (by decide),
      convertParamSlices_kv (by decide) (by decide)
        (show get_weight_key (get_hf_to_nxd_model_keys true ((2 : ℕ) != 1)).1
            (get_hf_to_nxd_model_keys true ((2 : ℕ) != 1)).2
            "model.layers.0.self_attn.k_proj.weight" true
          = .ok "model.layers.0.self_attn.qkv_proj.weight_k" from by decide)
        (by decide) (by decide)
        (show size0 (repeatRows c1Args.kv_size_multiplier K) % c1Args.tp_size
            = 0 from by
          simp [size0, length_repeatRows, hK, c1Args])]
    simp [size0, length_repeatRows, hK, dinsert, c1Args]
  have s4 : convertOneParam c1Args c1Cfg ["model.layers.0"] tp 0 0
      [("model.embed_tokens.weight", narrow0 (tp * 2) 2 E),
       ("model.layers.0.self_attn.qkv_proj.weight_q",
         gqaQSliceRows .trn1 2 1 1 2 2 tp Q),
       ("model.layers.0.self_attn.qkv_proj.weight_k",
         narrow0 (tp * 1) 1 (repeatRows 2 K))]
      "model.layers.0.self_attn.v_proj.weight" V
      = .ok [("model.embed_tokens.weight", narrow0 (tp * 2) 2 E),
          ("model.layers.0.self_attn.qkv_proj.weight_q",
            gqaQSliceRows .trn1 2 1 1 2 2 tp Q),
          ("model.layers.0.self_attn.qkv_proj.weight_k",
            narrow0 (tp * 1) 1 (repeatRows 2 K)),
          ("model.layers.0.self_attn.qkv_proj.weight_v",
            narrow0 (tp * 1) 1 (repeatRows 2 V))] := by
    rw [convertOneParam_pass_layers 0 0 (by decide) (by decide) (by decide)
        (by decide) (by decide) (by decide) (by decide),
      convertParamSlices_kv (by decide) (by decide)
        (show get_weight_key (get_hf_to_nxd_model_keys true ((2 : ℕ) != 1)).1
            (get_hf_to_nxd_model_keys true ((2 : ℕ) != 1)).2
            "model.layers.0.self_attn.v_proj.weight" true
          = .ok "model.layers.0.self_attn.qkv_proj.weight_v" from by decide)
        (by decide) (by decide)
        (show size0 (repeatRows c1Args.kv_size_multiplier V) % c1Args.tp_size
            = 0 from by
          simp [size0, length_repeatRows, hV, c1Args])]
    simp [size0, length_repeatRows, hV, dinsert, c1Args]
  have s5 : convertOneParam c1Args c1Cfg ["model.layers.0"] tp 0 0
      [("model.embed_tokens.weight", narrow0 (tp * 2) 2 E),
       ("model.layers.0.self_attn.qkv_proj.weight_q",
         gqaQSliceRows .trn1 2 1 1 2 2 tp Q),
       ("model.layers.0.self_attn.qkv_proj.weight_k",
         narrow0 (tp * 1) 1 (repeatRows 2 K)),
       ("model.layers.0.self_attn.qkv_proj.weight_v",
         narrow0 (tp * 1) 1 (repeatRows 2 V))]
      "model.layers.0.self_attn.o_proj.weight" O
      = .ok [("model.embed_tokens.weight", narrow0 (tp * 2) 2 E),
          ("model.layers.0.self_attn.qkv_proj.weight_q",
            gqaQSliceRows .trn1 2 1 1 2 2 tp Q),
          ("model.layers.0.self_attn.qkv_proj.weight_k",
            narrow0 (tp * 1) 1 (repeatRows 2 K)),
          ("model.layers.0.self_attn.qkv_proj.weight_v",
            narrow0 (tp * 1) 1 (repeatRows 2 V)),
          ("model.layers.0.self_attn.o_proj.weight",
            transposeM (gqaQSliceRows .trn1 2 1 1 2 2 tp (transposeM O)))] := by
    rw [convertOneParam_pass_layers 0 0 (by decide) (by decide) (by decide)
        (by decide) (by decide) (by decide) (by decide),
      convertParamSlices_qshuffle (by decide) (by decide)
        (show get_weight_key (get_hf_to_nxd_model_keys true ((2 : ℕ) != 1)).1
            (get_hf_to_nxd_model_keys true ((2 : ℕ) != 1)).2
            "model.layers.0.self_attn.o_proj.weight" true
          = .ok "model.layers.0.self_attn.o_proj.weight" from by decide)
        (by decide)]
    simp [c1Args, c1Cfg, dinsert,
      show hasSub "o_proj" "model.layers.0.self_attn.o_proj.weight"
        = true from by decide]
  have s6 : convertOneParam c1Args c1Cfg ["model.layers.0"] tp 0 0
      [("model.embed_tokens.weight", narrow0 (tp * 2) 2 E),
       ("model.layers.0.self_attn.qkv_proj.weight_q",
         gqaQSliceRows .trn1 2 1 1 2 2 tp Q),
       ("model.layers.0.self_attn.qkv_proj.weight_k",
         narrow0 (tp * 1) 1 (repeatRows 2 K)),
       ("model.layers.0.self_attn.qkv_proj.weight_v",
         narrow0 (tp * 1) 1 (repeatRows 2 V)),
       ("model.layers.0.self_attn.o_proj.weight",
         transposeM (gqaQSliceRows .trn1 2 1 1 2 2 tp (transposeM O)))]
      "model.layers.0.mlp.gate_proj.weight" G
      = .ok [("model.embed_tokens.weight", narrow0 (tp * 2) 2 E),
          ("model.layers.0.self_attn.qkv_proj.weight_q",
            gqaQSliceRows .trn1 2 1 1 2 2 tp Q),
          ("model.layers.0.self_attn.qkv_proj.weight_k",
            narrow0 (tp * 1) 1 (repeatRows 2 K)),
          ("model.layers.0.self_attn.qkv_proj.weight_v",
            narrow0 (tp * 1) 1 (repeatRows 2 V)),
          ("model.layers.0.self_attn.o_proj.weight",
            transposeM (gqaQSliceRows .trn1 2 1 1 2 2 tp (transposeM O))),
          ("model.layers.0.mlp.gate_up_proj.weight",
            narrow0 (tp * 1) 1 G)] := by
    rw [convertOneParam_pass_layers 0 0 (by decide) (by decide) (by decide)
        (by decide) (by decide) (by decide) (by decide),
      convertParamSlices_gateup (by decide) (by decide) (by decide)
        (by decide) (by decide)
        (show sizeD 0 G % c1Args.tp_size = 0 from by
          simp [sizeD, size0, hG, c1Args])]
    simp [sizeD, size0, hG, narrowD_zero, dinsert, dlookup, c1Args,
      show hasSub "gate_proj" "model.layers.0.mlp.gate_proj.weight"
        = true from by decide,
      show strReplace "model.layers.0.mlp.gate_proj.weight" "gate_proj"
          "gate_up_proj" = "model.layers.0.mlp.gate_up_proj.weight"
        from by decide]
  have s7 : convertOneParam c1Args c1Cfg ["model.layers.0"] tp 0 0
      [("model.embed_tokens.weight", narrow0 (tp * 2) 2 E),
       ("model.layers.0.self_attn.qkv_proj.weight_q",
         gqaQSliceRows .trn1 2 1 1 2 2 tp Q),
       ("model.layers.0.self_attn.qkv_proj.weight_k",
         narrow0 (tp * 1) 1 (repeatRows 2 K)),
       ("model.layers.0.self_attn.qkv_proj.weight_v",
         narrow0 (tp * 1) 1 (repeatRows 2 V)),
       ("model.layers.0.self_attn.o_proj.weight",
         transposeM (gqaQSliceRows .trn1 2 1 1 2 2 tp (transposeM O))),
       ("model.layers.0.mlp.gate_up_proj.weight", narrow0 (tp * 1) 1 G)]
      "model.layers.0.mlp.up_proj.weight" U
      = .ok [("model.embed_tokens.weight", narrow0 (tp * 2) 2 E),
          ("model.layers.0.self_attn.qkv_proj.weight_q",
            gqaQSliceRows .trn1 2 1 1 2 2 tp Q),
          ("model.layers.0.self_attn.qkv_proj.weight_k",
            narrow0 (tp * 1) 1 (repeatRows 2 K)),
          ("model.layers.0.self_attn.qkv_proj.weight_v",
            narrow0 (tp * 1) 1 (repeatRows 2 V)),
          ("model.layers.0.self_attn.o_proj.weight",
            transposeM (gqaQSliceRows .trn1 2 1 1 2 2 tp (transposeM O))),
          ("model.layers.0.mlp.gate_up_proj.weight",
            catD0 [narrow0 (tp * 1) 1 G, narrow0 (tp * 1) 1 U])] := by
    rw [convertOneParam_pass_layers 0 0 (by decide) (by decide) (by decide)
        (by decide) (by decide) (by decide) (by decide),
      convertParamSlices_gateup (by decide) (by decide) (by decide)
        (by decide) (by decide)
        (show sizeD 0 U % c1Args.tp_size = 0 from by
          simp [sizeD, size0, hU, c1Args])]
    simp [sizeD, size0, hU, narrowD_zero, dinsert, dlookup, c1Args,
      show hasSub "gate_proj" "model.layers.0.mlp.up_proj.weight"
        = false from by decide,
      show strReplace "model.layers.0.mlp.up_proj.weight" "up_proj"
          "gate_up_proj" = "model.layers.0.mlp.gate_up_proj.weight"
        from by decide, catDim]
  have s8 : convertOneParam c1Args c1Cfg ["model.layers.0"] tp 0 0
      [("model.embed_tokens.weight", narrow0 (tp * 2) 2 E),
       ("model.layers.0.self_attn.qkv_proj.weight_q",
         gqaQSliceRows .trn1 2 1 1 2 2 tp Q),
       ("model.layers.0.self_attn.qkv_proj.weight_k",
         narrow0 (tp * 1) 1 (repeatRows 2 K)),
       ("model.layers.0.self_attn.qkv_proj.weight_v",
         narrow0 (tp * 1) 1 (repeatRows 2 V)),
       ("model.layers.0.self_attn.o_proj.weight",
         transposeM (gqaQSliceRows .trn1 2 1 1 2 2 tp (transposeM O))),
       ("model.layers.0.mlp.gate_up_proj.weight",
         catD0 [narrow0 (tp * 1) 1 G, narrow0 (tp * 1) 1 U])]
      "model.layers.0.mlp.down_proj.weight" D
      = .ok [("model.embed_tokens.weight", narrow0 (tp * 2) 2 E),
          ("model.layers.0.self_attn.qkv_proj.weight_q",
            gqaQSliceRows .trn1 2 1 1 2 2 tp Q),
          ("model.layers.0.self_attn.qkv_proj.weight_k",
            narrow0 (tp * 1) 1 (repeatRows 2 K)),
          ("model.layers.0.self_attn.qkv_proj.weight_v",
            narrow0 (tp * 1) 1 (repeatRows 2 V)),
          ("model.layers.0.self_attn.o_proj.weight",
            transposeM (gqaQSliceRows .trn1 2 1 1 2 2 tp (transposeM O))),
          ("model.layers.0.mlp.gate_up_proj.weight",
            catD0 [narrow0 (tp * 1) 1 G, narrow0 (tp * 1) 1 U]),
          ("model.layers.0.mlp.down_proj.weight", narrow1 (tp * 1) 1 D)] := by
    rw [convertOneParam_pass_layers 0 0 (by decide) (by decide) (by decide)
        (by decide) (by decide) (by decide) (by decide),
      convertParamSlices_dim_plain 1 (by decide) (by decide) (by decide)
        (by decide) (show sizeD 1 D % c1Args.tp_size = 0 from by
          rw [hd1]; decide)]
    simp [hd1, narrowD_one, dinsert, c1Args]
  have s9 : convertOneParam c1Args c1Cfg ["model.layers.0"] tp 0 0
      [("model.embed_tokens.weight", narrow0 (tp * 2) 2 E),
       ("model.layers.0.self_attn.qkv_proj.weight_q",
         gqaQSliceRows .trn1 2 1 1 2 2 tp Q),
       ("model.layers.0.self_attn.qkv_proj.weight_k",
         narrow0 (tp * 1) 1 (repeatRows 2 K)),
       ("model.layers.0.self_attn.qkv_proj.weight_v",
         narrow0 (tp * 1) 1 (repeatRows 2 V)),
       ("model.layers.0.self_attn.o_proj.weight",
         transposeM (gqaQSliceRows .trn1 2 1 1 2 2 tp (transposeM O))),
       ("model.layers.0.mlp.gate_up_proj.weight",
         catD0 [narrow0 (tp * 1) 1 G, narrow0 (tp * 1) 1 U]),
       ("model.layers.0.mlp.down_proj.weight", narrow1 (tp * 1) 1 D)]
      "model.layers.0.input_layernorm.weight" L1
      = .ok [("model.embed_tokens.weight", narrow0 (tp * 2) 2 E),
          ("model.layers.0.self_attn.qkv_proj.weight_q",
            gqaQSliceRows .trn1 2 1 1 2 2 tp Q),
          ("model.layers.0.self_attn.qkv_proj.weight_k",
            narrow0 (tp * 1) 1 (repeatRows 2 K)),
          ("model.layers.0.self_attn.qkv_proj.weight_v",
            narrow0 (tp * 1) 1 (repeatRows 2 V)),
          ("model.layers.0.self_attn.o_proj.weight",
            transposeM (gqaQSliceRows .trn1 2 1 1 2 2 tp (transposeM O))),
          ("model.layers.0.mlp.gate_up_proj.weight",
            catD0 [narrow0 (tp * 1) 1 G, narrow0 (tp * 1) 1 U]),
          ("model.layers.0.mlp.down_proj.weight", narrow1 (tp * 1) 1 D),
          ("model.layers.0.input_layernorm.weight", L1)] := by
    rw [convertOneParam_pass_layers 0 0 (by decide) (by decide) (by decide)
        (by decide) (by decide) (by decide) (by decide),
      convertParamSlices_passthrough (by decide) (by decide) (by decide)
        (by decide)]
    simp [dinsert]
  have s10 : convertOneParam c1Args c1Cfg ["model.layers.0"] tp 0 0
      [("model.embed_tokens.weight", narrow0 (tp * 2) 2 E),
       ("model.layers.0.self_attn.qkv_proj.weight_q",
         gqaQSliceRows .trn1 2 1 1 2 2 tp Q),
       ("model.layers.0.self_attn.qkv_proj.weight_k",
         narrow0 (tp * 1) 1 (repeatRows 2 K)),
       ("model.layers.0.self_attn.qkv_proj.weight_v",
         narrow0 (tp * 1) 1 (repeatRows 2 V)),
       ("model.layers.0.self_attn.o_proj.weight",
         transposeM (gqaQSliceRows .trn1 2 1 1 2 2 tp (transposeM O))),
       ("model.layers.0.mlp.gate_up_proj.weight",
         catD0 [narrow0 (tp * 1) 1 G, narrow0 (tp * 1) 1 U]),
       ("model.layers.0.mlp.down_proj.weight", narrow1 (tp * 1) 1 D),
       ("model.layers.0.input_layernorm.weight", L1)]
      "model.layers.0.post_attention_layernorm.weight" L2
      = .ok [("model.embed_tokens.weight", narrow0 (tp * 2) 2 E),
          ("model.layers.0.self_attn.qkv_proj.weight_q",
            gqaQSliceRows .trn1 2 1 1 2 2 tp Q),
          ("model.layers.0.self_attn.qkv_proj.weight_k",
            narrow0 (tp * 1) 1 (repeatRows 2 K)),
          ("model.layers.0.self_attn.qkv_proj.weight_v",
            narrow0 (tp * 1) 1 (repeatRows 2 V)),
          ("model.layers.0.self_attn.o_proj.weight",
            transposeM (gqaQSliceRows .trn1 2 1 1 2 2 tp (transposeM O))),
          ("model.layers.0.mlp.gate_up_proj.weight",
            catD0 [narrow0 (tp * 1) 1 G, narrow0 (tp * 1) 1 U]),
          ("model.layers.0.mlp.down_proj.weight", narrow1 (tp * 1) 1 D),
          ("model.layers.0.input_layernorm.weight", L1),
          ("model.layers.0.post_attention_layernorm.weight", L2)] := by
    rw [convertOneParam_pass_layers 0 0 (by decide) (by decide) (by decide)
        (by decide) (by decide) (by decide) (by decide),
      convertParamSlices_passthrough (by decide) (by decide) (by decide)
        (by decide)]
    simp [dinsert]
  have s11 : convertOneParam c1Args c1Cfg ["model.layers.0"] tp 0 0
      [("model.embed_tokens.weight", narrow0 (tp * 2) 2 E),
       ("model.layers.0.self_attn.qkv_proj.weight_q",
         gqaQSliceRows .trn1 2 1 1 2 2 tp Q),
       ("model.layers.0.self_attn.qkv_proj.weight_k",
         narrow0 (tp * 1) 1 (repeatRows 2 K)),
       ("model.layers.0.self_attn.qkv_proj.weight_v",
         narrow0 (tp * 1) 1 (repeatRows 2 V)),
       ("model.layers.0.self_attn.o_proj.weight",
         transposeM (gqaQSliceRows .trn1 2 1 1 2 2 tp (transposeM O))),
       ("model.layers.0.mlp.gate_up_proj.weight",
         catD0 [narrow0 (tp * 1) 1 G, narrow0 (tp * 1) 1 U]),
       ("model.layers.0.mlp.down_proj.weight", narrow1 (tp * 1) 1 D),
       ("model.layers.0.input_layernorm.weight", L1),
       ("model.layers.0.post_attention_layernorm.weight", L2)]
      "model.norm.weight" N
      = .ok [("model.embed_tokens.weight", narrow0 (tp * 2) 2 E),
          ("model.layers.0.self_attn.qkv_proj.weight_q",
            gqaQSliceRows .trn1 2 1 1 2 2 tp Q),
          ("model.layers.0.self_attn.qkv_proj.weight_k",
            narrow0 (tp * 1) 1 (repeatRows 2 K)),
          ("model.layers.0.self_attn.qkv_proj.weight_v",
            narrow0 (tp * 1) 1 (repeatRows 2 V)),
          ("model.layers.0.self_attn.o_proj.weight",
            transposeM (gqaQSliceRows .trn1 2 1 1 2 2 tp (transposeM O))),
          ("model.layers.0.mlp.gate_up_proj.weight",
            catD0 [narrow0 (tp * 1) 1 G, narrow0 (tp * 1) 1 U]),
          ("model.layers.0.mlp.down_proj.weight", narrow1 (tp * 1) 1 D),
          ("model.layers.0.input_layernorm.weight", L1),
          ("model.layers.0.post_attention_layernorm.weight", L2),
          ("model.norm.weight", N)] := by
    rw [convertOneParam_pass_nolayers (by decide) (by decide) (by decide)
        (by decide),
      convertParamSlices_passthrough (by decide) (by decide) (by decide)
        (by decide)]
    simp [dinsert]
  have s12 : convertOneParam c1Args c1Cfg ["model.layers.0"] tp 0 0
      [("model.embed_tokens.weight", narrow0 (tp * 2) 2 E),
       ("model.layers.0.self_attn.qkv_proj.weight_q",
         gqaQSliceRows .trn1 2 1 1 2 2 tp Q),
       ("model.layers.0.self_attn.qkv_proj.weight_k",
         narrow0 (tp * 1) 1 (repeatRows 2 K)),
       ("model.layers.0.self_attn.qkv_proj.weight_v",
         narrow0 (tp * 1) 1 (repeatRows 2 V)),
       ("model.layers.0.self_attn.o_proj.weight",
         transposeM (gqaQSliceRows .trn1 2 1 1 2 2 tp (transposeM O))),
       ("model.layers.0.mlp.gate_up_proj.weight",
         catD0 [narrow0 (tp * 1) 1 G, narrow0 (tp * 1) 1 U]),
       ("model.layers.0.mlp.down_proj.weight", narrow1 (tp * 1) 1 D),
       ("model.layers.0.input_layernorm.weight", L1),
       ("model.layers.0.post_attention_layernorm.weight", L2),
       ("model.norm.weight", N)]
      "lm_head.weight" H
      = .ok [("model.embed_tokens.weight", narrow0 (tp * 2) 2 E),
          ("model.layers.0.self_attn.qkv_proj.weight_q",
            gqaQSliceRows .trn1 2 1 1 2 2 tp Q),
          ("model.layers.0.self_attn.qkv_proj.weight_k",
            narrow0 (tp * 1) 1 (repeatRows 2 K)),
          ("model.layers.0.self_attn.qkv_proj.weight_v",
            narrow0 (tp * 1) 1 (repeatRows 2 V)),
          ("model.layers.0.self_attn.o_proj.weight",
            transposeM (gqaQSliceRows .trn1 2 1 1 2 2 tp (transposeM O))),
          ("model.layers.0.mlp.gate_up_proj.weight",
            catD0 [narrow0 (tp * 1) 1 G, narrow0 (tp * 1) 1 U]),
          ("model.layers.0.mlp.down_proj.weight", narrow1 (tp * 1) 1 D),
          ("model.layers.0.input_layernorm.weight", L1),
          ("model.layers.0.post_attention_layernorm.weight", L2),
          ("model.norm.weight", N),
          ("lm_head.weight", narrow0 (tp * 1) 1 H)] := by
    rw [convertOneParam_pass_nolayers (by decide) (by decide) (by decide)
        (by decide),
      convertParamSlices_dim_plain 0 (by decide) (by decide) (by decide)
        (by decide) (show sizeD 0 H % c1Args.tp_size = 0 from by
          simp [sizeD, size0, hH, c1Args])]
    simp [sizeD, size0, hH, narrowD_zero, dinsert, c1Args]
  rw [convert_hf_eq (by decide) rfl]
  simp only [List.foldlM_cons, List.foldlM_nil, s1, s2, s3, s4, s5, s6, s7,
    s8, s9, s10, s11, s12, except_bind_ok, except_pure]

/-- `accumStep` on a fresh key at a non-final rank starts the accumulator
with the single shard. -/
theorem accumStep_fresh_mid {α : Type} [Inhabited α] {size rank : ℕ}
    {FIN : List (Mat α) → MVal α} {fs : StateL (MVal α)} {nm : String}
    (p : Mat α) (hfs : dlookup fs nm = none)
    (hrank : (rank != size - 1) = true) :
    accumStep size rank FIN fs nm p = .ok (dinsert fs nm (.lst [p])) := by
  rw [accumStep_fresh_eq _ _ _ _ hfs,
    accumStep_acc_mid p (dlookup_dinsert_self _ _ _) hrank, dinsert_dinsert]
  simp

/-- `lst2Step` at rank `(tp, ep) = (0, 0)` with `ep_size = 1` on a fresh
key finalizes the first slot immediately and opens the next. -/
theorem lst2Step_c1_first {α : Type} [Inhabited α] {fs : StateL (MVal α)}
    {nm : String} (pd : ℕ) (p : Mat α) (hfs : dlookup fs nm = none) :
    lst2Step c1Args 0 0 pd fs nm p
      = .ok (dinsert fs nm (.lst2 [.fin p, .acc []])) := by
  rw [lst2Step_fresh_eq _ _ _ _ _ hfs,
    lst2Step_acc_eplast_mid p (dlookup_dinsert_self _ _ _)
      (show lst2Get [MEntry.acc []] 0 = .ok (.acc []) from rfl)
      (by decide) (by decide), dinsert_dinsert]
  simp [catDim, catD0]

/-- `lst2Step` at the final rank `(tp, ep) = (1, 0)` with `ep_size = 1`
finalizes the second slot and concatenates the two slots along
`partition_dim`. -/
theorem lst2Step_c1_last {α : Type} [Inhabited α] {fs : StateL (MVal α)}
    {nm : String} (pd : ℕ) (f0 p : Mat α)
    (hfs : dlookup fs nm = some (.lst2 [.fin f0, .acc []])) :
    lst2Step c1Args 1 0 pd fs nm p
      = .ok (dinsert fs nm (.ten (catDim pd [f0, p]))) := by
  have hset : ([MEntry.fin f0, MEntry.acc []]).set 1
        (MEntry.fin (catDim 0 ([] ++ [p])))
      = ([f0, catDim 0 ([] ++ [p])]).map MEntry.fin := rfl
  rw [lst2Step_acc_last p hfs
    (show lst2Get [MEntry.fin f0, MEntry.acc []] 1 = .ok (.acc []) from rfl)
    (by decide) (by decide) hset]
  simp [catDim, catD0]

/-- `mergeOneState` in the C1 scenario is the per-parameter fold with the
concrete QKVLinear key tables. -/
theorem c1_mergeOneState {α : Type} [Inhabited α] (tp pp ep : ℕ)
    (fs : StateL (MVal α)) (pstate : StateL (Mat α)) :
    mergeOneState c1Args c1Cfg tp pp ep fs pstate
      = pstate.foldlM (fun fs nv =>
          mergeOneParam c1Args c1Cfg
            [("q_proj.weight", "qkv_proj.weight_q"),
             ("k_proj.weight", "qkv_proj.weight_k"),
             ("v_proj.weight", "qkv_proj.weight_v")]
            [("qkv_proj.weight_q", "q_proj.weight"),
             ("qkv_proj.weight_k", "k_proj.weight"),
             ("qkv_proj.weight_v", "v_proj.weight")]
            true tp pp ep fs nv.1 nv.2) fs := by
  rw [mergeOneState_hf_eq (by decide) rfl]
  rfl

set_option maxRecDepth 8192 in
/-- Counterexample to C1: with `ep_size = 2` the round trip breaks.  The
split emits non-expert parameters only on `ep_rank = 0`, so the merge sees
`down_proj` once, never reaches its `ep_rank == ep_size - 1` finalization,
and the "merged" full state holds an unfinished accumulator instead of the
original tensor (the merge still returns `.ok`, silently). -/
theorem c1_counterexample :
    merge_tp_checkpoints
        ({ tp_size := 1, ep_size := 2, qkv_linear := true,
           model_style := "hf" } : CArgs)
        { num_attention_heads := 2, num_key_value_heads := 1, hidden_size := 2 }
        (fun tp pp ep =>
          match convert_full_state_to_tp
              [("model.layers.0.mlp.down_proj.weight", ([[1, 2], [3, 4]] : Mat ℕ))]
              ({ tp_size := 1, ep_size := 2, qkv_linear := true,
                 model_style := "hf" } : CArgs)
              tp pp ep ["model.layers.0"]
              { num_attention_heads := 2, num_key_value_heads := 1,
                hidden_size := 2 } with
          | .ok s => s
          | .error _ => [])
      = .ok [("model.layers.0.mlp.down_proj.weight",
          MVal.lst2 [MEntry.acc [[[1, 2], [3, 4]]]])]
    ∧ MVal.lst2 [MEntry.acc [[[1, 2], [3, 4]]]]
        ≠ MVal.ten ([[1, 2], [3, 4]] : Mat ℕ) := by
  constructor
  · decide
  · decide

set_option maxRecDepth 8192 in
/-- Claim C1 (amended): with `ep_size = 1` (and `pp_size = 1`), merging the
per-TP-rank sharded states produced by splitting a representative
single-layer full state — GQA attention with QKV linear and KV replication,
gated MLP, layer norms, embedding and LM head, all with arbitrary tensor
contents — reproduces the original full state element-wise exactly. -/
theorem c1_roundtrip_ep1 {α : Type} [Inhabited α]
    (e1 e2 e3 e4 q1 q2 k1 v1 g1 g2 u1 u2 l1 l2 n1 w1 w2 : List α)
    (o11 o12 o21 o22 d11 d12 d21 d22 : α)
    (P0 P1 : StateL (Mat α))
    (hs0 : convert_full_state_to_tp
      [("model.embed_tokens.weight", [e1, e2, e3, e4]),
       ("model.layers.0.self_attn.q_proj.weight", [q1, q2]),
       ("model.layers.0.self_attn.k_proj.weight", [k1]),
       ("model.layers.0.self_attn.v_proj.weight", [v1]),
       ("model.layers.0.self_attn.o_proj.weight", [[o11, o12], [o21, o22]]),
       ("model.layers.0.mlp.gate_proj.weight", [g1, g2]),
       ("model.layers.0.mlp.up_proj.weight", [u1, u2]),
       ("model.layers.0.mlp.down_proj.weight", [[d11, d12], [d21, d22]]),
       ("model.layers.0.input_layernorm.weight", [l1]),
       ("model.layers.0.post_attention_layernorm.weight", [l2]),
       ("model.norm.weight", [n1]),
       ("lm_head.weight", [w1, w2])]
      c1Args 0 0 0 ["model.layers.0"] c1Cfg = .ok P0)
    (hs1 : convert_full_state_to_tp
      [("model.embed_tokens.weight", [e1, e2, e3, e4]),
       ("model.layers.0.self_attn.q_proj.weight", [q1, q2]),
       ("model.layers.0.self_attn.k_proj.weight", [k1]),
       ("model.layers.0.self_attn.v_proj.weight", [v1]),
       ("model.layers.0.self_attn.o_proj.weight", [[o11, o12], [o21, o22]]),
       ("model.layers.0.mlp.gate_proj.weight", [g1, g2]),
       ("model.layers.0.mlp.up_proj.weight", [u1, u2]),
       ("model.layers.0.mlp.down_proj.weight", [[d11, d12], [d21, d22]]),
       ("model.layers.0.input_layernorm.weight", [l1]),
       ("model.layers.0.post_attention_layernorm.weight", [l2]),
       ("model.norm.weight", [n1]),
       ("lm_head.weight", [w1, w2])]
      c1Args 1 0 0 ["model.layers.0"] c1Cfg = .ok P1) :
    merge_tp_checkpoints c1Args c1Cfg (fun tp _ _ => if tp = 0 then P0 else P1)
      = .ok [("model.embed_tokens.weight", MVal.ten [e1, e2, e3, e4]),
         ("model.layers.0.self_attn.q_proj.weight", MVal.ten [q1, q2]),
         ("model.layers.0.self_attn.k_proj.weight", MVal.ten [k1]),
         ("model.layers.0.self_attn.v_proj.weight", MVal.ten [v1]),
         ("model.layers.0.self_attn.o_proj.weight", MVal.ten [[o11, o12], [o21, o22]]),
         ("model.layers.0.mlp.gate_proj.weight", MVal.ten [g1, g2]),
         ("model.layers.0.mlp.up_proj.weight", MVal.ten [u1, u2]),
         ("model.layers.0.mlp.down_proj.weight", MVal.ten [[d11, d12], [d21, d22]]),
         ("model.layers.0.input_layernorm.weight", MVal.ten [l1]),
         ("model.layers.0.post_attention_layernorm.weight", MVal.ten [l2]),
         ("model.norm.weight", MVal.ten [n1]),
         ("lm_head.weight", MVal.ten [w1, w2])] := by
  have hrect : Rect 2 ([[o11, o12], [o21, o22]] : Mat α) := by
    rintro r hr
    simp only [List.mem_cons, List.not_mem_nil, or_false] at hr
    rcases hr with rfl | rfl <;> rfl
  have hrectD : Rect 2 ([[d11, d12], [d21, d22]] : Mat α) := by
    rintro r hr
    simp only [List.mem_cons, List.not_mem_nil, or_false] at hr
    rcases hr with rfl | rfl <;> rfl
  have hsplit0 : convert_full_state_to_tp
      [("model.embed_tokens.weight", [e1, e2, e3, e4]),
       ("model.layers.0.self_attn.q_proj.weight", [q1, q2]),
       ("model.layers.0.self_attn.k_proj.weight", [k1]),
       ("model.layers.0.self_attn.v_proj.weight", [v1]),
       ("model.layers.0.self_attn.o_proj.weight", [[o11, o12], [o21, o22]]),
       ("model.layers.0.mlp.gate_proj.weight", [g1, g2]),
       ("model.layers.0.mlp.up_proj.weight", [u1, u2]),
       ("model.layers.0.mlp.down_proj.weight", [[d11, d12], [d21, d22]]),
       ("model.layers.0.input_layernorm.weight", [l1]),
       ("model.layers.0.post_attention_layernorm.weight", [l2]),
       ("model.norm.weight", [n1]),
       ("lm_head.weight", [w1, w2])]
      c1Args 0 0 0 ["model.layers.0"] c1Cfg
      = .ok [("model.embed_tokens.weight", [e1, e2]),
         ("model.layers.0.self_attn.qkv_proj.weight_q", [q1]),
         ("model.layers.0.self_attn.qkv_proj.weight_k", [k1]),
         ("model.layers.0.self_attn.qkv_proj.weight_v", [v1]),
         ("model.layers.0.self_attn.o_proj.weight", [[o11], [o21]]),
         ("model.layers.0.mlp.gate_up_proj.weight", [g1, u1]),
         ("model.layers.0.mlp.down_proj.weight", [[d11], [d21]]),
         ("model.layers.0.input_layernorm.weight", [l1]),
         ("model.layers.0.post_attention_layernorm.weight", [l2]),
         ("model.norm.weight", [n1]),
         ("lm_head.weight", [w1])] := by
    rw [c1split [e1, e2, e3, e4] [q1, q2] [k1] [v1] [[o11, o12], [o21, o22]]
      [g1, g2] [u1, u2] [[d11, d12], [d21, d22]] [l1] [l2] [n1] [w1, w2] 0
      rfl rfl rfl rfl rfl rfl hrectD rfl]
    simp [narrow0, narrow1, catD0, repeatRows, gqaQSliceRows, transposeM,
      size1, chunksExact, length_chunksExact, List.range_succ]
  have hsplit1 : convert_full_state_to_tp
      [("model.embed_tokens.weight", [e1, e2, e3, e4]),
       ("model.layers.0.self_attn.q_proj.weight", [q1, q2]),
       ("model.layers.0.self_attn.k_proj.weight", [k1]),
       ("model.layers.0.self_attn.v_proj.weight", [v1]),
       ("model.layers.0.self_attn.o_proj.weight", [[o11, o12], [o21, o22]]),
       ("model.layers.0.mlp.gate_proj.weight", [g1, g2]),
       ("model.layers.0.mlp.up_proj.weight", [u1, u2]),
       ("model.layers.0.mlp.down_proj.weight", [[d11, d12], [d21, d22]]),
       ("model.layers.0.input_layernorm.weight", [l1]),
       ("model.layers.0.post_attention_layernorm.weight", [l2]),
       ("model.norm.weight", [n1]),
       ("lm_head.weight", [w1, w2])]
      c1Args 1 0 0 ["model.layers.0"] c1Cfg
      = .ok [("model.embed_tokens.weight", [e3, e4]),
         ("model.layers.0.self_attn.qkv_proj.weight_q", [q2]),
         ("model.layers.0.self_attn.qkv_proj.weight_k", [k1]),
         ("model.layers.0.self_attn.qkv_proj.weight_v", [v1]),
         ("model.layers.0.self_attn.o_proj.weight", [[o12], [o22]]),
         ("model.layers.0.mlp.gate_up_proj.weight", [g2, u2]),
         ("model.layers.0.mlp.down_proj.weight", [[d12], [d22]]),
         ("model.layers.0.input_layernorm.weight", [l1]),
         ("model.layers.0.post_attention_layernorm.weight", [l2]),
         ("model.norm.weight", [n1]),
         ("lm_head.weight", [w2])] := by
    rw [c1split [e1, e2, e3, e4] [q1, q2] [k1] [v1] [[o11, o12], [o21, o22]]
      [g1, g2] [u1, u2] [[d11, d12], [d21, d22]] [l1] [l2] [n1] [w1, w2] 1
      rfl rfl rfl rfl rfl rfl hrectD rfl]
    simp [narrow0, narrow1, catD0, repeatRows, gqaQSliceRows, transposeM,
      size1, chunksExact, length_chunksExact, List.range_succ]
  rw [hsplit0] at hs0
  rw [hsplit1] at hs1
  obtain rfl : P0 = [("model.embed_tokens.weight", [e1, e2]),
           ("model.layers.0.self_attn.qkv_proj.weight_q", [q1]),
           ("model.layers.0.self_attn.qkv_proj.weight_k", [k1]),
           ("model.layers.0.self_attn.qkv_proj.weight_v", [v1]),
           ("model.layers.0.self_attn.o_proj.weight", [[o11], [o21]]),
           ("model.layers.0.mlp.gate_up_proj.weight", [g1, u1]),
           ("model.layers.0.mlp.down_proj.weight", [[d11], [d21]]),
           ("model.layers.0.input_layernorm.weight", [l1]),
           ("model.layers.0.post_attention_layernorm.weight", [l2]),
           ("model.norm.weight", [n1]),
           ("lm_head.weight", [w1])] := (Except.ok.inj hs0).symm
  obtain rfl : P1 = [("model.embed_tokens.weight", [e3, e4]),
           ("model.layers.0.self_attn.qkv_proj.weight_q", [q2]),
           ("model.layers.0.self_attn.qkv_proj.weight_k", [k1]),
           ("model.layers.0.self_attn.qkv_proj.weight_v", [v1]),
           ("model.layers.0.self_attn.o_proj.weight", [[o12], [o22]]),
           ("model.layers.0.mlp.gate_up_proj.weight", [g2, u2]),
           ("model.layers.0.mlp.down_proj.weight", [[d12], [d22]]),
           ("model.layers.0.input_layernorm.weight", [l1]),
           ("model.layers.0.post_attention_layernorm.weight", [l2]),
           ("model.norm.weight", [n1]),
           ("lm_head.weight", [w2])] := (Except.ok.inj hs1).symm
  have hqm : gqaQMergeRows .trn1 2 1 1 2 2 [q1, q2] = [q1, q2] := by
    simp [gqaQMergeRows, chunksExact, length_chunksExact, List.range_succ]
  have hom : transposeM (gqaQMergeRows .trn1 2 1 1 2 2
      (transposeM [[o11, o12], [o21, o22]])) = [[o11, o12], [o21, o22]] := by
    simp [gqaQMergeRows, transposeM, size1, chunksExact, length_chunksExact,
      List.range_succ]
  have hkm : torchChunkFirst 2 [k1, k1] = [k1] := by simp [torchChunkFirst]
  have hvm : torchChunkFirst 2 [v1, v1] = [v1] := by simp [torchChunkFirst]
  have ma1 : mergeOneParam c1Args c1Cfg
      [("q_proj.weight", "qkv_proj.weight_q"),
             ("k_proj.weight", "qkv_proj.weight_k"),
             ("v_proj.weight", "qkv_proj.weight_v")]
      [("qkv_proj.weight_q", "q_proj.weight"),
             ("qkv_proj.weight_k", "k_proj.weight"),
             ("qkv_proj.weight_v", "v_proj.weight")]
      true 0 0 0
      []
      "model.embed_tokens.weight" [e1, e2]
      = .ok [("model.embed_tokens.weight", MVal.lst [[e1, e2]])] := by
    rw [mergeOneParam_plain_eq (by decide) (by decide) (by decide)
        (show get_partition_dim "model.embed_tokens.weight" = .ok 0 from by decide)
        (show get_weight_key [("q_proj.weight", "qkv_proj.weight_q"),
             ("k_proj.weight", "qkv_proj.weight_k"),
             ("v_proj.weight", "qkv_proj.weight_v")]
          [("qkv_proj.weight_q", "q_proj.weight"),
             ("qkv_proj.weight_k", "k_proj.weight"),
             ("qkv_proj.weight_v", "v_proj.weight")]
          "model.embed_tokens.weight" false = .ok "model.embed_tokens.weight" from by decide),
      accumStep_fresh_mid _ (show dlookup []
        "model.embed_tokens.weight" = none from by simp [dlookup]) (by decide)]
    simp [dinsert]
  have ma2 : mergeOneParam c1Args c1Cfg
      [("q_proj.weight", "qkv_proj.weight_q"),
             ("k_proj.weight", "qkv_proj.weight_k"),
             ("v_proj.weight", "qkv_proj.weight_v")]
      [("qkv_proj.weight_q", "q_proj.weight"),
             ("qkv_proj.weight_k", "k_proj.weight"),
             ("qkv_proj.weight_v", "v_proj.weight")]
      true 0 0 0
      [("model.embed_tokens.weight", MVal.lst [[e1, e2]])]
      "model.layers.0.self_attn.qkv_proj.weight_q" [q1]
      = .ok [("model.embed_tokens.weight", MVal.lst [[e1, e2]]),
          ("model.layers.0.self_attn.q_proj.weight", MVal.lst [[q1]])] := by
    rw [mergeOneParam_qmerge_eq (by decide)
        (show get_partition_dim "model.layers.0.self_attn.qkv_proj.weight_q" = .ok 0 from by decide)
        (show get_weight_key [("q_proj.weight", "qkv_proj.weight_q"),
             ("k_proj.weight", "qkv_proj.weight_k"),
             ("v_proj.weight", "qkv_proj.weight_v")]
          [("qkv_proj.weight_q", "q_proj.weight"),
             ("qkv_proj.weight_k", "k_proj.weight"),
             ("qkv_proj.weight_v", "v_proj.weight")]
          "model.layers.0.self_attn.qkv_proj.weight_q" false = .ok "model.layers.0.self_attn.q_proj.weight" from by decide)
        (by decide) (by decide),
      accumStep_fresh_mid _ (show dlookup [("model.embed_tokens.weight", MVal.lst [[e1, e2]])]
        "model.layers.0.self_attn.q_proj.weight" = none from by simp [dlookup]) (by decide)]
    simp [dinsert]
  have ma3 : mergeOneParam c1Args c1Cfg
      [("q_proj.weight", "qkv_proj.weight_q"),
             ("k_proj.weight", "qkv_proj.weight_k"),
             ("v_proj.weight", "qkv_proj.weight_v")]
      [("qkv_proj.weight_q", "q_proj.weight"),
             ("qkv_proj.weight_k", "k_proj.weight"),
             ("qkv_proj.weight_v", "v_proj.weight")]
      true 0 0 0
      [("model.embed_tokens.weight", MVal.lst [[e1, e2]]),
       ("model.layers.0.self_attn.q_proj.weight", MVal.lst [[q1]])]
      "model.layers.0.self_attn.qkv_proj.weight_k" [k1]
      = .ok [("model.embed_tokens.weight", MVal.lst [[e1, e2]]),
          ("model.layers.0.self_attn.q_proj.weight", MVal.lst [[q1]]),
          ("model.layers.0.self_attn.k_proj.weight", MVal.lst [[k1]])] := by
    rw [mergeOneParam_kv_eq (by decide)
        (show get_partition_dim "model.layers.0.self_attn.qkv_proj.weight_k" = .ok 0 from by decide)
        (show get_weight_key [("q_proj.weight", "qkv_proj.weight_q"),
             ("k_proj.weight", "qkv_proj.weight_k"),
             ("v_proj.weight", "qkv_proj.weight_v")]
          [("qkv_proj.weight_q", "q_proj.weight"),
             ("qkv_proj.weight_k", "k_proj.weight"),
             ("qkv_proj.weight_v", "v_proj.weight")]
          "model.layers.0.self_attn.qkv_proj.weight_k" false = .ok "model.layers.0.self_attn.k_proj.weight" from by decide)
        (by decide),
      accumStep_fresh_mid _ (show dlookup [("model.embed_tokens.weight", MVal.lst [[e1, e2]]),
       ("model.layers.0.self_attn.q_proj.weight", MVal.lst [[q1]])]
        "model.layers.0.self_attn.k_proj.weight" = none from by simp [dlookup]) (by decide)]
    simp [dinsert]
  have ma4 : mergeOneParam c1Args c1Cfg
      [("q_proj.weight", "qkv_proj.weight_q"),
             ("k_proj.weight", "qkv_proj.weight_k"),
             ("v_proj.weight", "qkv_proj.weight_v")]
      [("qkv_proj.weight_q", "q_proj.weight"),
             ("qkv_proj.weight_k", "k_proj.weight"),
             ("qkv_proj.weight_v", "v_proj.weight")]
      true 0 0 0
      [("model.embed_tokens.weight", MVal.lst [[e1, e2]]),
       ("model.layers.0.self_attn.q_proj.weight", MVal.lst [[q1]]),
       ("model.layers.0.self_attn.k_proj.weight", MVal.lst [[k1]])]
      "model.layers.0.self_attn.qkv_proj.weight_v" [v1]
      = .ok [("model.embed_tokens.weight", MVal.lst [[e1, e2]]),
          ("model.layers.0.self_attn.q_proj.weight", MVal.lst [[q1]]),
          ("model.layers.0.self_attn.k_proj.weight", MVal.lst [[k1]]),
          ("model.layers.0.self_attn.v_proj.weight", MVal.lst [[v1]])] := by
    rw [mergeOneParam_kv_eq (by decide)
        (show get_partition_dim "model.layers.0.self_attn.qkv_proj.weight_v" = .ok 0 from by decide)
        (show get_weight_key [("q_proj.weight", "qkv_proj.weight_q"),
             ("k_proj.weight", "qkv_proj.weight_k"),
             ("v_proj.weight", "qkv_proj.weight_v")]
          [("qkv_proj.weight_q", "q_proj.weight"),
             ("qkv_proj.weight_k", "k_proj.weight"),
             ("qkv_proj.weight_v", "v_proj.weight")]
          "model.layers.0.self_attn.qkv_proj.weight_v" false = .ok "model.layers.0.self_attn.v_proj.weight" from by decide)
        (by decide),
      accumStep_fresh_mid _ (show dlookup [("model.embed_tokens.weight", MVal.lst [[e1, e2]]),
       ("model.layers.0.self_attn.q_proj.weight", MVal.lst [[q1]]),
       ("model.layers.0.self_attn.k_proj.weight", MVal.lst [[k1]])]
        "model.layers.0.self_attn.v_proj.weight" = none from by simp [dlookup]) (by decide)]
    simp [dinsert]
  have ma5 : mergeOneParam c1Args c1Cfg
      [("q_proj.weight", "qkv_proj.weight_q"),
             ("k_proj.weight", "qkv_proj.weight_k"),
             ("v_proj.weight", "qkv_proj.weight_v")]
      [("qkv_proj.weight_q", "q_proj.weight"),
             ("qkv_proj.weight_k", "k_proj.weight"),
             ("qkv_proj.weight_v", "v_proj.weight")]
      true 0 0 0
      [("model.embed_tokens.weight", MVal.lst [[e1, e2]]),
       ("model.layers.0.self_attn.q_proj.weight", MVal.lst [[q1]]),
       ("model.layers.0.self_attn.k_proj.weight", MVal.lst [[k1]]),
       ("model.layers.0.self_attn.v_proj.weight", MVal.lst [[v1]])]
      "model.layers.0.self_attn.o_proj.weight" [[o11], [o21]]
      = .ok [("model.embed_tokens.weight", MVal.lst [[e1, e2]]),
          ("model.layers.0.self_attn.q_proj.weight", MVal.lst [[q1]]),
          ("model.layers.0.self_attn.k_proj.weight", MVal.lst [[k1]]),
          ("model.layers.0.self_attn.v_proj.weight", MVal.lst [[v1]]),
          ("model.layers.0.self_attn.o_proj.weight", MVal.lst [[[o11], [o21]]])] := by
    rw [mergeOneParam_omerge_eq (by decide)
        (show get_partition_dim "model.layers.0.self_attn.o_proj.weight" = .ok 1 from by decide)
        (show get_weight_key [("q_proj.weight", "qkv_proj.weight_q"),
             ("k_proj.weight", "qkv_proj.weight_k"),
             ("v_proj.weight", "qkv_proj.weight_v")]
          [("qkv_proj.weight_q", "q_proj.weight"),
             ("qkv_proj.weight_k", "k_proj.weight"),
             ("qkv_proj.weight_v", "v_proj.weight")]
          "model.layers.0.self_attn.o_proj.weight" false = .ok "model.layers.0.self_attn.o_proj.weight" from by decide)
        (by decide) (by decide),
      accumStep_fresh_mid _ (show dlookup [("model.embed_tokens.weight", MVal.lst [[e1, e2]]),
       ("model.layers.0.self_attn.q_proj.weight", MVal.lst [[q1]]),
       ("model.layers.0.self_attn.k_proj.weight", MVal.lst [[k1]]),
       ("model.layers.0.self_attn.v_proj.weight", MVal.lst [[v1]])]
        "model.layers.0.self_attn.o_proj.weight" = none from by simp [dlookup]) (by decide)]
    simp [dinsert]
  have ma6 : mergeOneParam c1Args c1Cfg
      [("q_proj.weight", "qkv_proj.weight_q"),
             ("k_proj.weight", "qkv_proj.weight_k"),
             ("v_proj.weight", "qkv_proj.weight_v")]
      [("qkv_proj.weight_q", "q_proj.weight"),
             ("qkv_proj.weight_k", "k_proj.weight"),
             ("qkv_proj.weight_v", "v_proj.weight")]
      true 0 0 0
      [("model.embed_tokens.weight", MVal.lst [[e1, e2]]),
       ("model.layers.0.self_attn.q_proj.weight", MVal.lst [[q1]]),
       ("model.layers.0.self_attn.k_proj.weight", MVal.lst [[k1]]),
       ("model.layers.0.self_attn.v_proj.weight", MVal.lst [[v1]]),
       ("model.layers.0.self_attn.o_proj.weight", MVal.lst [[[o11], [o21]]])]
      "model.layers.0.mlp.gate_up_proj.weight" [g1, u1]
      = .ok [("model.embed_tokens.weight", MVal.lst [[e1, e2]]),
          ("model.layers.0.self_attn.q_proj.weight", MVal.lst [[q1]]),
          ("model.layers.0.self_attn.k_proj.weight", MVal.lst [[k1]]),
          ("model.layers.0.self_attn.v_proj.weight", MVal.lst [[v1]]),
          ("model.layers.0.self_attn.o_proj.weight", MVal.lst [[[o11], [o21]]]),
          ("model.layers.0.mlp.gate_proj.weight", MVal.lst2 [MEntry.fin [g1], MEntry.acc []]),
          ("model.layers.0.mlp.up_proj.weight", MVal.lst2 [MEntry.fin [u1], MEntry.acc []])] := by
    rw [mergeOneParam_gateup_eq (by decide) (by decide) (by decide)
        (by decide) (by decide)
        (show get_partition_dim "model.layers.0.mlp.gate_up_proj.weight" = .ok 0 from by decide),
      show strReplace "model.layers.0.mlp.gate_up_proj.weight" "gate_up_proj" "gate_proj"
        = "model.layers.0.mlp.gate_proj.weight" from by decide,
      show strReplace "model.layers.0.mlp.gate_up_proj.weight" "gate_up_proj" "up_proj"
        = "model.layers.0.mlp.up_proj.weight" from by decide,
      show narrowD 0 0 (sizeD 0 ([g1, u1] : Mat α) / 2) [g1, u1]
        = [g1] from by simp [narrowD, narrow0, sizeD, size0],
      show narrowD 0 (sizeD 0 ([g1, u1] : Mat α) / 2)
          (sizeD 0 ([g1, u1] : Mat α) / 2) [g1, u1]
        = [u1] from by simp [narrowD, narrow0, sizeD, size0],
      lst2Step_c1_first 0 _ (show dlookup [("model.embed_tokens.weight", MVal.lst [[e1, e2]]),
       ("model.layers.0.self_attn.q_proj.weight", MVal.lst [[q1]]),
       ("model.layers.0.self_attn.k_proj.weight", MVal.lst [[k1]]),
       ("model.layers.0.self_attn.v_proj.weight", MVal.lst [[v1]]),
       ("model.layers.0.self_attn.o_proj.weight", MVal.lst [[[o11], [o21]]])]
        "model.layers.0.mlp.gate_proj.weight" = none from by simp [dlookup])]
    rw [except_bind_ok,
      lst2Step_c1_first 0 _ (show dlookup (dinsert [("model.embed_tokens.weight", MVal.lst [[e1, e2]]),
       ("model.layers.0.self_attn.q_proj.weight", MVal.lst [[q1]]),
       ("model.layers.0.self_attn.k_proj.weight", MVal.lst [[k1]]),
       ("model.layers.0.self_attn.v_proj.weight", MVal.lst [[v1]]),
       ("model.layers.0.self_attn.o_proj.weight", MVal.lst [[[o11], [o21]]])]
          "model.layers.0.mlp.gate_proj.weight" (MVal.lst2 [MEntry.fin [g1], MEntry.acc []]))
        "model.layers.0.mlp.up_proj.weight" = none from by simp [dlookup, dinsert])]
    simp [dinsert]
  have ma7 : mergeOneParam c1Args c1Cfg
      [("q_proj.weight", "qkv_proj.weight_q"),
             ("k_proj.weight", "qkv_proj.weight_k"),
             ("v_proj.weight", "qkv_proj.weight_v")]
      [("qkv_proj.weight_q", "q_proj.weight"),
             ("qkv_proj.weight_k", "k_proj.weight"),
             ("qkv_proj.weight_v", "v_proj.weight")]
      true 0 0 0
      [("model.embed_tokens.weight", MVal.lst [[e1, e2]]),
       ("model.layers.0.self_attn.q_proj.weight", MVal.lst [[q1]]),
       ("model.layers.0.self_attn.k_proj.weight", MVal.lst [[k1]]),
       ("model.layers.0.self_attn.v_proj.weight", MVal.lst [[v1]]),
       ("model.layers.0.self_attn.o_proj.weight", MVal.lst [[[o11], [o21]]]),
       ("model.layers.0.mlp.gate_proj.weight", MVal.lst2 [MEntry.fin [g1], MEntry.acc []]),
       ("model.layers.0.mlp.up_proj.weight", MVal.lst2 [MEntry.fin [u1], MEntry.acc []])]
      "model.layers.0.mlp.down_proj.weight" [[d11], [d21]]
      = .ok [("model.embed_tokens.weight", MVal.lst [[e1, e2]]),
          ("model.layers.0.self_attn.q_proj.weight", MVal.lst [[q1]]),
          ("model.layers.0.self_attn.k_proj.weight", MVal.lst [[k1]]),
          ("model.layers.0.self_attn.v_proj.weight", MVal.lst [[v1]]),
          ("model.layers.0.self_attn.o_proj.weight", MVal.lst [[[o11], [o21]]]),
          ("model.layers.0.mlp.gate_proj.weight", MVal.lst2 [MEntry.fin [g1], MEntry.acc []]),
          ("model.layers.0.mlp.up_proj.weight", MVal.lst2 [MEntry.fin [u1], MEntry.acc []]),
          ("model.layers.0.mlp.down_proj.weight", MVal.lst2 [MEntry.fin [[d11], [d21]], MEntry.acc []])] := by
    rw [mergeOneParam_down_eq (by decide) (by decide) (by decide)
        (by decide)
        (show get_partition_dim "model.layers.0.mlp.down_proj.weight" = .ok 1 from by decide)
        (show get_weight_key [("q_proj.weight", "qkv_proj.weight_q"),
             ("k_proj.weight", "qkv_proj.weight_k"),
             ("v_proj.weight", "qkv_proj.weight_v")]
          [("qkv_proj.weight_q", "q_proj.weight"),
             ("qkv_proj.weight_k", "k_proj.weight"),
             ("qkv_proj.weight_v", "v_proj.weight")]
          "model.layers.0.mlp.down_proj.weight" false = .ok "model.layers.0.mlp.down_proj.weight" from by decide),
      lst2Step_c1_first 1 _ (show dlookup [("model.embed_tokens.weight", MVal.lst [[e1, e2]]),
       ("model.layers.0.self_attn.q_proj.weight", MVal.lst [[q1]]),
       ("model.layers.0.self_attn.k_proj.weight", MVal.lst [[k1]]),
       ("model.layers.0.self_attn.v_proj.weight", MVal.lst [[v1]]),
       ("model.layers.0.self_attn.o_proj.weight", MVal.lst [[[o11], [o21]]]),
       ("model.layers.0.mlp.gate_proj.weight", MVal.lst2 [MEntry.fin [g1], MEntry.acc []]),
       ("model.layers.0.mlp.up_proj.weight", MVal.lst2 [MEntry.fin [u1], MEntry.acc []])]
        "model.layers.0.mlp.down_proj.weight" = none from by simp [dlookup])]
    simp [dinsert]
  have ma8 : mergeOneParam c1Args c1Cfg
      [("q_proj.weight", "qkv_proj.weight_q"),
             ("k_proj.weight", "qkv_proj.weight_k"),
             ("v_proj.weight", "qkv_proj.weight_v")]
      [("qkv_proj.weight_q", "q_proj.weight"),
             ("qkv_proj.weight_k", "k_proj.weight"),
             ("qkv_proj.weight_v", "v_proj.weight")]
      true 0 0 0
      [("model.embed_tokens.weight", MVal.lst [[e1, e2]]),
       ("model.layers.0.self_attn.q_proj.weight", MVal.lst [[q1]]),
       ("model.layers.0.self_attn.k_proj.weight", MVal.lst [[k1]]),
       ("model.layers.0.self_attn.v_proj.weight", MVal.lst [[v1]]),
       ("model.layers.0.self_attn.o_proj.weight", MVal.lst [[[o11], [o21]]]),
       ("model.layers.0.mlp.gate_proj.weight", MVal.lst2 [MEntry.fin [g1], MEntry.acc []]),
       ("model.layers.0.mlp.up_proj.weight", MVal.lst2 [MEntry.fin [u1], MEntry.acc []]),
       ("model.layers.0.mlp.down_proj.weight", MVal.lst2 [MEntry.fin [[d11], [d21]], MEntry.acc []])]
      "model.layers.0.input_layernorm.weight" [l1]
      = .ok [("model.embed_tokens.weight", MVal.lst [[e1, e2]]),
          ("model.layers.0.self_attn.q_proj.weight", MVal.lst [[q1]]),
          ("model.layers.0.self_attn.k_proj.weight", MVal.lst [[k1]]),
          ("model.layers.0.self_attn.v_proj.weight", MVal.lst [[v1]]),
          ("model.layers.0.self_attn.o_proj.weight", MVal.lst [[[o11], [o21]]]),
          ("model.layers.0.mlp.gate_proj.weight", MVal.lst2 [MEntry.fin [g1], MEntry.acc []]),
          ("model.layers.0.mlp.up_proj.weight", MVal.lst2 [MEntry.fin [u1], MEntry.acc []]),
          ("model.layers.0.mlp.down_proj.weight", MVal.lst2 [MEntry.fin [[d11], [d21]], MEntry.acc []]),
          ("model.layers.0.input_layernorm.weight", MVal.ten [l1])] := by
    rw [mergeOneParam_pass (by decide) (by decide) (by decide)
        (by decide) (by decide) (by decide)]
    simp [dmem, dlookup, dinsert]
  have ma9 : mergeOneParam c1Args c1Cfg
      [("q_proj.weight", "qkv_proj.weight_q"),
             ("k_proj.weight", "qkv_proj.weight_k"),
             ("v_proj.weight", "qkv_proj.weight_v")]
      [("qkv_proj.weight_q", "q_proj.weight"),
             ("qkv_proj.weight_k", "k_proj.weight"),
             ("qkv_proj.weight_v", "v_proj.weight")]
      true 0 0 0
      [("model.embed_tokens.weight", MVal.lst [[e1, e2]]),
       ("model.layers.0.self_attn.q_proj.weight", MVal.lst [[q1]]),
       ("model.layers.0.self_attn.k_proj.weight", MVal.lst [[k1]]),
       ("model.layers.0.self_attn.v_proj.weight", MVal.lst [[v1]]),
       ("model.layers.0.self_attn.o_proj.weight", MVal.lst [[[o11], [o21]]]),
       ("model.layers.0.mlp.gate_proj.weight", MVal.lst2 [MEntry.fin [g1], MEntry.acc []]),
       ("model.layers.0.mlp.up_proj.weight", MVal.lst2 [MEntry.fin [u1], MEntry.acc []]),
       ("model.layers.0.mlp.down_proj.weight", MVal.lst2 [MEntry.fin [[d11], [d21]], MEntry.acc []]),
       ("model.layers.0.input_layernorm.weight", MVal.ten [l1])]
      "model.layers.0.post_attention_layernorm.weight" [l2]
      = .ok [("model.embed_tokens.weight", MVal.lst [[e1, e2]]),
          ("model.layers.0.self_attn.q_proj.weight", MVal.lst [[q1]]),
          ("model.layers.0.self_attn.k_proj.weight", MVal.lst [[k1]]),
          ("model.layers.0.self_attn.v_proj.weight", MVal.lst [[v1]]),
          ("model.layers.0.self_attn.o_proj.weight", MVal.lst [[[o11], [o21]]]),
          ("model.layers.0.mlp.gate_proj.weight", MVal.lst2 [MEntry.fin [g1], MEntry.acc []]),
          ("model.layers.0.mlp.up_proj.weight", MVal.lst2 [MEntry.fin [u1], MEntry.acc []]),
          ("model.layers.0.mlp.down_proj.weight", MVal.lst2 [MEntry.fin [[d11], [d21]], MEntry.acc []]),
          ("model.layers.0.input_layernorm.weight", MVal.ten [l1]),
          ("model.layers.0.post_attention_layernorm.weight", MVal.ten [l2])] := by
    rw [mergeOneParam_pass (by decide) (by decide) (by decide)
        (by decide) (by decide) (by decide)]
    simp [dmem, dlookup, dinsert]
  have ma10 : mergeOneParam c1Args c1Cfg
      [("q_proj.weight", "qkv_proj.weight_q"),
             ("k_proj.weight", "qkv_proj.weight_k"),
             ("v_proj.weight", "qkv_proj.weight_v")]
      [("qkv_proj.weight_q", "q_proj.weight"),
             ("qkv_proj.weight_k", "k_proj.weight"),
             ("qkv_proj.weight_v", "v_proj.weight")]
      true 0 0 0
      [("model.embed_tokens.weight", MVal.lst [[e1, e2]]),
       ("model.layers.0.self_attn.q_proj.weight", MVal.lst [[q1]]),
       ("model.layers.0.self_attn.k_proj.weight", MVal.lst [[k1]]),
       ("model.layers.0.self_attn.v_proj.weight", MVal.lst [[v1]]),
       ("model.layers.0.self_attn.o_proj.weight", MVal.lst [[[o11], [o21]]]),
       ("model.layers.0.mlp.gate_proj.weight", MVal.lst2 [MEntry.fin [g1], MEntry.acc []]),
       ("model.layers.0.mlp.up_proj.weight", MVal.lst2 [MEntry.fin [u1], MEntry.acc []]),
       ("model.layers.0.mlp.down_proj.weight", MVal.lst2 [MEntry.fin [[d11], [d21]], MEntry.acc []]),
       ("model.layers.0.input_layernorm.weight", MVal.ten [l1]),
       ("model.layers.0.post_attention_layernorm.weight", MVal.ten [l2])]
      "model.norm.weight" [n1]
      = .ok [("model.embed_tokens.weight", MVal.lst [[e1, e2]]),
          ("model.layers.0.self_attn.q_proj.weight", MVal.lst [[q1]]),
          ("model.layers.0.self_attn.k_proj.weight", MVal.lst [[k1]]),
          ("model.layers.0.self_attn.v_proj.weight", MVal.lst [[v1]]),
          ("model.layers.0.self_attn.o_proj.weight", MVal.lst [[[o11], [o21]]]),
          ("model.layers.0.mlp.gate_proj.weight", MVal.lst2 [MEntry.fin [g1], MEntry.acc []]),
          ("model.layers.0.mlp.up_proj.weight", MVal.lst2 [MEntry.fin [u1], MEntry.acc []]),
          ("model.layers.0.mlp.down_proj.weight", MVal.lst2 [MEntry.fin [[d11], [d21]], MEntry.acc []]),
          ("model.layers.0.input_layernorm.weight", MVal.ten [l1]),
          ("model.layers.0.post_attention_layernorm.weight", MVal.ten [l2]),
          ("model.norm.weight", MVal.ten [n1])] := by
    rw [mergeOneParam_pass (by decide) (by decide) (by decide)
        (by decide) (by decide) (by decide)]
    simp [dmem, dlookup, dinsert]
  have ma11 : mergeOneParam c1Args c1Cfg
      [("q_proj.weight", "qkv_proj.weight_q"),
             ("k_proj.weight", "qkv_proj.weight_k"),
             ("v_proj.weight", "qkv_proj.weight_v")]
      [("qkv_proj.weight_q", "q_proj.weight"),
             ("qkv_proj.weight_k", "k_proj.weight"),
             ("qkv_proj.weight_v", "v_proj.weight")]
      true 0 0 0
      [("model.embed_tokens.weight", MVal.lst [[e1, e2]]),
       ("model.layers.0.self_attn.q_proj.weight", MVal.lst [[q1]]),
       ("model.layers.0.self_attn.k_proj.weight", MVal.lst [[k1]]),
       ("model.layers.0.self_attn.v_proj.weight", MVal.lst [[v1]]),
       ("model.layers.0.self_attn.o_proj.weight", MVal.lst [[[o11], [o21]]]),
       ("model.layers.0.mlp.gate_proj.weight", MVal.lst2 [MEntry.fin [g1], MEntry.acc []]),
       ("model.layers.0.mlp.up_proj.weight", MVal.lst2 [MEntry.fin [u1], MEntry.acc []]),
       ("model.layers.0.mlp.down_proj.weight", MVal.lst2 [MEntry.fin [[d11], [d21]], MEntry.acc []]),
       ("model.layers.0.input_layernorm.weight", MVal.ten [l1]),
       ("model.layers.0.post_attention_layernorm.weight", MVal.ten [l2]),
       ("model.norm.weight", MVal.ten [n1])]
      "lm_head.weight" [w1]
      = .ok [("model.embed_tokens.weight", MVal.lst [[e1, e2]]),
          ("model.layers.0.self_attn.q_proj.weight", MVal.lst [[q1]]),
          ("model.layers.0.self_attn.k_proj.weight", MVal.lst [[k1]]),
          ("model.layers.0.self_attn.v_proj.weight", MVal.lst [[v1]]),
          ("model.layers.0.self_attn.o_proj.weight", MVal.lst [[[o11], [o21]]]),
          ("model.layers.0.mlp.gate_proj.weight", MVal.lst2 [MEntry.fin [g1], MEntry.acc []]),
          ("model.layers.0.mlp.up_proj.weight", MVal.lst2 [MEntry.fin [u1], MEntry.acc []]),
          ("model.layers.0.mlp.down_proj.weight", MVal.lst2 [MEntry.fin [[d11], [d21]], MEntry.acc []]),
          ("model.layers.0.input_layernorm.weight", MVal.ten [l1]),
          ("model.layers.0.post_attention_layernorm.weight", MVal.ten [l2]),
          ("model.norm.weight", MVal.ten [n1]),
          ("lm_head.weight", MVal.lst [[w1]])] := by
    rw [mergeOneParam_plain_eq (by decide) (by decide) (by decide)
        (show get_partition_dim "lm_head.weight" = .ok 0 from by decide)
        (show get_weight_key [("q_proj.weight", "qkv_proj.weight_q"),
             ("k_proj.weight", "qkv_proj.weight_k"),
             ("v_proj.weight", "qkv_proj.weight_v")]
          [("qkv_proj.weight_q", "q_proj.weight"),
             ("qkv_proj.weight_k", "k_proj.weight"),
             ("qkv_proj.weight_v", "v_proj.weight")]
          "lm_head.weight" false = .ok "lm_head.weight" from by decide),
      accumStep_fresh_mid _ (show dlookup [("model.embed_tokens.weight", MVal.lst [[e1, e2]]),
       ("model.layers.0.self_attn.q_proj.weight", MVal.lst [[q1]]),
       ("model.layers.0.self_attn.k_proj.weight", MVal.lst [[k1]]),
       ("model.layers.0.self_attn.v_proj.weight", MVal.lst [[v1]]),
       ("model.layers.0.self_attn.o_proj.weight", MVal.lst [[[o11], [o21]]]),
       ("model.layers.0.mlp.gate_proj.weight", MVal.lst2 [MEntry.fin [g1], MEntry.acc []]),
       ("model.layers.0.mlp.up_proj.weight", MVal.lst2 [MEntry.fin [u1], MEntry.acc []]),
       ("model.layers.0.mlp.down_proj.weight", MVal.lst2 [MEntry.fin [[d11], [d21]], MEntry.acc []]),
       ("model.layers.0.input_layernorm.weight", MVal.ten [l1]),
       ("model.layers.0.post_attention_layernorm.weight", MVal.ten [l2]),
       ("model.norm.weight", MVal.ten [n1])]
        "lm_head.weight" = none from by simp [dlookup]) (by decide)]
    simp [dinsert]
  have na1 : mergeOneParam c1Args c1Cfg
      [("q_proj.weight", "qkv_proj.weight_q"),
             ("k_proj.weight", "qkv_proj.weight_k"),
             ("v_proj.weight", "qkv_proj.weight_v")]
      [("qkv_proj.weight_q", "q_proj.weight"),
             ("qkv_proj.weight_k", "k_proj.weight"),
             ("qkv_proj.weight_v", "v_proj.weight")]
      true 1 0 0
      [("model.embed_tokens.weight", MVal.lst [[e1, e2]]),
       ("model.layers.0.self_attn.q_proj.weight", MVal.lst [[q1]]),
       ("model.layers.0.self_attn.k_proj.weight", MVal.lst [[k1]]),
       ("model.layers.0.self_attn.v_proj.weight", MVal.lst [[v1]]),
       ("model.layers.0.self_attn.o_proj.weight", MVal.lst [[[o11], [o21]]]),
       ("model.layers.0.mlp.gate_proj.weight", MVal.lst2 [MEntry.fin [g1], MEntry.acc []]),
       ("model.layers.0.mlp.up_proj.weight", MVal.lst2 [MEntry.fin [u1], MEntry.acc []]),
       ("model.layers.0.mlp.down_proj.weight", MVal.lst2 [MEntry.fin [[d11], [d21]], MEntry.acc []]),
       ("model.layers.0.input_layernorm.weight", MVal.ten [l1]),
       ("model.layers.0.post_attention_layernorm.weight", MVal.ten [l2]),
       ("model.norm.weight", MVal.ten [n1]),
       ("lm_head.weight", MVal.lst [[w1]])]
      "model.embed_tokens.weight" [e3, e4]
      = .ok [("model.embed_tokens.weight", MVal.ten [e1, e2, e3, e4]),
          ("model.layers.0.self_attn.q_proj.weight", MVal.lst [[q1]]),
          ("model.layers.0.self_attn.k_proj.weight", MVal.lst [[k1]]),
          ("model.layers.0.self_attn.v_proj.weight", MVal.lst [[v1]]),
          ("model.layers.0.self_attn.o_proj.weight", MVal.lst [[[o11], [o21]]]),
          ("model.layers.0.mlp.gate_proj.weight", MVal.lst2 [MEntry.fin [g1], MEntry.acc []]),
          ("model.layers.0.mlp.up_proj.weight", MVal.lst2 [MEntry.fin [u1], MEntry.acc []]),
          ("model.layers.0.mlp.down_proj.weight", MVal.lst2 [MEntry.fin [[d11], [d21]], MEntry.acc []]),
          ("model.layers.0.input_layernorm.weight", MVal.ten [l1]),
          ("model.layers.0.post_attention_layernorm.weight", MVal.ten [l2]),
          ("model.norm.weight", MVal.ten [n1]),
          ("lm_head.weight", MVal.lst [[w1]])] := by
    rw [mergeOneParam_plain_eq (by decide) (by decide) (by decide)
        (show get_partition_dim "model.embed_tokens.weight" = .ok 0 from by decide)
        (show get_weight_key [("q_proj.weight", "qkv_proj.weight_q"),
             ("k_proj.weight", "qkv_proj.weight_k"),
             ("v_proj.weight", "qkv_proj.weight_v")]
          [("qkv_proj.weight_q", "q_proj.weight"),
             ("qkv_proj.weight_k", "k_proj.weight"),
             ("qkv_proj.weight_v", "v_proj.weight")]
          "model.embed_tokens.weight" false = .ok "model.embed_tokens.weight" from by decide),
      accumStep_acc_last _ (show dlookup [("model.embed_tokens.weight", MVal.lst [[e1, e2]]),
       ("model.layers.0.self_attn.q_proj.weight", MVal.lst [[q1]]),
       ("model.layers.0.self_attn.k_proj.weight", MVal.lst [[k1]]),
       ("model.layers.0.self_attn.v_proj.weight", MVal.lst [[v1]]),
       ("model.layers.0.self_attn.o_proj.weight", MVal.lst [[[o11], [o21]]]),
       ("model.layers.0.mlp.gate_proj.weight", MVal.lst2 [MEntry.fin [g1], MEntry.acc []]),
       ("model.layers.0.mlp.up_proj.weight", MVal.lst2 [MEntry.fin [u1], MEntry.acc []]),
       ("model.layers.0.mlp.down_proj.weight", MVal.lst2 [MEntry.fin [[d11], [d21]], MEntry.acc []]),
       ("model.layers.0.input_layernorm.weight", MVal.ten [l1]),
       ("model.layers.0.post_attention_layernorm.weight", MVal.ten [l2]),
       ("model.norm.weight", MVal.ten [n1]),
       ("lm_head.weight", MVal.lst [[w1]])]
        "model.embed_tokens.weight" = some (.lst [[e1, e2]]) from by simp [dlookup])
        (by decide)]
    simp [dinsert, catDim, catD0]
  have na2 : mergeOneParam c1Args c1Cfg
      [("q_proj.weight", "qkv_proj.weight_q"),
             ("k_proj.weight", "qkv_proj.weight_k"),
             ("v_proj.weight", "qkv_proj.weight_v")]
      [("qkv_proj.weight_q", "q_proj.weight"),
             ("qkv_proj.weight_k", "k_proj.weight"),
             ("qkv_proj.weight_v", "v_proj.weight")]
      true 1 0 0
      [("model.embed_tokens.weight", MVal.ten [e1, e2, e3, e4]),
       ("model.layers.0.self_attn.q_proj.weight", MVal.lst [[q1]]),
       ("model.layers.0.self_attn.k_proj.weight", MVal.lst [[k1]]),
       ("model.layers.0.self_attn.v_proj.weight", MVal.lst [[v1]]),
       ("model.layers.0.self_attn.o_proj.weight", MVal.lst [[[o11], [o21]]]),
       ("model.layers.0.mlp.gate_proj.weight", MVal.lst2 [MEntry.fin [g1], MEntry.acc []]),
       ("model.layers.0.mlp.up_proj.weight", MVal.lst2 [MEntry.fin [u1], MEntry.acc []]),
       ("model.layers.0.mlp.down_proj.weight", MVal.lst2 [MEntry.fin [[d11], [d21]], MEntry.acc []]),
       ("model.layers.0.input_layernorm.weight", MVal.ten [l1]),
       ("model.layers.0.post_attention_layernorm.weight", MVal.ten [l2]),
       ("model.norm.weight", MVal.ten [n1]),
       ("lm_head.weight", MVal.lst [[w1]])]
      "model.layers.0.self_attn.qkv_proj.weight_q" [q2]
      = .ok [("model.embed_tokens.weight", MVal.ten [e1, e2, e3, e4]),
          ("model.layers.0.self_attn.q_proj.weight", MVal.ten [q1, q2]),
          ("model.layers.0.self_attn.k_proj.weight", MVal.lst [[k1]]),
          ("model.layers.0.self_attn.v_proj.weight", MVal.lst [[v1]]),
          ("model.layers.0.self_attn.o_proj.weight", MVal.lst [[[o11], [o21]]]),
          ("model.layers.0.mlp.gate_proj.weight", MVal.lst2 [MEntry.fin [g1], MEntry.acc []]),
          ("model.layers.0.mlp.up_proj.weight", MVal.lst2 [MEntry.fin [u1], MEntry.acc []]),
          ("model.layers.0.mlp.down_proj.weight", MVal.lst2 [MEntry.fin [[d11], [d21]], MEntry.acc []]),
          ("model.layers.0.input_layernorm.weight", MVal.ten [l1]),
          ("model.layers.0.post_attention_layernorm.weight", MVal.ten [l2]),
          ("model.norm.weight", MVal.ten [n1]),
          ("lm_head.weight", MVal.lst [[w1]])] := by
    rw [mergeOneParam_qmerge_eq (by decide)
        (show get_partition_dim "model.layers.0.self_attn.qkv_proj.weight_q" = .ok 0 from by decide)
        (show get_weight_key [("q_proj.weight", "qkv_proj.weight_q"),
             ("k_proj.weight", "qkv_proj.weight_k"),
             ("v_proj.weight", "qkv_proj.weight_v")]
          [("qkv_proj.weight_q", "q_proj.weight"),
             ("qkv_proj.weight_k", "k_proj.weight"),
             ("qkv_proj.weight_v", "v_proj.weight")]
          "model.layers.0.self_attn.qkv_proj.weight_q" false = .ok "model.layers.0.self_attn.q_proj.weight" from by decide)
        (by decide) (by decide),
      accumStep_acc_last _ (show dlookup [("model.embed_tokens.weight", MVal.ten [e1, e2, e3, e4]),
       ("model.layers.0.self_attn.q_proj.weight", MVal.lst [[q1]]),
       ("model.layers.0.self_attn.k_proj.weight", MVal.lst [[k1]]),
       ("model.layers.0.self_attn.v_proj.weight", MVal.lst [[v1]]),
       ("model.layers.0.self_attn.o_proj.weight", MVal.lst [[[o11], [o21]]]),
       ("model.layers.0.mlp.gate_proj.weight", MVal.lst2 [MEntry.fin [g1], MEntry.acc []]),
       ("model.layers.0.mlp.up_proj.weight", MVal.lst2 [MEntry.fin [u1], MEntry.acc []]),
       ("model.layers.0.mlp.down_proj.weight", MVal.lst2 [MEntry.fin [[d11], [d21]], MEntry.acc []]),
       ("model.layers.0.input_layernorm.weight", MVal.ten [l1]),
       ("model.layers.0.post_attention_layernorm.weight", MVal.ten [l2]),
       ("model.norm.weight", MVal.ten [n1]),
       ("lm_head.weight", MVal.lst [[w1]])]
        "model.layers.0.self_attn.q_proj.weight" = some (.lst [[q1]]) from by simp [dlookup])
        (by decide)]
    simp [dinsert, catDim, catD0, c1Args, c1Cfg, hqm]
  have na3 : mergeOneParam c1Args c1Cfg
      [("q_proj.weight", "qkv_proj.weight_q"),
             ("k_proj.weight", "qkv_proj.weight_k"),
             ("v_proj.weight", "qkv_proj.weight_v")]
      [("qkv_proj.weight_q", "q_proj.weight"),
             ("qkv_proj.weight_k", "k_proj.weight"),
             ("qkv_proj.weight_v", "v_proj.weight")]
      true 1 0 0
      [("model.embed_tokens.weight", MVal.ten [e1, e2, e3, e4]),
       ("model.layers.0.self_attn.q_proj.weight", MVal.ten [q1, q2]),
       ("model.layers.0.self_attn.k_proj.weight", MVal.lst [[k1]]),
       ("model.layers.0.self_attn.v_proj.weight", MVal.lst [[v1]]),
       ("model.layers.0.self_attn.o_proj.weight", MVal.lst [[[o11], [o21]]]),
       ("model.layers.0.mlp.gate_proj.weight", MVal.lst2 [MEntry.fin [g1], MEntry.acc []]),
       ("model.layers.0.mlp.up_proj.weight", MVal.lst2 [MEntry.fin [u1], MEntry.acc []]),
       ("model.layers.0.mlp.down_proj.weight", MVal.lst2 [MEntry.fin [[d11], [d21]], MEntry.acc []]),
       ("model.layers.0.input_layernorm.weight", MVal.ten [l1]),
       ("model.layers.0.post_attention_layernorm.weight", MVal.ten [l2]),
       ("model.norm.weight", MVal.ten [n1]),
       ("lm_head.weight", MVal.lst [[w1]])]
      "model.layers.0.self_attn.qkv_proj.weight_k" [k1]
      = .ok [("model.embed_tokens.weight", MVal.ten [e1, e2, e3, e4]),
          ("model.layers.0.self_attn.q_proj.weight", MVal.ten [q1, q2]),
          ("model.layers.0.self_attn.k_proj.weight", MVal.ten [k1]),
          ("model.layers.0.self_attn.v_proj.weight", MVal.lst [[v1]]),
          ("model.layers.0.self_attn.o_proj.weight", MVal.lst [[[o11], [o21]]]),
          ("model.layers.0.mlp.gate_proj.weight", MVal.lst2 [MEntry.fin [g1], MEntry.acc []]),
          ("model.layers.0.mlp.up_proj.weight", MVal.lst2 [MEntry.fin [u1], MEntry.acc []]),
          ("model.layers.0.mlp.down_proj.weight", MVal.lst2 [MEntry.fin [[d11], [d21]], MEntry.acc []]),
          ("model.layers.0.input_layernorm.weight", MVal.ten [l1]),
          ("model.layers.0.post_attention_layernorm.weight", MVal.ten [l2]),
          ("model.norm.weight", MVal.ten [n1]),
          ("lm_head.weight", MVal.lst [[w1]])] := by
    rw [mergeOneParam_kv_eq (by decide)
        (show get_partition_dim "model.layers.0.self_attn.qkv_proj.weight_k" = .ok 0 from by decide)
        (show get_weight_key [("q_proj.weight", "qkv_proj.weight_q"),
             ("k_proj.weight", "qkv_proj.weight_k"),
             ("v_proj.weight", "qkv_proj.weight_v")]
          [("qkv_proj.weight_q", "q_proj.weight"),
             ("qkv_proj.weight_k", "k_proj.weight"),
             ("qkv_proj.weight_v", "v_proj.weight")]
          "model.layers.0.self_attn.qkv_proj.weight_k" false = .ok "model.layers.0.self_attn.k_proj.weight" from by decide)
        (by decide),
      accumStep_acc_last _ (show dlookup [("model.embed_tokens.weight", MVal.ten [e1, e2, e3, e4]),
       ("model.layers.0.self_attn.q_proj.weight", MVal.ten [q1, q2]),
       ("model.layers.0.self_attn.k_proj.weight", MVal.lst [[k1]]),
       ("model.layers.0.self_attn.v_proj.weight", MVal.lst [[v1]]),
       ("model.layers.0.self_attn.o_proj.weight", MVal.lst [[[o11], [o21]]]),
       ("model.layers.0.mlp.gate_proj.weight", MVal.lst2 [MEntry.fin [g1], MEntry.acc []]),
       ("model.layers.0.mlp.up_proj.weight", MVal.lst2 [MEntry.fin [u1], MEntry.acc []]),
       ("model.layers.0.mlp.down_proj.weight", MVal.lst2 [MEntry.fin [[d11], [d21]], MEntry.acc []]),
       ("model.layers.0.input_layernorm.weight", MVal.ten [l1]),
       ("model.layers.0.post_attention_layernorm.weight", MVal.ten [l2]),
       ("model.norm.weight", MVal.ten [n1]),
       ("lm_head.weight", MVal.lst [[w1]])]
        "model.layers.0.self_attn.k_proj.weight" = some (.lst [[k1]]) from by simp [dlookup])
        (by decide)]
    simp [dinsert, catDim, catD0, c1Args, hkm]
  have na4 : mergeOneParam c1Args c1Cfg
      [("q_proj.weight", "qkv_proj.weight_q"),
             ("k_proj.weight", "qkv_proj.weight_k"),
             ("v_proj.weight", "qkv_proj.weight_v")]
      [("qkv_proj.weight_q", "q_proj.weight"),
             ("qkv_proj.weight_k", "k_proj.weight"),
             ("qkv_proj.weight_v", "v_proj.weight")]
      true 1 0 0
      [("model.embed_tokens.weight", MVal.ten [e1, e2, e3, e4]),
       ("model.layers.0.self_attn.q_proj.weight", MVal.ten [q1, q2]),
       ("model.layers.0.self_attn.k_proj.weight", MVal.ten [k1]),
       ("model.layers.0.self_attn.v_proj.weight", MVal.lst [[v1]]),
       ("model.layers.0.self_attn.o_proj.weight", MVal.lst [[[o11], [o21]]]),
       ("model.layers.0.mlp.gate_proj.weight", MVal.lst2 [MEntry.fin [g1], MEntry.acc []]),
       ("model.layers.0.mlp.up_proj.weight", MVal.lst2 [MEntry.fin [u1], MEntry.acc []]),
       ("model.layers.0.mlp.down_proj.weight", MVal.lst2 [MEntry.fin [[d11], [d21]], MEntry.acc []]),
       ("model.layers.0.input_layernorm.weight", MVal.ten [l1]),
       ("model.layers.0.post_attention_layernorm.weight", MVal.ten [l2]),
       ("model.norm.weight", MVal.ten [n1]),
       ("lm_head.weight", MVal.lst [[w1]])]
      "model.layers.0.self_attn.qkv_proj.weight_v" [v1]
      = .ok [("model.embed_tokens.weight", MVal.ten [e1, e2, e3, e4]),
          ("model.layers.0.self_attn.q_proj.weight", MVal.ten [q1, q2]),
          ("model.layers.0.self_attn.k_proj.weight", MVal.ten [k1]),
          ("model.layers.0.self_attn.v_proj.weight", MVal.ten [v1]),
          ("model.layers.0.self_attn.o_proj.weight", MVal.lst [[[o11], [o21]]]),
          ("model.layers.0.mlp.gate_proj.weight", MVal.lst2 [MEntry.fin [g1], MEntry.acc []]),
          ("model.layers.0.mlp.up_proj.weight", MVal.lst2 [MEntry.fin [u1], MEntry.acc []]),
          ("model.layers.0.mlp.down_proj.weight", MVal.lst2 [MEntry.fin [[d11], [d21]], MEntry.acc []]),
          ("model.layers.0.input_layernorm.weight", MVal.ten [l1]),
          ("model.layers.0.post_attention_layernorm.weight", MVal.ten [l2]),
          ("model.norm.weight", MVal.ten [n1]),
          ("lm_head.weight", MVal.lst [[w1]])] := by
    rw [mergeOneParam_kv_eq (by decide)
        (show get_partition_dim "model.layers.0.self_attn.qkv_proj.weight_v" = .ok 0 from by decide)
        (show get_weight_key [("q_proj.weight", "qkv_proj.weight_q"),
             ("k_proj.weight", "qkv_proj.weight_k"),
             ("v_proj.weight", "qkv_proj.weight_v")]
          [("qkv_proj.weight_q", "q_proj.weight"),
             ("qkv_proj.weight_k", "k_proj.weight"),
             ("qkv_proj.weight_v", "v_proj.weight")]
          "model.layers.0.self_attn.qkv_proj.weight_v" false = .ok "model.layers.0.self_attn.v_proj.weight" from by decide)
        (by decide),
      accumStep_acc_last _ (show dlookup [("model.embed_tokens.weight", MVal.ten [e1, e2, e3, e4]),
       ("model.layers.0.self_attn.q_proj.weight", MVal.ten [q1, q2]),
       ("model.layers.0.self_attn.k_proj.weight", MVal.ten [k1]),
       ("model.layers.0.self_attn.v_proj.weight", MVal.lst [[v1]]),
       ("model.layers.0.self_attn.o_proj.weight", MVal.lst [[[o11], [o21]]]),
       ("model.layers.0.mlp.gate_proj.weight", MVal.lst2 [MEntry.fin [g1], MEntry.acc []]),
       ("model.layers.0.mlp.up_proj.weight", MVal.lst2 [MEntry.fin [u1], MEntry.acc []]),
       ("model.layers.0.mlp.down_proj.weight", MVal.lst2 [MEntry.fin [[d11], [d21]], MEntry.acc []]),
       ("model.layers.0.input_layernorm.weight", MVal.ten [l1]),
       ("model.layers.0.post_attention_layernorm.weight", MVal.ten [l2]),
       ("model.norm.weight", MVal.ten [n1]),
       ("lm_head.weight", MVal.lst [[w1]])]
        "model.layers.0.self_attn.v_proj.weight" = some (.lst [[v1]]) from by simp [dlookup])
        (by decide)]
    simp [dinsert, catDim, catD0, c1Args, hvm]
  have na5 : mergeOneParam c1Args c1Cfg
      [("q_proj.weight", "qkv_proj.weight_q"),
             ("k_proj.weight", "qkv_proj.weight_k"),
             ("v_proj.weight", "qkv_proj.weight_v")]
      [("qkv_proj.weight_q", "q_proj.weight"),
             ("qkv_proj.weight_k", "k_proj.weight"),
             ("qkv_proj.weight_v", "v_proj.weight")]
      true 1 0 0
      [("model.embed_tokens.weight", MVal.ten [e1, e2, e3, e4]),
       ("model.layers.0.self_attn.q_proj.weight", MVal.ten [q1, q2]),
       ("model.layers.0.self_attn.k_proj.weight", MVal.ten [k1]),
       ("model.layers.0.self_attn.v_proj.weight", MVal.ten [v1]),
       ("model.layers.0.self_attn.o_proj.weight", MVal.lst [[[o11], [o21]]]),
       ("model.layers.0.mlp.gate_proj.weight", MVal.lst2 [MEntry.fin [g1], MEntry.acc []]),
       ("model.layers.0.mlp.up_proj.weight", MVal.lst2 [MEntry.fin [u1], MEntry.acc []]),
       ("model.layers.0.mlp.down_proj.weight", MVal.lst2 [MEntry.fin [[d11], [d21]], MEntry.acc []]),
       ("model.layers.0.input_layernorm.weight", MVal.ten [l1]),
       ("model.layers.0.post_attention_layernorm.weight", MVal.ten [l2]),
       ("model.norm.weight", MVal.ten [n1]),
       ("lm_head.weight", MVal.lst [[w1]])]
      "model.layers.0.self_attn.o_proj.weight" [[o12], [o22]]
      = .ok [("model.embed_tokens.weight", MVal.ten [e1, e2, e3, e4]),
          ("model.layers.0.self_attn.q_proj.weight", MVal.ten [q1, q2]),
          ("model.layers.0.self_attn.k_proj.weight", MVal.ten [k1]),
          ("model.layers.0.self_attn.v_proj.weight", MVal.ten [v1]),
          ("model.layers.0.self_attn.o_proj.weight", MVal.ten [[o11, o12], [o21, o22]]),
          ("model.layers.0.mlp.gate_proj.weight", MVal.lst2 [MEntry.fin [g1], MEntry.acc []]),
          ("model.layers.0.mlp.up_proj.weight", MVal.lst2 [MEntry.fin [u1], MEntry.acc []]),
          ("model.layers.0.mlp.down_proj.weight", MVal.lst2 [MEntry.fin [[d11], [d21]], MEntry.acc []]),
          ("model.layers.0.input_layernorm.weight", MVal.ten [l1]),
          ("model.layers.0.post_attention_layernorm.weight", MVal.ten [l2]),
          ("model.norm.weight", MVal.ten [n1]),
          ("lm_head.weight", MVal.lst [[w1]])] := by
    rw [mergeOneParam_omerge_eq (by decide)
        (show get_partition_dim "model.layers.0.self_attn.o_proj.weight" = .ok 1 from by decide)
        (show get_weight_key [("q_proj.weight", "qkv_proj.weight_q"),
             ("k_proj.weight", "qkv_proj.weight_k"),
             ("v_proj.weight", "qkv_proj.weight_v")]
          [("qkv_proj.weight_q", "q_proj.weight"),
             ("qkv_proj.weight_k", "k_proj.weight"),
             ("qkv_proj.weight_v", "v_proj.weight")]
          "model.layers.0.self_attn.o_proj.weight" false = .ok "model.layers.0.self_attn.o_proj.weight" from by decide)
        (by decide) (by decide),
      accumStep_acc_last _ (show dlookup [("model.embed_tokens.weight", MVal.ten [e1, e2, e3, e4]),
       ("model.layers.0.self_attn.q_proj.weight", MVal.ten [q1, q2]),
       ("model.layers.0.self_attn.k_proj.weight", MVal.ten [k1]),
       ("model.layers.0.self_attn.v_proj.weight", MVal.ten [v1]),
       ("model.layers.0.self_attn.o_proj.weight", MVal.lst [[[o11], [o21]]]),
       ("model.layers.0.mlp.gate_proj.weight", MVal.lst2 [MEntry.fin [g1], MEntry.acc []]),
       ("model.layers.0.mlp.up_proj.weight", MVal.lst2 [MEntry.fin [u1], MEntry.acc []]),
       ("model.layers.0.mlp.down_proj.weight", MVal.lst2 [MEntry.fin [[d11], [d21]], MEntry.acc []]),
       ("model.layers.0.input_layernorm.weight", MVal.ten [l1]),
       ("model.layers.0.post_attention_layernorm.weight", MVal.ten [l2]),
       ("model.norm.weight", MVal.ten [n1]),
       ("lm_head.weight", MVal.lst [[w1]])]
        "model.layers.0.self_attn.o_proj.weight" = some (.lst [[[o11], [o21]]]) from by simp [dlookup])
        (by decide)]
    simp [dinsert, catDim, catD1, c1Args, c1Cfg, hom]
  have na6 : mergeOneParam c1Args c1Cfg
      [("q_proj.weight", "qkv_proj.weight_q"),
             ("k_proj.weight", "qkv_proj.weight_k"),
             ("v_proj.weight", "qkv_proj.weight_v")]
      [("qkv_proj.weight_q", "q_proj.weight"),
             ("qkv_proj.weight_k", "k_proj.weight"),
             ("qkv_proj.weight_v", "v_proj.weight")]
      true 1 0 0
      [("model.embed_tokens.weight", MVal.ten [e1, e2, e3, e4]),
       ("model.layers.0.self_attn.q_proj.weight", MVal.ten [q1, q2]),
       ("model.layers.0.self_attn.k_proj.weight", MVal.ten [k1]),
       ("model.layers.0.self_attn.v_proj.weight", MVal.ten [v1]),
       ("model.layers.0.self_attn.o_proj.weight", MVal.ten [[o11, o12], [o21, o22]]),
       ("model.layers.0.mlp.gate_proj.weight", MVal.lst2 [MEntry.fin [g1], MEntry.acc []]),
       ("model.layers.0.mlp.up_proj.weight", MVal.lst2 [MEntry.fin [u1], MEntry.acc []]),
       ("model.layers.0.mlp.down_proj.weight", MVal.lst2 [MEntry.fin [[d11], [d21]], MEntry.acc []]),
       ("model.layers.0.input_layernorm.weight", MVal.ten [l1]),
       ("model.layers.0.post_attention_layernorm.weight", MVal.ten [l2]),
       ("model.norm.weight", MVal.ten [n1]),
       ("lm_head.weight", MVal.lst [[w1]])]
      "model.layers.0.mlp.gate_up_proj.weight" [g2, u2]
      = .ok [("model.embed_tokens.weight", MVal.ten [e1, e2, e3, e4]),
          ("model.layers.0.self_attn.q_proj.weight", MVal.ten [q1, q2]),
          ("model.layers.0.self_attn.k_proj.weight", MVal.ten [k1]),
          ("model.layers.0.self_attn.v_proj.weight", MVal.ten [v1]),
          ("model.layers.0.self_attn.o_proj.weight", MVal.ten [[o11, o12], [o21, o22]]),
          ("model.layers.0.mlp.gate_proj.weight", MVal.ten [g1, g2]),
          ("model.layers.0.mlp.up_proj.weight", MVal.ten [u1, u2]),
          ("model.layers.0.mlp.down_proj.weight", MVal.lst2 [MEntry.fin [[d11], [d21]], MEntry.acc []]),
          ("model.layers.0.input_layernorm.weight", MVal.ten [l1]),
          ("model.layers.0.post_attention_layernorm.weight", MVal.ten [l2]),
          ("model.norm.weight", MVal.ten [n1]),
          ("lm_head.weight", MVal.lst [[w1]])] := by
    rw [mergeOneParam_gateup_eq (by decide) (by decide) (by decide)
        (by decide) (by decide)
        (show get_partition_dim "model.layers.0.mlp.gate_up_proj.weight" = .ok 0 from by decide),
      show strReplace "model.layers.0.mlp.gate_up_proj.weight" "gate_up_proj" "gate_proj"
        = "model.layers.0.mlp.gate_proj.weight" from by decide,
      show strReplace "model.layers.0.mlp.gate_up_proj.weight" "gate_up_proj" "up_proj"
        = "model.layers.0.mlp.up_proj.weight" from by decide,
      show narrowD 0 0 (sizeD 0 ([g2, u2] : Mat α) / 2) [g2, u2]
        = [g2] from by simp [narrowD, narrow0, sizeD, size0],
      show narrowD 0 (sizeD 0 ([g2, u2] : Mat α) / 2)
          (sizeD 0 ([g2, u2] : Mat α) / 2) [g2, u2]
        = [u2] from by simp [narrowD, narrow0, sizeD, size0],
      lst2Step_c1_last 0 _ _ (show dlookup [("model.embed_tokens.weight", MVal.ten [e1, e2, e3, e4]),
       ("model.layers.0.self_attn.q_proj.weight", MVal.ten [q1, q2]),
       ("model.layers.0.self_attn.k_proj.weight", MVal.ten [k1]),
       ("model.layers.0.self_attn.v_proj.weight", MVal.ten [v1]),
       ("model.layers.0.self_attn.o_proj.weight", MVal.ten [[o11, o12], [o21, o22]]),
       ("model.layers.0.mlp.gate_proj.weight", MVal.lst2 [MEntry.fin [g1], MEntry.acc []]),
       ("model.layers.0.mlp.up_proj.weight", MVal.lst2 [MEntry.fin [u1], MEntry.acc []]),
       ("model.layers.0.mlp.down_proj.weight", MVal.lst2 [MEntry.fin [[d11], [d21]], MEntry.acc []]),
       ("model.layers.0.input_layernorm.weight", MVal.ten [l1]),
       ("model.layers.0.post_attention_layernorm.weight", MVal.ten [l2]),
       ("model.norm.weight", MVal.ten [n1]),
       ("lm_head.weight", MVal.lst [[w1]])]
        "model.layers.0.mlp.gate_proj.weight" = some (.lst2 [MEntry.fin [g1], MEntry.acc []])
          from by simp [dlookup])]
    rw [show dinsert [("model.embed_tokens.weight", MVal.ten [e1, e2, e3, e4]),
       ("model.layers.0.self_attn.q_proj.weight", MVal.ten [q1, q2]),
       ("model.layers.0.self_attn.k_proj.weight", MVal.ten [k1]),
       ("model.layers.0.self_attn.v_proj.weight", MVal.ten [v1]),
       ("model.layers.0.self_attn.o_proj.weight", MVal.ten [[o11, o12], [o21, o22]]),
       ("model.layers.0.mlp.gate_proj.weight", MVal.lst2 [MEntry.fin [g1], MEntry.acc []]),
       ("model.layers.0.mlp.up_proj.weight", MVal.lst2 [MEntry.fin [u1], MEntry.acc []]),
       ("model.layers.0.mlp.down_proj.weight", MVal.lst2 [MEntry.fin [[d11], [d21]], MEntry.acc []]),
       ("model.layers.0.input_layernorm.weight", MVal.ten [l1]),
       ("model.layers.0.post_attention_layernorm.weight", MVal.ten [l2]),
       ("model.norm.weight", MVal.ten [n1]),
       ("lm_head.weight", MVal.lst [[w1]])]
        "model.layers.0.mlp.gate_proj.weight" (MVal.ten (catDim 0 [[g1], [g2]]))
      = [("model.embed_tokens.weight", MVal.ten [e1, e2, e3, e4]),
       ("model.layers.0.self_attn.q_proj.weight", MVal.ten [q1, q2]),
       ("model.layers.0.self_attn.k_proj.weight", MVal.ten [k1]),
       ("model.layers.0.self_attn.v_proj.weight", MVal.ten [v1]),
       ("model.layers.0.self_attn.o_proj.weight", MVal.ten [[o11, o12], [o21, o22]]),
       ("model.layers.0.mlp.gate_proj.weight", MVal.ten [g1, g2]),
       ("model.layers.0.mlp.up_proj.weight", MVal.lst2 [MEntry.fin [u1], MEntry.acc []]),
       ("model.layers.0.mlp.down_proj.weight", MVal.lst2 [MEntry.fin [[d11], [d21]], MEntry.acc []]),
       ("model.layers.0.input_layernorm.weight", MVal.ten [l1]),
       ("model.layers.0.post_attention_layernorm.weight", MVal.ten [l2]),
       ("model.norm.weight", MVal.ten [n1]),
       ("lm_head.weight", MVal.lst [[w1]])]
      from by simp [dinsert, catDim, catD0]]
    rw [except_bind_ok,
      lst2Step_c1_last 0 _ _ (show dlookup [("model.embed_tokens.weight", MVal.ten [e1, e2, e3, e4]),
       ("model.layers.0.self_attn.q_proj.weight", MVal.ten [q1, q2]),
       ("model.layers.0.self_attn.k_proj.weight", MVal.ten [k1]),
       ("model.layers.0.self_attn.v_proj.weight", MVal.ten [v1]),
       ("model.layers.0.self_attn.o_proj.weight", MVal.ten [[o11, o12], [o21, o22]]),
       ("model.layers.0.mlp.gate_proj.weight", MVal.ten [g1, g2]),
       ("model.layers.0.mlp.up_proj.weight", MVal.lst2 [MEntry.fin [u1], MEntry.acc []]),
       ("model.layers.0.mlp.down_proj.weight", MVal.lst2 [MEntry.fin [[d11], [d21]], MEntry.acc []]),
       ("model.layers.0.input_layernorm.weight", MVal.ten [l1]),
       ("model.layers.0.post_attention_layernorm.weight", MVal.ten [l2]),
       ("model.norm.weight", MVal.ten [n1]),
       ("lm_head.weight", MVal.lst [[w1]])]
        "model.layers.0.mlp.up_proj.weight" = some (.lst2 [MEntry.fin [u1], MEntry.acc []])
          from by simp [dlookup])]
    simp [dinsert, catDim, catD0]
  have na7 : mergeOneParam c1Args c1Cfg
      [("q_proj.weight", "qkv_proj.weight_q"),
             ("k_proj.weight", "qkv_proj.weight_k"),
             ("v_proj.weight", "qkv_proj.weight_v")]
      [("qkv_proj.weight_q", "q_proj.weight"),
             ("qkv_proj.weight_k", "k_proj.weight"),
             ("qkv_proj.weight_v", "v_proj.weight")]
      true 1 0 0
      [("model.embed_tokens.weight", MVal.ten [e1, e2, e3, e4]),
       ("model.layers.0.self_attn.q_proj.weight", MVal.ten [q1, q2]),
       ("model.layers.0.self_attn.k_proj.weight", MVal.ten [k1]),
       ("model.layers.0.self_attn.v_proj.weight", MVal.ten [v1]),
       ("model.layers.0.self_attn.o_proj.weight", MVal.ten [[o11, o12], [o21, o22]]),
       ("model.layers.0.mlp.gate_proj.weight", MVal.ten [g1, g2]),
       ("model.layers.0.mlp.up_proj.weight", MVal.ten [u1, u2]),
       ("model.layers.0.mlp.down_proj.weight", MVal.lst2 [MEntry.fin [[d11], [d21]], MEntry.acc []]),
       ("model.layers.0.input_layernorm.weight", MVal.ten [l1]),
       ("model.layers.0.post_attention_layernorm.weight", MVal.ten [l2]),
       ("model.norm.weight", MVal.ten [n1]),
       ("lm_head.weight", MVal.lst [[w1]])]
      "model.layers.0.mlp.down_proj.weight" [[d12], [d22]]
      = .ok [("model.embed_tokens.weight", MVal.ten [e1, e2, e3, e4]),
          ("model.layers.0.self_attn.q_proj.weight", MVal.ten [q1, q2]),
          ("model.layers.0.self_attn.k_proj.weight", MVal.ten [k1]),
          ("model.layers.0.self_attn.v_proj.weight", MVal.ten [v1]),
          ("model.layers.0.self_attn.o_proj.weight", MVal.ten [[o11, o12], [o21, o22]]),
          ("model.layers.0.mlp.gate_proj.weight", MVal.ten [g1, g2]),
          ("model.layers.0.mlp.up_proj.weight", MVal.ten [u1, u2]),
          ("model.layers.0.mlp.down_proj.weight", MVal.ten [[d11, d12], [d21, d22]]),
          ("model.layers.0.input_layernorm.weight", MVal.ten [l1]),
          ("model.layers.0.post_attention_layernorm.weight", MVal.ten [l2]),
          ("model.norm.weight", MVal.ten [n1]),
          ("lm_head.weight", MVal.lst [[w1]])] := by
    rw [mergeOneParam_down_eq (by decide) (by decide) (by decide)
        (by decide)
        (show get_partition_dim "model.layers.0.mlp.down_proj.weight" = .ok 1 from by decide)
        (show get_weight_key [("q_proj.weight", "qkv_proj.weight_q"),
             ("k_proj.weight", "qkv_proj.weight_k"),
             ("v_proj.weight", "qkv_proj.weight_v")]
          [("qkv_proj.weight_q", "q_proj.weight"),
             ("qkv_proj.weight_k", "k_proj.weight"),
             ("qkv_proj.weight_v", "v_proj.weight")]
          "model.layers.0.mlp.down_proj.weight" false = .ok "model.layers.0.mlp.down_proj.weight" from by decide),
      lst2Step_c1_last 1 _ _ (show dlookup [("model.embed_tokens.weight", MVal.ten [e1, e2, e3, e4]),
       ("model.layers.0.self_attn.q_proj.weight", MVal.ten [q1, q2]),
       ("model.layers.0.self_attn.k_proj.weight", MVal.ten [k1]),
       ("model.layers.0.self_attn.v_proj.weight", MVal.ten [v1]),
       ("model.layers.0.self_attn.o_proj.weight", MVal.ten [[o11, o12], [o21, o22]]),
       ("model.layers.0.mlp.gate_proj.weight", MVal.ten [g1, g2]),
       ("model.layers.0.mlp.up_proj.weight", MVal.ten [u1, u2]),
       ("model.layers.0.mlp.down_proj.weight", MVal.lst2 [MEntry.fin [[d11], [d21]], MEntry.acc []]),
       ("model.layers.0.input_layernorm.weight", MVal.ten [l1]),
       ("model.layers.0.post_attention_layernorm.weight", MVal.ten [l2]),
       ("model.norm.weight", MVal.ten [n1]),
       ("lm_head.weight", MVal.lst [[w1]])]
        "model.layers.0.mlp.down_proj.weight" = some (.lst2 [MEntry.fin [[d11], [d21]], MEntry.acc []])
          from by simp [dlookup])]
    simp [dinsert, catDim, catD1]
  have na8 : mergeOneParam c1Args c1Cfg
      [("q_proj.weight", "qkv_proj.weight_q"),
             ("k_proj.weight", "qkv_proj.weight_k"),
             ("v_proj.weight", "qkv_proj.weight_v")]
      [("qkv_proj.weight_q", "q_proj.weight"),
             ("qkv_proj.weight_k", "k_proj.weight"),
             ("qkv_proj.weight_v", "v_proj.weight")]
      true 1 0 0
      [("model.embed_tokens.weight", MVal.ten [e1, e2, e3, e4]),
       ("model.layers.0.self_attn.q_proj.weight", MVal.ten [q1, q2]),
       ("model.layers.0.self_attn.k_proj.weight", MVal.ten [k1]),
       ("model.layers.0.self_attn.v_proj.weight", MVal.ten [v1]),
       ("model.layers.0.self_attn.o_proj.weight", MVal.ten [[o11, o12], [o21, o22]]),
       ("model.layers.0.mlp.gate_proj.weight", MVal.ten [g1, g2]),
       ("model.layers.0.mlp.up_proj.weight", MVal.ten [u1, u2]),
       ("model.layers.0.mlp.down_proj.weight", MVal.ten [[d11, d12], [d21, d22]]),
       ("model.layers.0.input_layernorm.weight", MVal.ten [l1]),
       ("model.layers.0.post_attention_layernorm.weight", MVal.ten [l2]),
       ("model.norm.weight", MVal.ten [n1]),
       ("lm_head.weight", MVal.lst [[w1]])]
      "model.layers.0.input_layernorm.weight" [l1]
      = .ok [("model.embed_tokens.weight", MVal.ten [e1, e2, e3, e4]),
          ("model.layers.0.self_attn.q_proj.weight", MVal.ten [q1, q2]),
          ("model.layers.0.self_attn.k_proj.weight", MVal.ten [k1]),
          ("model.layers.0.self_attn.v_proj.weight", MVal.ten [v1]),
          ("model.layers.0.self_attn.o_proj.weight", MVal.ten [[o11, o12], [o21, o22]]),
          ("model.layers.0.mlp.gate_proj.weight", MVal.ten [g1, g2]),
          ("model.layers.0.mlp.up_proj.weight", MVal.ten [u1, u2]),
          ("model.layers.0.mlp.down_proj.weight", MVal.ten [[d11, d12], [d21, d22]]),
          ("model.layers.0.input_layernorm.weight", MVal.ten [l1]),
          ("model.layers.0.post_attention_layernorm.weight", MVal.ten [l2]),
          ("model.norm.weight", MVal.ten [n1]),
          ("lm_head.weight", MVal.lst [[w1]])] := by
    rw [mergeOneParam_pass (by decide) (by decide) (by decide)
        (by decide) (by decide) (by decide)]
    simp [dmem, dlookup]
  have na9 : mergeOneParam c1Args c1Cfg
      [("q_proj.weight", "qkv_proj.weight_q"),
             ("k_proj.weight", "qkv_proj.weight_k"),
             ("v_proj.weight", "qkv_proj.weight_v")]
      [("qkv_proj.weight_q", "q_proj.weight"),
             ("qkv_proj.weight_k", "k_proj.weight"),
             ("qkv_proj.weight_v", "v_proj.weight")]
      true 1 0 0
      [("model.embed_tokens.weight", MVal.ten [e1, e2, e3, e4]),
       ("model.layers.0.self_attn.q_proj.weight", MVal.ten [q1, q2]),
       ("model.layers.0.self_attn.k_proj.weight", MVal.ten [k1]),
       ("model.layers.0.self_attn.v_proj.weight", MVal.ten [v1]),
       ("model.layers.0.self_attn.o_proj.weight", MVal.ten [[o11, o12], [o21, o22]]),
       ("model.layers.0.mlp.gate_proj.weight", MVal.ten [g1, g2]),
       ("model.layers.0.mlp.up_proj.weight", MVal.ten [u1, u2]),
       ("model.layers.0.mlp.down_proj.weight", MVal.ten [[d11, d12], [d21, d22]]),
       ("model.layers.0.input_layernorm.weight", MVal.ten [l1]),
       ("model.layers.0.post_attention_layernorm.weight", MVal.ten [l2]),
       ("model.norm.weight", MVal.ten [n1]),
       ("lm_head.weight", MVal.lst [[w1]])]
      "model.layers.0.post_attention_layernorm.weight" [l2]
      = .ok [("model.embed_tokens.weight", MVal.ten [e1, e2, e3, e4]),
          ("model.layers.0.self_attn.q_proj.weight", MVal.ten [q1, q2]),
          ("model.layers.0.self_attn.k_proj.weight", MVal.ten [k1]),
          ("model.layers.0.self_attn.v_proj.weight", MVal.ten [v1]),
          ("model.layers.0.self_attn.o_proj.weight", MVal.ten [[o11, o12], [o21, o22]]),
          ("model.layers.0.mlp.gate_proj.weight", MVal.ten [g1, g2]),
          ("model.layers.0.mlp.up_proj.weight", MVal.ten [u1, u2]),
          ("model.layers.0.mlp.down_proj.weight", MVal.ten [[d11, d12], [d21, d22]]),
          ("model.layers.0.input_layernorm.weight", MVal.ten [l1]),
          ("model.layers.0.post_attention_layernorm.weight", MVal.ten [l2]),
          ("model.norm.weight", MVal.ten [n1]),
          ("lm_head.weight", MVal.lst [[w1]])] := by
    rw [mergeOneParam_pass (by decide) (by decide) (by decide)
        (by decide) (by decide) (by decide)]
    simp [dmem, dlookup]
  have na10 : mergeOneParam c1Args c1Cfg
      [("q_proj.weight", "qkv_proj.weight_q"),
             ("k_proj.weight", "qkv_proj.weight_k"),
             ("v_proj.weight", "qkv_proj.weight_v")]
      [("qkv_proj.weight_q", "q_proj.weight"),
             ("qkv_proj.weight_k", "k_proj.weight"),
             ("qkv_proj.weight_v", "v_proj.weight")]
      true 1 0 0
      [("model.embed_tokens.weight", MVal.ten [e1, e2, e3, e4]),
       ("model.layers.0.self_attn.q_proj.weight", MVal.ten [q1, q2]),
       ("model.layers.0.self_attn.k_proj.weight", MVal.ten [k1]),
       ("model.layers.0.self_attn.v_proj.weight", MVal.ten [v1]),
       ("model.layers.0.self_attn.o_proj.weight", MVal.ten [[o11, o12], [o21, o22]]),
       ("model.layers.0.mlp.gate_proj.weight", MVal.ten [g1, g2]),
       ("model.layers.0.mlp.up_proj.weight", MVal.ten [u1, u2]),
       ("model.layers.0.mlp.down_proj.weight", MVal.ten [[d11, d12], [d21, d22]]),
       ("model.layers.0.input_layernorm.weight", MVal.ten [l1]),
       ("model.layers.0.post_attention_layernorm.weight", MVal.ten [l2]),
       ("model.norm.weight", MVal.ten [n1]),
       ("lm_head.weight", MVal.lst [[w1]])]
      "model.norm.weight" [n1]
      = .ok [("model.embed_tokens.weight", MVal.ten [e1, e2, e3, e4]),
          ("model.layers.0.self_attn.q_proj.weight", MVal.ten [q1, q2]),
          ("model.layers.0.self_attn.k_proj.weight", MVal.ten [k1]),
          ("model.layers.0.self_attn.v_proj.weight", MVal.ten [v1]),
          ("model.layers.0.self_attn.o_proj.weight", MVal.ten [[o11, o12], [o21, o22]]),
          ("model.layers.0.mlp.gate_proj.weight", MVal.ten [g1, g2]),
          ("model.layers.0.mlp.up_proj.weight", MVal.ten [u1, u2]),
          ("model.layers.0.mlp.down_proj.weight", MVal.ten [[d11, d12], [d21, d22]]),
          ("model.layers.0.input_layernorm.weight", MVal.ten [l1]),
          ("model.layers.0.post_attention_layernorm.weight", MVal.ten [l2]),
          ("model.norm.weight", MVal.ten [n1]),
          ("lm_head.weight", MVal.lst [[w1]])] := by
    rw [mergeOneParam_pass (by decide) (by decide) (by decide)
        (by decide) (by decide) (by decide)]
    simp [dmem, dlookup]
  have na11 : mergeOneParam c1Args c1Cfg
      [("q_proj.weight", "qkv_proj.weight_q"),
             ("k_proj.weight", "qkv_proj.weight_k"),
             ("v_proj.weight", "qkv_proj.weight_v")]
      [("qkv_proj.weight_q", "q_proj.weight"),
             ("qkv_proj.weight_k", "k_proj.weight"),
             ("qkv_proj.weight_v", "v_proj.weight")]
      true 1 0 0
      [("model.embed_tokens.weight", MVal.ten [e1, e2, e3, e4]),
       ("model.layers.0.self_attn.q_proj.weight", MVal.ten [q1, q2]),
       ("model.layers.0.self_attn.k_proj.weight", MVal.ten [k1]),
       ("model.layers.0.self_attn.v_proj.weight", MVal.ten [v1]),
       ("model.layers.0.self_attn.o_proj.weight", MVal.ten [[o11, o12], [o21, o22]]),
       ("model.layers.0.mlp.gate_proj.weight", MVal.ten [g1, g2]),
       ("model.layers.0.mlp.up_proj.weight", MVal.ten [u1, u2]),
       ("model.layers.0.mlp.down_proj.weight", MVal.ten [[d11, d12], [d21, d22]]),
       ("model.layers.0.input_layernorm.weight", MVal.ten [l1]),
       ("model.layers.0.post_attention_layernorm.weight", MVal.ten [l2]),
       ("model.norm.weight", MVal.ten [n1]),
       ("lm_head.weight", MVal.lst [[w1]])]
      "lm_head.weight" [w2]
      = .ok [("model.embed_tokens.weight", MVal.ten [e1, e2, e3, e4]),
          ("model.layers.0.self_attn.q_proj.weight", MVal.ten [q1, q2]),
          ("model.layers.0.self_attn.k_proj.weight", MVal.ten [k1]),
          ("model.layers.0.self_attn.v_proj.weight", MVal.ten [v1]),
          ("model.layers.0.self_attn.o_proj.weight", MVal.ten [[o11, o12], [o21, o22]]),
          ("model.layers.0.mlp.gate_proj.weight", MVal.ten [g1, g2]),
          ("model.layers.0.mlp.up_proj.weight", MVal.ten [u1, u2]),
          ("model.layers.0.mlp.down_proj.weight", MVal.ten [[d11, d12], [d21, d22]]),
          ("model.layers.0.input_layernorm.weight", MVal.ten [l1]),
          ("model.layers.0.post_attention_layernorm.weight", MVal.ten [l2]),
          ("model.norm.weight", MVal.ten [n1]),
          ("lm_head.weight", MVal.ten [w1, w2])] := by
    rw [mergeOneParam_plain_eq (by decide) (by decide) (by decide)
        (show get_partition_dim "lm_head.weight" = .ok 0 from by decide)
        (show get_weight_key [("q_proj.weight", "qkv_proj.weight_q"),
             ("k_proj.weight", "qkv_proj.weight_k"),
             ("v_proj.weight", "qkv_proj.weight_v")]
          [("qkv_proj.weight_q", "q_proj.weight"),
             ("qkv_proj.weight_k", "k_proj.weight"),
             ("qkv_proj.weight_v", "v_proj.weight")]
          "lm_head.weight" false = .ok "lm_head.weight" from by decide),
      accumStep_acc_last _ (show dlookup [("model.embed_tokens.weight", MVal.ten [e1, e2, e3, e4]),
       ("model.layers.0.self_attn.q_proj.weight", MVal.ten [q1, q2]),
       ("model.layers.0.self_attn.k_proj.weight", MVal.ten [k1]),
       ("model.layers.0.self_attn.v_proj.weight", MVal.ten [v1]),
       ("model.layers.0.self_attn.o_proj.weight", MVal.ten [[o11, o12], [o21, o22]]),
       ("model.layers.0.mlp.gate_proj.weight", MVal.ten [g1, g2]),
       ("model.layers.0.mlp.up_proj.weight", MVal.ten [u1, u2]),
       ("model.layers.0.mlp.down_proj.weight", MVal.ten [[d11, d12], [d21, d22]]),
       ("model.layers.0.input_layernorm.weight", MVal.ten [l1]),
       ("model.layers.0.post_attention_layernorm.weight", MVal.ten [l2]),
       ("model.norm.weight", MVal.ten [n1]),
       ("lm_head.weight", MVal.lst [[w1]])]
        "lm_head.weight" = some (.lst [[w1]]) from by simp [dlookup])
        (by decide)]
    simp [dinsert, catDim, catD0]
  rw [merge_tp_pp1_ep1_eq rfl rfl,
    show List.range c1Args.tp_size = [0, 1] from rfl]
  simp only [List.foldlM_cons, List.foldlM_nil]
  show (mergeOneState c1Args c1Cfg 0 0 0 []
      [("model.embed_tokens.weight", [e1, e2]),
         ("model.layers.0.self_attn.qkv_proj.weight_q", [q1]),
         ("model.layers.0.self_attn.qkv_proj.weight_k", [k1]),
         ("model.layers.0.self_attn.qkv_proj.weight_v", [v1]),
         ("model.layers.0.self_attn.o_proj.weight", [[o11], [o21]]),
         ("model.layers.0.mlp.gate_up_proj.weight", [g1, u1]),
         ("model.layers.0.mlp.down_proj.weight", [[d11], [d21]]),
         ("model.layers.0.input_layernorm.weight", [l1]),
         ("model.layers.0.post_attention_layernorm.weight", [l2]),
         ("model.norm.weight", [n1]),
         ("lm_head.weight", [w1])]
    >>= fun b => mergeOneState c1Args c1Cfg 1 0 0 b
      [("model.embed_tokens.weight", [e3, e4]),
         ("model.layers.0.self_attn.qkv_proj.weight_q", [q2]),
         ("model.layers.0.self_attn.qkv_proj.weight_k", [k1]),
         ("model.layers.0.self_attn.qkv_proj.weight_v", [v1]),
         ("model.layers.0.self_attn.o_proj.weight", [[o12], [o22]]),
         ("model.layers.0.mlp.gate_up_proj.weight", [g2, u2]),
         ("model.layers.0.mlp.down_proj.weight", [[d12], [d22]]),
         ("model.layers.0.input_layernorm.weight", [l1]),
         ("model.layers.0.post_attention_layernorm.weight", [l2]),
         ("model.norm.weight", [n1]),
         ("lm_head.weight", [w2])]
    >>= fun b => pure b) = _
  simp only [c1_mergeOneState, List.foldlM_cons, List.foldlM_nil]
  simp only [ma1, except_bind_ok, ma2, ma3, ma4, ma5, ma6, ma7, ma8, ma9,
    ma10, ma11, na1, na2, na3, na4, na5, na6, na7, na8, na9, na10, na11,
    except_pure]

set_option maxRecDepth 8192 in
/-- Witness for C1's amended theorem at a concrete instance of the
representative full state (`α = ℕ`). -/
theorem c1_roundtrip_ep1_witness :
    merge_tp_checkpoints c1Args c1Cfg (fun tp _ _ =>
      if tp = 0 then
        ([("model.embed_tokens.weight", [[1], [2]]),
         ("model.layers.0.self_attn.qkv_proj.weight_q", [[11, 12]]),
         ("model.layers.0.self_attn.qkv_proj.weight_k", [[21, 22]]),
         ("model.layers.0.self_attn.qkv_proj.weight_v", [[31, 32]]),
         ("model.layers.0.self_attn.o_proj.weight", [[91], [93]]),
         ("model.layers.0.mlp.gate_up_proj.weight", [[41, 42], [51, 52]]),
         ("model.layers.0.mlp.down_proj.weight", [[95], [97]]),
         ("model.layers.0.input_layernorm.weight", [[61, 62]]),
         ("model.layers.0.post_attention_layernorm.weight", [[63, 64]]),
         ("model.norm.weight", [[71, 72]]),
         ("lm_head.weight", [[81, 82]])] : StateL (Mat ℕ))
      else
        [("model.embed_tokens.weight", [[3], [4]]),
         ("model.layers.0.self_attn.qkv_proj.weight_q", [[13, 14]]),
         ("model.layers.0.self_attn.qkv_proj.weight_k", [[21, 22]]),
         ("model.layers.0.self_attn.qkv_proj.weight_v", [[31, 32]]),
         ("model.layers.0.self_attn.o_proj.weight", [[92], [94]]),
         ("model.layers.0.mlp.gate_up_proj.weight", [[43, 44], [53, 54]]),
         ("model.layers.0.mlp.down_proj.weight", [[96], [98]]),
         ("model.layers.0.input_layernorm.weight", [[61, 62]]),
         ("model.layers.0.post_attention_layernorm.weight", [[63, 64]]),
         ("model.norm.weight", [[71, 72]]),
         ("lm_head.weight", [[83, 84]])])
      = .ok [("model.embed_tokens.weight", MVal.ten [[1], [2], [3], [4]]),
         ("model.layers.0.self_attn.q_proj.weight", MVal.ten [[11, 12], [13, 14]]),
         ("model.layers.0.self_attn.k_proj.weight", MVal.ten [[21, 22]]),
         ("model.layers.0.self_attn.v_proj.weight", MVal.ten [[31, 32]]),
         ("model.layers.0.self_attn.o_proj.weight", MVal.ten [[91, 92], [93, 94]]),
         ("model.layers.0.mlp.gate_proj.weight", MVal.ten [[41, 42], [43, 44]]),
         ("model.layers.0.mlp.up_proj.weight", MVal.ten [[51, 52], [53, 54]]),
         ("model.layers.0.mlp.down_proj.weight", MVal.ten [[95, 96], [97, 98]]),
         ("model.layers.0.input_layernorm.weight", MVal.ten [[61, 62]]),
         ("model.layers.0.post_attention_layernorm.weight", MVal.ten [[63, 64]]),
         ("model.norm.weight", MVal.ten [[71, 72]]),
         ("lm_head.weight", MVal.ten [[81, 82], [83, 84]])] :=
  c1_roundtrip_ep1 [1] [2] [3] [4] [11, 12] [13, 14] [21, 22] [31, 32]
    [41, 42] [43, 44] [51, 52] [53, 54] [61, 62] [63, 64] [71, 72]
    [81, 82] [83, 84] 91 92 93 94 95 96 97 98
    ([("model.embed_tokens.weight", [[1], [2]]),
     ("model.layers.0.self_attn.qkv_proj.weight_q", [[11, 12]]),
     ("model.layers.0.self_attn.qkv_proj.weight_k", [[21, 22]]),
     ("model.layers.0.self_attn.qkv_proj.weight_v", [[31, 32]]),
     ("model.layers.0.self_attn.o_proj.weight", [[91], [93]]),
     ("model.layers.0.mlp.gate_up_proj.weight", [[41, 42], [51, 52]]),
     ("model.layers.0.mlp.down_proj.weight", [[95], [97]]),
     ("model.layers.0.input_layernorm.weight", [[61, 62]]),
     ("model.layers.0.post_attention_layernorm.weight", [[63, 64]]),
     ("model.norm.weight", [[71, 72]]),
     ("lm_head.weight", [[81, 82]])])
    ([("model.embed_tokens.weight", [[3], [4]]),
     ("model.layers.0.self_attn.qkv_proj.weight_q", [[13, 14]]),
     ("model.layers.0.self_attn.qkv_proj.weight_k", [[21, 22]]),
     ("model.layers.0.self_attn.qkv_proj.weight_v", [[31, 32]]),
     ("model.layers.0.self_attn.o_proj.weight", [[92], [94]]),
     ("model.layers.0.mlp.gate_up_proj.weight", [[43, 44], [53, 54]]),
     ("model.layers.0.mlp.down_proj.weight", [[96], [98]]),
     ("model.layers.0.input_layernorm.weight", [[61, 62]]),
     ("model.layers.0.post_attention_layernorm.weight", [[63, 64]]),
     ("model.norm.weight", [[71, 72]]),
     ("lm_head.weight", [[83, 84]])])
    (by decide) (by decide)

end CkptConv
